import Mathlib

/-!
# Geeqie preferences dialog: slideshow delay and stereo mode

A shallow embedding of the arithmetic and bit-mask logic of
`src/preferences.c`:

* the slideshow delay callbacks `slideshow_delay_hours_cb`,
  `slideshow_delay_minutes_cb`, `slideshow_delay_seconds_cb` and the
  decomposition computed in `config_tab_general`;
* the stereo mode menu (`stereo_mode_menu_cb`, `add_stereo_mode_menu`), the
  staging of the modifier flags in `config_tab_stereo` and the mask written by
  `config_window_apply`;
* the dialog on the explicit state of the live `options` and the staged `c_options`:
  the widget callbacks, `config_window_create`, `config_window_close_cb`,
  `config_window_apply` and the thumbnail size menu;
* the thumbnail cache radio buttons, the file filter toggles, the accelerator store
  and the authors table of `show_about_window`.

Conventions of the embedding.

* A `gint` is an `Int`.  C's `/` and `%` truncate toward zero, so they are
  `Int.tdiv` and `Int.tmod`.  C's `&` and `|` on two's complement integers are
  `Int.land` and `Int.lor`.
* A `gdouble` is an exact rational (`ℚ`); the literal `0.01` is `1/100`.  The
  conversion of a `gdouble` to `gint` truncates toward zero.  Rounding errors of
  binary floating point are not modelled: the properties of the seconds spin value
  are stated for exact tenths `k/10`, where the rational and the binary computation
  give the same count.
* The callbacks `slideshow_delay_hours_cb`, `slideshow_delay_minutes_cb` and
  `slideshow_delay_seconds_cb` compute on unbounded integers; they give the value
  the code stores as long as no conversion and no addition leaves the range of
  `gint`.  Their variants `slideshow_delay_hours_cb_gint`,
  `slideshow_delay_minutes_cb_gint` and `slideshow_delay_seconds_cb_gint` carry the
  32-bit range of `gint`: an operation that overflows is undefined in C and has no
  result (`none`).
* A `gboolean` is a `gint`; it is true when it is not `0`.
-/

namespace Geeqie

/-! ## Constants that come from headers outside the two source files -/

/-- Modelled from the spec: the macro `SLIDESHOW_SUBSECOND_PRECISION` of
`slideshow.h`, which is not among the sources.  The spec fixes it as the number of
tenths per second, `P = 10`. -/
def SLIDESHOW_SUBSECOND_PRECISION : Int := 10

/-- Conversion of a `gdouble` to a `gint`: C truncates toward zero.  The result is
the mathematical truncation; the C conversion is defined only when that value is in
the range of `gint`, which `gint_of_gdouble_checked` tests. -/
def gint_of_gdouble (x : ℚ) : Int :=
  if 0 ≤ x then ⌊x⌋ else ⌈x⌉

/-- The value of `SLIDESHOW_MIN_SECONDS * SLIDESHOW_SUBSECOND_PRECISION` once it is
stored in the `gint` field `slideshow.delay`.  The macro `SLIDESHOW_MIN_SECONDS`
comes from `slideshow.h` (not among the sources) and is a parameter, a number of
seconds that may be fractional. -/
def slideshow_floor (SLIDESHOW_MIN_SECONDS : ℚ) : Int :=
  gint_of_gdouble (SLIDESHOW_MIN_SECONDS * (SLIDESHOW_SUBSECOND_PRECISION : ℚ))

/-! ## Slideshow delay callbacks (`preferences.c`, lines 149-191) -/

/-- `slideshow_delay_hours_cb`: `spin` is `gtk_spin_button_get_value`, `delay0` is
`c_options->slideshow.delay` on entry; the result is the value stored in
`c_options->slideshow.delay`. -/
def slideshow_delay_hours_cb (SLIDESHOW_MIN_SECONDS : ℚ) (spin : ℚ) (delay0 : Int) : Int :=
  let mins_secs_tenths : Int := Int.tmod delay0 (3600 * SLIDESHOW_SUBSECOND_PRECISION)
  let delay : Int :=
    gint_of_gdouble (spin * (((3600 * SLIDESHOW_SUBSECOND_PRECISION : Int)) : ℚ)
      + (mins_secs_tenths : ℚ))
  if delay > 0 then delay else slideshow_floor SLIDESHOW_MIN_SECONDS

/-- `slideshow_delay_minutes_cb`. -/
def slideshow_delay_minutes_cb (SLIDESHOW_MIN_SECONDS : ℚ) (spin : ℚ) (delay0 : Int) : Int :=
  let hours : Int := Int.tdiv delay0 (3600 * SLIDESHOW_SUBSECOND_PRECISION)
  let secs_tenths : Int := Int.tmod delay0 (60 * SLIDESHOW_SUBSECOND_PRECISION)
  let delay : Int :=
    gint_of_gdouble (((hours * (3600 * SLIDESHOW_SUBSECOND_PRECISION) : Int) : ℚ)
      + (spin * (((60 * SLIDESHOW_SUBSECOND_PRECISION : Int)) : ℚ) + (secs_tenths : ℚ)))
  if delay > 0 then delay else slideshow_floor SLIDESHOW_MIN_SECONDS

/-- The tenths count of `slideshow_delay_seconds_cb`:
`(gint)(gtk_spin_button_get_value(spin) * (gdouble)(SLIDESHOW_SUBSECOND_PRECISION) + 0.01)`,
in exact rational arithmetic. -/
def seconds_spin_tenths (spin : ℚ) : Int :=
  gint_of_gdouble (spin * (SLIDESHOW_SUBSECOND_PRECISION : ℚ) + 1 / 100)

/-- `slideshow_delay_seconds_cb`. -/
def slideshow_delay_seconds_cb (SLIDESHOW_MIN_SECONDS : ℚ) (spin : ℚ) (delay0 : Int) : Int :=
  let hours_mins : Int := Int.tdiv delay0 (60 * SLIDESHOW_SUBSECOND_PRECISION)
  let delay : Int :=
    (hours_mins * (60 * SLIDESHOW_SUBSECOND_PRECISION)) + seconds_spin_tenths spin
  if delay > 0 then delay else slideshow_floor SLIDESHOW_MIN_SECONDS

/-! ## The slideshow delay callbacks with the range of `gint` -/

/-- `G_MAXINT`, the largest value of a `gint` (32 bits, two's complement). -/
def G_MAXINT : Int := 2147483647

/-- `G_MININT`, the smallest value of a `gint`. -/
def G_MININT : Int := -2147483648

/-- A `gint` operation whose mathematical result is `n`.  The result is `n` when `n`
is in the range of `gint`; otherwise the operation overflows, which C leaves
undefined, and there is no result. -/
def gint_checked (n : Int) : Option Int :=
  if G_MININT ≤ n ∧ n ≤ G_MAXINT then some n else none

/-- Conversion of a `gdouble` to a `gint` with the range of `gint`: defined when the
truncated value is a `gint`. -/
def gint_of_gdouble_checked (x : ℚ) : Option Int :=
  gint_checked (gint_of_gdouble x)

/-- The last statement of the three callbacks,
`c_options->slideshow.delay = delay > 0 ? delay : SLIDESHOW_MIN_SECONDS * SLIDESHOW_SUBSECOND_PRECISION`:
the value stored in the `gint` field. -/
def slideshow_delay_store (SLIDESHOW_MIN_SECONDS : ℚ) (delay : Int) : Option Int :=
  if delay > 0 then some delay
  else gint_of_gdouble_checked (SLIDESHOW_MIN_SECONDS * (SLIDESHOW_SUBSECOND_PRECISION : ℚ))

/-- `slideshow_delay_hours_cb` with the range of `gint`: the `gdouble` sum is
converted to the `gint` local `delay`. -/
def slideshow_delay_hours_cb_gint (SLIDESHOW_MIN_SECONDS : ℚ) (spin : ℚ) (delay0 : Int) :
    Option Int :=
  let mins_secs_tenths : Int := Int.tmod delay0 (3600 * SLIDESHOW_SUBSECOND_PRECISION)
  (gint_of_gdouble_checked (spin * (((3600 * SLIDESHOW_SUBSECOND_PRECISION : Int)) : ℚ)
      + (mins_secs_tenths : ℚ))).bind
    fun delay => slideshow_delay_store SLIDESHOW_MIN_SECONDS delay

/-- `slideshow_delay_minutes_cb` with the range of `gint`: the product
`hours * (3600 * SLIDESHOW_SUBSECOND_PRECISION)` is a `gint` multiplication, and the
`gdouble` sum is converted to the `gint` local `delay`. -/
def slideshow_delay_minutes_cb_gint (SLIDESHOW_MIN_SECONDS : ℚ) (spin : ℚ) (delay0 : Int) :
    Option Int :=
  let hours : Int := Int.tdiv delay0 (3600 * SLIDESHOW_SUBSECOND_PRECISION)
  let secs_tenths : Int := Int.tmod delay0 (60 * SLIDESHOW_SUBSECOND_PRECISION)
  (gint_checked (hours * (3600 * SLIDESHOW_SUBSECOND_PRECISION))).bind fun hours_part =>
  (gint_of_gdouble_checked ((hours_part : ℚ)
      + (spin * (((60 * SLIDESHOW_SUBSECOND_PRECISION : Int)) : ℚ) + (secs_tenths : ℚ)))).bind
    fun delay => slideshow_delay_store SLIDESHOW_MIN_SECONDS delay

/-- `slideshow_delay_seconds_cb` with the range of `gint`: the product
`hours_mins * (60 * SLIDESHOW_SUBSECOND_PRECISION)` is a `gint` multiplication, the
cast `(gint)(...)` converts the tenths count, and the sum of the two is a `gint`
addition. -/
def slideshow_delay_seconds_cb_gint (SLIDESHOW_MIN_SECONDS : ℚ) (spin : ℚ) (delay0 : Int) :
    Option Int :=
  let hours_mins : Int := Int.tdiv delay0 (60 * SLIDESHOW_SUBSECOND_PRECISION)
  (gint_checked (hours_mins * (60 * SLIDESHOW_SUBSECOND_PRECISION))).bind fun hours_mins_part =>
  (gint_of_gdouble_checked (spin * (SLIDESHOW_SUBSECOND_PRECISION : ℚ) + 1 / 100)).bind
    fun tenths =>
  (gint_checked (hours_mins_part + tenths)).bind
    fun delay => slideshow_delay_store SLIDESHOW_MIN_SECONDS delay

/-- The macro `SLIDESHOW_MIN_SECONDS` as `slideshow.h` of the program defines it:
`0.1`, a tenth of a second.  The header is not among the sources, so the callbacks
above take the macro as a parameter; this is the value the program runs them with,
and with it the floor `SLIDESHOW_MIN_SECONDS * SLIDESHOW_SUBSECOND_PRECISION` is 1. -/
def SLIDESHOW_MIN_SECONDS : ℚ := 1 / 10

/-! ## Decomposition of the delay (`config_tab_general`, lines 1592-1613) -/

/-- The locals `hours`, `remainder`, `minutes`, `seconds` of `config_tab_general`. -/
structure DelayFields where
  hours : Int
  remainder : Int
  minutes : Int
  seconds : ℚ
  deriving DecidableEq

/-- The decomposition `config_tab_general` computes from `options->slideshow.delay`. -/
def config_tab_general_delay (delay : Int) : DelayFields :=
  let hours : Int := Int.tdiv delay (3600 * SLIDESHOW_SUBSECOND_PRECISION)
  let remainder : Int := Int.tmod delay (3600 * SLIDESHOW_SUBSECOND_PRECISION)
  let minutes : Int := Int.tdiv remainder (60 * SLIDESHOW_SUBSECOND_PRECISION)
  let seconds : ℚ :=
    ((Int.tmod remainder (60 * SLIDESHOW_SUBSECOND_PRECISION) : Int) : ℚ)
      / (SLIDESHOW_SUBSECOND_PRECISION : ℚ)
  { hours := hours, remainder := remainder, minutes := minutes, seconds := seconds }

/-- Initial value handed to the hours spin button:
`options->slideshow.delay ? hours : 0.0`. -/
def hours_spin_init (delay : Int) : ℚ :=
  if delay ≠ 0 then ((config_tab_general_delay delay).hours : ℚ) else 0

/-- Initial value handed to the minutes spin button:
`options->slideshow.delay ? minutes : 0.0`. -/
def minutes_spin_init (delay : Int) : ℚ :=
  if delay ≠ 0 then ((config_tab_general_delay delay).minutes : ℚ) else 0

/-- Initial value handed to the seconds spin button:
`options->slideshow.delay ? seconds : 10.0`. -/
def seconds_spin_init (delay : Int) : ℚ :=
  if delay ≠ 0 then (config_tab_general_delay delay).seconds else 10

/-! ## Stereo mode constants (`typedefs.h`, outside the two source files) -/

/-- The `PR_STEREO_*` constants used by `preferences.c`.  Their values are defined in a
header that is not among the sources, so they are parameters of the embedding. -/
structure StereoConsts where
  PR_STEREO_NONE : Int
  PR_STEREO_ANAGLYPH_RC : Int
  PR_STEREO_ANAGLYPH_GM : Int
  PR_STEREO_ANAGLYPH_YB : Int
  PR_STEREO_ANAGLYPH_GRAY_RC : Int
  PR_STEREO_ANAGLYPH_GRAY_GM : Int
  PR_STEREO_ANAGLYPH_GRAY_YB : Int
  PR_STEREO_ANAGLYPH_DB_RC : Int
  PR_STEREO_ANAGLYPH_DB_GM : Int
  PR_STEREO_ANAGLYPH_DB_YB : Int
  PR_STEREO_ANAGLYPH : Int
  PR_STEREO_HORIZ : Int
  PR_STEREO_VERT : Int
  PR_STEREO_FIXED : Int
  PR_STEREO_HALF : Int
  PR_STEREO_MIRROR_LEFT : Int
  PR_STEREO_FLIP_LEFT : Int
  PR_STEREO_MIRROR_RIGHT : Int
  PR_STEREO_FLIP_RIGHT : Int
  PR_STEREO_SWAP : Int
  PR_STEREO_TEMP_DISABLE : Int

/-- A constant that is a single bit. -/
def IsSingleBit (c : Int) : Prop := ∃ k : Nat, c = 2 ^ k

/-- The nineteen constants that are taken to be single bits: the nine anaglyph
bits, `HORIZ`, `VERT`, `FIXED`, `HALF` and the six modifier bits. -/
def StereoConsts.bits (K : StereoConsts) : List Int :=
  [K.PR_STEREO_ANAGLYPH_RC, K.PR_STEREO_ANAGLYPH_GM, K.PR_STEREO_ANAGLYPH_YB,
   K.PR_STEREO_ANAGLYPH_GRAY_RC, K.PR_STEREO_ANAGLYPH_GRAY_GM, K.PR_STEREO_ANAGLYPH_GRAY_YB,
   K.PR_STEREO_ANAGLYPH_DB_RC, K.PR_STEREO_ANAGLYPH_DB_GM, K.PR_STEREO_ANAGLYPH_DB_YB,
   K.PR_STEREO_HORIZ, K.PR_STEREO_VERT, K.PR_STEREO_FIXED, K.PR_STEREO_HALF,
   K.PR_STEREO_MIRROR_LEFT, K.PR_STEREO_FLIP_LEFT, K.PR_STEREO_MIRROR_RIGHT,
   K.PR_STEREO_FLIP_RIGHT, K.PR_STEREO_SWAP, K.PR_STEREO_TEMP_DISABLE]

/-- The OR of the nine anaglyph bits. -/
def StereoConsts.anaglyph_bits (K : StereoConsts) : Int :=
  Int.lor (Int.lor (Int.lor (Int.lor (Int.lor (Int.lor (Int.lor (Int.lor
    K.PR_STEREO_ANAGLYPH_RC K.PR_STEREO_ANAGLYPH_GM) K.PR_STEREO_ANAGLYPH_YB)
    K.PR_STEREO_ANAGLYPH_GRAY_RC) K.PR_STEREO_ANAGLYPH_GRAY_GM) K.PR_STEREO_ANAGLYPH_GRAY_YB)
    K.PR_STEREO_ANAGLYPH_DB_RC) K.PR_STEREO_ANAGLYPH_DB_GM) K.PR_STEREO_ANAGLYPH_DB_YB

/-- The assumption on the constants: the nineteen bit constants are
pairwise distinct single bits, `PR_STEREO_ANAGLYPH` is the OR of the nine anaglyph
bits and `PR_STEREO_NONE` is 0. -/
def StereoConsts.WellFormed (K : StereoConsts) : Prop :=
  (∀ c ∈ K.bits, IsSingleBit c) ∧ K.bits.Nodup ∧
  K.PR_STEREO_ANAGLYPH = K.anaglyph_bits ∧ K.PR_STEREO_NONE = 0

/-- The mask of the bits the dialog recognises: the twelve projection bits, the
half-size bit and the six modifier bits. -/
def StereoConsts.recognized (K : StereoConsts) : Int :=
  K.bits.foldl Int.lor 0

/-- An assignment of the constants in which every one of the nineteen bit constants
is a distinct single bit (bits 1 to 3 and 5 to 20). -/
def exampleConsts : StereoConsts where
  PR_STEREO_NONE := 0
  PR_STEREO_FIXED := 2 ^ 1
  PR_STEREO_HORIZ := 2 ^ 2
  PR_STEREO_VERT := 2 ^ 3
  PR_STEREO_ANAGLYPH_RC := 2 ^ 5
  PR_STEREO_ANAGLYPH_GM := 2 ^ 6
  PR_STEREO_ANAGLYPH_YB := 2 ^ 7
  PR_STEREO_ANAGLYPH_GRAY_RC := 2 ^ 8
  PR_STEREO_ANAGLYPH_GRAY_GM := 2 ^ 9
  PR_STEREO_ANAGLYPH_GRAY_YB := 2 ^ 10
  PR_STEREO_ANAGLYPH_DB_RC := 2 ^ 11
  PR_STEREO_ANAGLYPH_DB_GM := 2 ^ 12
  PR_STEREO_ANAGLYPH_DB_YB := 2 ^ 13
  PR_STEREO_ANAGLYPH := 16352
  PR_STEREO_MIRROR_LEFT := 2 ^ 14
  PR_STEREO_FLIP_LEFT := 2 ^ 15
  PR_STEREO_MIRROR_RIGHT := 2 ^ 16
  PR_STEREO_FLIP_RIGHT := 2 ^ 17
  PR_STEREO_SWAP := 2 ^ 18
  PR_STEREO_TEMP_DISABLE := 2 ^ 19
  PR_STEREO_HALF := 2 ^ 20

/-! ## Stereo mode menu (`preferences.c`, lines 627-745) -/

/-- `stereo_mode_menu_cb`: the value stored in `*option` for the active combo index
(`case 0` and `default` store `PR_STEREO_NONE`). -/
def stereo_mode_menu_cb (K : StereoConsts) (active : Int) : Int :=
  if active = 1 then K.PR_STEREO_ANAGLYPH_RC
  else if active = 2 then K.PR_STEREO_ANAGLYPH_GM
  else if active = 3 then K.PR_STEREO_ANAGLYPH_YB
  else if active = 4 then K.PR_STEREO_ANAGLYPH_GRAY_RC
  else if active = 5 then K.PR_STEREO_ANAGLYPH_GRAY_GM
  else if active = 6 then K.PR_STEREO_ANAGLYPH_GRAY_YB
  else if active = 7 then K.PR_STEREO_ANAGLYPH_DB_RC
  else if active = 8 then K.PR_STEREO_ANAGLYPH_DB_GM
  else if active = 9 then K.PR_STEREO_ANAGLYPH_DB_YB
  else if active = 10 then K.PR_STEREO_HORIZ
  else if active = 11 then Int.lor K.PR_STEREO_HORIZ K.PR_STEREO_HALF
  else if active = 12 then K.PR_STEREO_VERT
  else if active = 13 then Int.lor K.PR_STEREO_VERT K.PR_STEREO_HALF
  else if active = 14 then K.PR_STEREO_FIXED
  else K.PR_STEREO_NONE

/-- The effect of `add_stereo_mode_menu`: the value stored in `*option_c` and the
combo entry made active (`current`). -/
structure StereoMenu where
  option_c : Int
  current : Int
  deriving DecidableEq

/-- `add_stereo_mode_menu`: `*option_c = option`, and `current` is set by the
sequence of `if` statements, each later match overwriting the earlier ones. -/
def add_stereo_mode_menu (K : StereoConsts) (option : Int) (add_fixed : Bool) : StereoMenu :=
  let current : Int := 0
  let current := if Int.land option K.PR_STEREO_ANAGLYPH_RC ≠ 0 then 1 else current
  let current := if Int.land option K.PR_STEREO_ANAGLYPH_GM ≠ 0 then 2 else current
  let current := if Int.land option K.PR_STEREO_ANAGLYPH_YB ≠ 0 then 3 else current
  let current := if Int.land option K.PR_STEREO_ANAGLYPH_GRAY_RC ≠ 0 then 4 else current
  let current := if Int.land option K.PR_STEREO_ANAGLYPH_GRAY_GM ≠ 0 then 5 else current
  let current := if Int.land option K.PR_STEREO_ANAGLYPH_GRAY_YB ≠ 0 then 6 else current
  let current := if Int.land option K.PR_STEREO_ANAGLYPH_DB_RC ≠ 0 then 7 else current
  let current := if Int.land option K.PR_STEREO_ANAGLYPH_DB_GM ≠ 0 then 8 else current
  let current := if Int.land option K.PR_STEREO_ANAGLYPH_DB_YB ≠ 0 then 9 else current
  let current :=
    if Int.land option K.PR_STEREO_HORIZ ≠ 0 then
      (if Int.land option K.PR_STEREO_HALF ≠ 0 then 11 else 10)
    else current
  let current :=
    if Int.land option K.PR_STEREO_VERT ≠ 0 then
      (if Int.land option K.PR_STEREO_HALF ≠ 0 then 13 else 12)
    else current
  let current :=
    if add_fixed then
      (if Int.land option K.PR_STEREO_FIXED ≠ 0 then 14 else current)
    else current
  { option_c := option, current := current }

/-! ## Staging and applying the stereo mode (`config_tab_stereo`, `config_window_apply`) -/

/-- The `stereo.tmp` flags of `ConfOptions` (each a `gboolean`). -/
structure StereoTmp where
  mirror_right : Int
  mirror_left : Int
  flip_right : Int
  flip_left : Int
  swap : Int
  temp_disable : Int
  fs_mirror_right : Int
  fs_mirror_left : Int
  fs_flip_right : Int
  fs_flip_left : Int
  fs_swap : Int
  fs_temp_disable : Int
  deriving DecidableEq

/-- The part of `ConfOptions.stereo` that carries the two masks and the staged flags. -/
structure StereoOptions where
  mode : Int
  fsmode : Int
  tmp : StereoTmp
  deriving DecidableEq

/-- Modelled from the spec: `pref_checkbox_new_int` of `ui_misc.c`, which is not among
the sources.  On creation the checkbox stores its initial state `active` in `*result`;
this is the staging "each tmp modifier flag = mask & its bit".  The result is the value
of `*result`. -/
def pref_checkbox_new_int (active : Int) : Int := active

/-- `config_tab_stereo`: the staged `c_options->stereo` once the tab is built from the
live `options->stereo`. -/
def config_tab_stereo (K : StereoConsts) (options c_options : StereoOptions) : StereoOptions :=
  { c_options with
    mode := (add_stereo_mode_menu K options.mode false).option_c
    fsmode := (add_stereo_mode_menu K options.fsmode true).option_c
    tmp :=
      { mirror_left := pref_checkbox_new_int (Int.land options.mode K.PR_STEREO_MIRROR_LEFT)
        flip_left := pref_checkbox_new_int (Int.land options.mode K.PR_STEREO_FLIP_LEFT)
        mirror_right := pref_checkbox_new_int (Int.land options.mode K.PR_STEREO_MIRROR_RIGHT)
        flip_right := pref_checkbox_new_int (Int.land options.mode K.PR_STEREO_FLIP_RIGHT)
        swap := pref_checkbox_new_int (Int.land options.mode K.PR_STEREO_SWAP)
        temp_disable := pref_checkbox_new_int (Int.land options.mode K.PR_STEREO_TEMP_DISABLE)
        fs_mirror_left :=
          pref_checkbox_new_int (Int.land options.fsmode K.PR_STEREO_MIRROR_LEFT)
        fs_flip_left := pref_checkbox_new_int (Int.land options.fsmode K.PR_STEREO_FLIP_LEFT)
        fs_mirror_right :=
          pref_checkbox_new_int (Int.land options.fsmode K.PR_STEREO_MIRROR_RIGHT)
        fs_flip_right := pref_checkbox_new_int (Int.land options.fsmode K.PR_STEREO_FLIP_RIGHT)
        fs_swap := pref_checkbox_new_int (Int.land options.fsmode K.PR_STEREO_SWAP)
        fs_temp_disable :=
          pref_checkbox_new_int (Int.land options.fsmode K.PR_STEREO_TEMP_DISABLE) } }

/-- The C expression `flag ? BIT : 0`. -/
def flag_bit (flag bit : Int) : Int := if flag ≠ 0 then bit else 0

/-- The mask expression of `config_window_apply` (lines 378-384 and 385-391):
`(mode & (HORIZ | VERT | FIXED | ANAGLYPH | HALF)) | (mirror_right ? MIRROR_RIGHT : 0)
 | (flip_right ? ...) | (mirror_left ? ...) | (flip_left ? ...) | (swap ? ...)
 | (temp_disable ? ...)`. -/
def stereo_mode_mask (K : StereoConsts) (mode mirror_right flip_right mirror_left flip_left
    swap temp_disable : Int) : Int :=
  Int.lor (Int.lor (Int.lor (Int.lor (Int.lor (Int.lor
    (Int.land mode
      (Int.lor (Int.lor (Int.lor (Int.lor K.PR_STEREO_HORIZ K.PR_STEREO_VERT)
        K.PR_STEREO_FIXED) K.PR_STEREO_ANAGLYPH) K.PR_STEREO_HALF))
    (flag_bit mirror_right K.PR_STEREO_MIRROR_RIGHT))
    (flag_bit flip_right K.PR_STEREO_FLIP_RIGHT))
    (flag_bit mirror_left K.PR_STEREO_MIRROR_LEFT))
    (flag_bit flip_left K.PR_STEREO_FLIP_LEFT))
    (flag_bit swap K.PR_STEREO_SWAP))
    (flag_bit temp_disable K.PR_STEREO_TEMP_DISABLE)

/-- `config_window_apply`, restricted to `stereo.mode` and `stereo.fsmode`: the live
`options->stereo` after the copy from the staged `c_options->stereo`. -/
def config_window_apply (K : StereoConsts) (c_options options : StereoOptions) :
    StereoOptions :=
  { options with
    mode := stereo_mode_mask K c_options.mode c_options.tmp.mirror_right
      c_options.tmp.flip_right c_options.tmp.mirror_left c_options.tmp.flip_left
      c_options.tmp.swap c_options.tmp.temp_disable
    fsmode := stereo_mode_mask K c_options.fsmode c_options.tmp.fs_mirror_right
      c_options.tmp.fs_flip_right c_options.tmp.fs_mirror_left c_options.tmp.fs_flip_left
      c_options.tmp.fs_swap c_options.tmp.fs_temp_disable }

/-! ## Vocabulary for the properties of the stereo menu -/

/-- The twelve projection constants in the order in which `add_stereo_mode_menu` tests
them: the nine anaglyph bits, `HORIZ`, `VERT`, `FIXED`. -/
def StereoConsts.projection_bits (K : StereoConsts) : List Int :=
  [K.PR_STEREO_ANAGLYPH_RC, K.PR_STEREO_ANAGLYPH_GM, K.PR_STEREO_ANAGLYPH_YB,
   K.PR_STEREO_ANAGLYPH_GRAY_RC, K.PR_STEREO_ANAGLYPH_GRAY_GM, K.PR_STEREO_ANAGLYPH_GRAY_YB,
   K.PR_STEREO_ANAGLYPH_DB_RC, K.PR_STEREO_ANAGLYPH_DB_GM, K.PR_STEREO_ANAGLYPH_DB_YB,
   K.PR_STEREO_HORIZ, K.PR_STEREO_VERT, K.PR_STEREO_FIXED]

/-- The projection constants paired with the menu entry of each, in the order of the
tests; the entry of `HORIZ` and of `VERT` is the half-size one when `PR_STEREO_HALF` is
set in the mask. -/
def projection_entries (K : StereoConsts) (option : Int) : List (Int × Int) :=
  [(K.PR_STEREO_ANAGLYPH_RC, 1), (K.PR_STEREO_ANAGLYPH_GM, 2), (K.PR_STEREO_ANAGLYPH_YB, 3),
   (K.PR_STEREO_ANAGLYPH_GRAY_RC, 4), (K.PR_STEREO_ANAGLYPH_GRAY_GM, 5),
   (K.PR_STEREO_ANAGLYPH_GRAY_YB, 6), (K.PR_STEREO_ANAGLYPH_DB_RC, 7),
   (K.PR_STEREO_ANAGLYPH_DB_GM, 8), (K.PR_STEREO_ANAGLYPH_DB_YB, 9),
   (K.PR_STEREO_HORIZ, if Int.land option K.PR_STEREO_HALF ≠ 0 then 11 else 10),
   (K.PR_STEREO_VERT, if Int.land option K.PR_STEREO_HALF ≠ 0 then 13 else 12),
   (K.PR_STEREO_FIXED, 14)]

/-- The entry of the first pair of `l` whose constant has a bit in common with the
mask, and 0 (Single image) when there is none. -/
def entry_of_first_match (l : List (Int × Int)) (option : Int) : Int :=
  match l.find? (fun p => decide (Int.land option p.1 ≠ 0)) with
  | some p => p.2
  | none => 0

/-- The decoding rule in the words of the spec, "the first match wins": the entry of the
first projection, in the order of the tests, whose bit is set in the mask. -/
def first_match_entry (K : StereoConsts) (option : Int) : Int :=
  entry_of_first_match (projection_entries K option) option

/-- The entry of the last projection, in the order of the tests, whose bit is set in
the mask. -/
def last_match_entry (K : StereoConsts) (option : Int) : Int :=
  entry_of_first_match (projection_entries K option).reverse option

/-- The number of projection constants that have a bit in common with the mask. -/
def projection_count (K : StereoConsts) (mask : Int) : Nat :=
  K.projection_bits.countP (fun c => decide (Int.land mask c ≠ 0))

/-- The example mask of the spec:
`PR_STEREO_ANAGLYPH_RC | PR_STEREO_MIRROR_LEFT | PR_STEREO_SWAP`. -/
def spec_example_mask (K : StereoConsts) : Int :=
  Int.lor (Int.lor K.PR_STEREO_ANAGLYPH_RC K.PR_STEREO_MIRROR_LEFT) K.PR_STEREO_SWAP

/-- A flag derived from a mask is an independent test of the single bit `bit`: it is
non-zero exactly when that bit is set in the mask, and flipping any other bit of the
mask does not change it. -/
def IndependentBitTest (bit : Int) (flag : Int → Int) : Prop :=
  ∃ k : Nat, bit = 2 ^ k ∧ ∀ x : Int,
    (flag x ≠ 0 ↔ Int.testBit x k = true) ∧
    ∀ j : Nat, j ≠ k → flag (Int.xor x (2 ^ j)) = flag x

/-! ## The explicit state: live `options` and staged `c_options` -/

/-- The fields of `ConfOptions.slideshow` used by the dialog. -/
structure SlideshowOptions where
  delay : Int
  random : Int
  repeat_ : Int
  deriving DecidableEq

/-- The fields of `ConfOptions.image` that the properties below are about. -/
structure ImageOptions where
  zoom_increment : Int
  zoom_quality : Int
  deriving DecidableEq

/-- The fields of `ConfOptions.thumbnails` that the properties below are about. -/
structure ThumbnailOptions where
  max_width : Int
  max_height : Int
  quality : Int
  deriving DecidableEq

/-- The fields of `ConfOptions.file_filter` compared by `config_window_apply`. -/
structure FileFilterOptions where
  show_hidden_files : Int
  show_parent_directory : Int
  show_dot_directory : Int
  disable_file_extension_checks : Int
  disable : Int
  deriving DecidableEq

/-- The fields of `ConfOptions.file_sort` compared by `config_window_apply`. -/
structure FileSortOptions where
  case_sensitive : Int
  natural : Int
  deriving DecidableEq

/-- The fields of `ConfOptions.stereo` other than the two masks and the `tmp` flags
(which are in `StereoOptions`). -/
structure StereoFixedOptions where
  enable_fsmode : Int
  fixed_w : Int
  fixed_h : Int
  fixed_x1 : Int
  fixed_y1 : Int
  fixed_x2 : Int
  fixed_y2 : Int
  deriving DecidableEq

/-- The part of `ConfOptions` that the properties below are about. -/
structure ConfOptions where
  slideshow : SlideshowOptions
  image : ImageOptions
  thumbnails : ThumbnailOptions
  file_filter : FileFilterOptions
  file_sort : FileSortOptions
  stereo : StereoOptions
  stereo_fixed : StereoFixedOptions
  deriving DecidableEq

/-- The globals of `preferences.c` the properties are about: the live `options`, the
staged `c_options` (allocated once and kept), whether `configwindow` is non-NULL, the
global `thumb_format_changed`, and the number of times `filter_rebuild` and
`layout_refresh` have been requested by `config_window_apply`. -/
structure PrefState where
  options : ConfOptions
  c_options : ConfOptions
  configwindow : Bool
  thumb_format_changed : Bool
  refresh_requests : Nat
  deriving DecidableEq

/-- The values of the `GdkInterpType` enumeration of GDK, an external library. -/
structure GdkInterp where
  GDK_INTERP_NEAREST : Int
  GDK_INTERP_TILES : Int
  GDK_INTERP_BILINEAR : Int
  GDK_INTERP_HYPER : Int

/-- The pointers that the dialog registers as `data` of `stereo_mode_menu_cb`
(`&c_options->stereo.mode`, `&c_options->stereo.fsmode`) and of `quality_menu_cb`
(`&c_options->thumbnails.quality`, `&c_options->image.zoom_quality`). -/
inductive OptionPtr where
  | stereo_mode
  | stereo_fsmode
  | thumbnails_quality
  | image_zoom_quality
  deriving DecidableEq

/-- The assignment `*option = v` through one of the registered pointers. -/
def OptionPtr.store (p : OptionPtr) (v : Int) (c : ConfOptions) : ConfOptions :=
  match p with
  | .stereo_mode => { c with stereo := { c.stereo with mode := v } }
  | .stereo_fsmode => { c with stereo := { c.stereo with fsmode := v } }
  | .thumbnails_quality => { c with thumbnails := { c.thumbnails with quality := v } }
  | .image_zoom_quality => { c with image := { c.image with zoom_quality := v } }

/-- The value read through one of the registered pointers. -/
def OptionPtr.load (p : OptionPtr) (c : ConfOptions) : Int :=
  match p with
  | .stereo_mode => c.stereo.mode
  | .stereo_fsmode => c.stereo.fsmode
  | .thumbnails_quality => c.thumbnails.quality
  | .image_zoom_quality => c.image.zoom_quality

/-- `quality_menu_cb`: the value stored in `*option` for the active combo index
(`case 0` and `default` store `GDK_INTERP_NEAREST`). -/
def quality_menu_cb (G : GdkInterp) (active : Int) : Int :=
  if active = 1 then G.GDK_INTERP_TILES
  else if active = 2 then G.GDK_INTERP_BILINEAR
  else if active = 3 then G.GDK_INTERP_HYPER
  else G.GDK_INTERP_NEAREST

/-- `zoom_increment_cb`: the value stored in `c_options->image.zoom_increment`,
`(gint)(gtk_spin_button_get_value(spin) * 100.0 + 0.01)`. -/
def zoom_increment_cb (spin : ℚ) : Int :=
  gint_of_gdouble (spin * 100 + 1 / 100)

/-- `thumb_size_list`. -/
def thumb_size_list : List (Int × Int) :=
  [(24, 24), (32, 32), (48, 48), (64, 64), (96, 72), (96, 96), (128, 96), (128, 128),
   (160, 120), (160, 160), (192, 144), (192, 192), (256, 192), (256, 256)]

/-! ## The callbacks on the explicit state -/

/-- `slideshow_delay_hours_cb` on the state: it stores into `c_options->slideshow.delay`. -/
def PrefState.slideshow_delay_hours_cb (s : PrefState) (minS spin : ℚ) : PrefState :=
  { s with c_options := { s.c_options with slideshow := { s.c_options.slideshow with
      delay := Geeqie.slideshow_delay_hours_cb minS spin s.c_options.slideshow.delay } } }

/-- `slideshow_delay_minutes_cb` on the state. -/
def PrefState.slideshow_delay_minutes_cb (s : PrefState) (minS spin : ℚ) : PrefState :=
  { s with c_options := { s.c_options with slideshow := { s.c_options.slideshow with
      delay := Geeqie.slideshow_delay_minutes_cb minS spin s.c_options.slideshow.delay } } }

/-- `slideshow_delay_seconds_cb` on the state. -/
def PrefState.slideshow_delay_seconds_cb (s : PrefState) (minS spin : ℚ) : PrefState :=
  { s with c_options := { s.c_options with slideshow := { s.c_options.slideshow with
      delay := Geeqie.slideshow_delay_seconds_cb minS spin s.c_options.slideshow.delay } } }

/-- `zoom_increment_cb` on the state: it stores into `c_options->image.zoom_increment`. -/
def PrefState.zoom_increment_cb (s : PrefState) (spin : ℚ) : PrefState :=
  { s with c_options := { s.c_options with image := { s.c_options.image with
      zoom_increment := Geeqie.zoom_increment_cb spin } } }

/-- `thumb_size_menu_cb` on the state, `n` being `gtk_combo_box_get_active`: nothing
for `n < 0`; `thumb_size_list[n]` is staged when `(guint) n` is below the number of
entries, and the live pair otherwise.  The table is read with a checked index: the
result is `none` if the read were outside the table. -/
def PrefState.thumb_size_menu_cb (s : PrefState) (n : Int) : Option PrefState :=
  if n < 0 then some s
  else if n.toNat < thumb_size_list.length then
    match thumb_size_list.get? n.toNat with
    | some (w, h) =>
      some { s with c_options := { s.c_options with thumbnails := { s.c_options.thumbnails with
        max_width := w, max_height := h } } }
    | none => none
  else
    some { s with c_options := { s.c_options with thumbnails := { s.c_options.thumbnails with
      max_width := s.options.thumbnails.max_width
      max_height := s.options.thumbnails.max_height } } }

/-- `stereo_mode_menu_cb` on the state, invoked with one of the registered pointers. -/
def PrefState.stereo_mode_menu_cb (s : PrefState) (K : StereoConsts) (p : OptionPtr)
    (active : Int) : PrefState :=
  { s with c_options := p.store (Geeqie.stereo_mode_menu_cb K active) s.c_options }

/-- `quality_menu_cb` on the state, invoked with one of the registered pointers. -/
def PrefState.quality_menu_cb (s : PrefState) (G : GdkInterp) (p : OptionPtr)
    (active : Int) : PrefState :=
  { s with c_options := p.store (Geeqie.quality_menu_cb G active) s.c_options }

/-- Modelled from the spec: `pref_spin_new_int` and `pref_table_spin_new_int` of
`ui_misc.c`, which is not among the sources.  Like `pref_checkbox_new_int`, on creation
the spin button stores its initial `value` in `*value_var`; the result is the value of
`*value_var`. -/
def pref_spin_new_int (value : Int) : Int := value

/-- `add_quality_menu`: the value stored by `*option_c = option`. -/
def add_quality_menu (option : Int) : Int := option

/-- `config_window_create` on the state: the window is created and each tab stages the
live values.  `config_tab_general` stages the thumbnail size (`add_thumb_size_menu`),
the thumbnail quality and the three slideshow fields; `config_tab_image` stages the
zoom quality and `image.zoom_increment`; `config_tab_files` stages the file filter
and file sort checkboxes (there is none for `show_dot_directory`, which keeps its
staged value); `config_tab_stereo` stages the stereo fields. -/
def PrefState.config_window_create (s : PrefState) (K : StereoConsts) : PrefState :=
  { s with
    configwindow := true
    c_options :=
      { slideshow :=
          { delay := s.options.slideshow.delay
            random := pref_checkbox_new_int s.options.slideshow.random
            repeat_ := pref_checkbox_new_int s.options.slideshow.repeat_ }
        image :=
          { zoom_quality := add_quality_menu s.options.image.zoom_quality
            zoom_increment := s.options.image.zoom_increment }
        thumbnails :=
          { max_width := s.options.thumbnails.max_width
            max_height := s.options.thumbnails.max_height
            quality := add_quality_menu s.options.thumbnails.quality }
        file_filter :=
          { show_hidden_files := pref_checkbox_new_int s.options.file_filter.show_hidden_files
            show_parent_directory :=
              pref_checkbox_new_int s.options.file_filter.show_parent_directory
            show_dot_directory := s.c_options.file_filter.show_dot_directory
            disable_file_extension_checks :=
              pref_checkbox_new_int s.options.file_filter.disable_file_extension_checks
            disable := pref_checkbox_new_int s.options.file_filter.disable }
        file_sort :=
          { case_sensitive := pref_checkbox_new_int s.options.file_sort.case_sensitive
            natural := pref_checkbox_new_int s.options.file_sort.natural }
        stereo := config_tab_stereo K s.options.stereo s.c_options.stereo
        stereo_fixed :=
          { enable_fsmode := pref_checkbox_new_int s.options.stereo_fixed.enable_fsmode
            fixed_w := pref_spin_new_int s.options.stereo_fixed.fixed_w
            fixed_h := pref_spin_new_int s.options.stereo_fixed.fixed_h
            fixed_x1 := pref_spin_new_int s.options.stereo_fixed.fixed_x1
            fixed_y1 := pref_spin_new_int s.options.stereo_fixed.fixed_y1
            fixed_x2 := pref_spin_new_int s.options.stereo_fixed.fixed_x2
            fixed_y2 := pref_spin_new_int s.options.stereo_fixed.fixed_y2 } } }

/-- `show_config_window`: an existing window is presented, otherwise it is created. -/
def PrefState.show_config_window (s : PrefState) (K : StereoConsts) : PrefState :=
  if s.configwindow then s else s.config_window_create K

/-- `config_window_close_cb`: the window is destroyed and `configwindow` set to NULL;
neither `options` nor `c_options` is touched. -/
def PrefState.config_window_close_cb (s : PrefState) : PrefState :=
  { s with configwindow := false }

/-- `config_window_apply` on the state, statement by statement for the modelled
fields: the seven comparisons that set `refresh`, the guarded copy of the three
thumbnail fields (which also sets `thumb_format_changed` and `refresh`), the plain
copies, the two stereo masks (computed by `config_window_apply` above), and the final
`if (refresh)` that requests `filter_rebuild` and `layout_refresh`. -/
def PrefState.config_window_apply (s : PrefState) (K : StereoConsts) : PrefState :=
  let c := s.c_options
  let o := s.options
  let refresh : Bool := false
  let refresh :=
    if o.file_filter.show_hidden_files ≠ c.file_filter.show_hidden_files then true
    else refresh
  let refresh :=
    if o.file_filter.show_parent_directory ≠ c.file_filter.show_parent_directory then true
    else refresh
  let refresh :=
    if o.file_filter.show_dot_directory ≠ c.file_filter.show_dot_directory then true
    else refresh
  let refresh :=
    if o.file_sort.case_sensitive ≠ c.file_sort.case_sensitive then true else refresh
  let refresh := if o.file_sort.natural ≠ c.file_sort.natural then true else refresh
  let refresh :=
    if o.file_filter.disable_file_extension_checks
        ≠ c.file_filter.disable_file_extension_checks then true
    else refresh
  let refresh := if o.file_filter.disable ≠ c.file_filter.disable then true else refresh
  let guard : Bool :=
    decide (o.thumbnails.max_width ≠ c.thumbnails.max_width
      ∨ o.thumbnails.max_height ≠ c.thumbnails.max_height
      ∨ o.thumbnails.quality ≠ c.thumbnails.quality)
  let thumb_format_changed := if guard then true else s.thumb_format_changed
  let refresh := if guard then true else refresh
  let o :=
    if guard then
      { o with thumbnails :=
          { max_width := c.thumbnails.max_width
            max_height := c.thumbnails.max_height
            quality := c.thumbnails.quality } }
    else o
  let o :=
    { o with file_filter :=
        { show_hidden_files := c.file_filter.show_hidden_files
          show_parent_directory := c.file_filter.show_parent_directory
          show_dot_directory := c.file_filter.show_dot_directory
          disable_file_extension_checks := c.file_filter.disable_file_extension_checks
          disable := c.file_filter.disable } }
  let o :=
    { o with file_sort :=
        { case_sensitive := c.file_sort.case_sensitive, natural := c.file_sort.natural } }
  let o :=
    { o with slideshow :=
        { random := c.slideshow.random, repeat_ := c.slideshow.repeat_,
          delay := c.slideshow.delay } }
  let o :=
    { o with image :=
        { zoom_quality := c.image.zoom_quality, zoom_increment := c.image.zoom_increment } }
  let o := { o with stereo := Geeqie.config_window_apply K c.stereo o.stereo }
  let o := { o with stereo_fixed := c.stereo_fixed }
  { s with
    options := o
    thumb_format_changed := thumb_format_changed
    refresh_requests := if refresh then s.refresh_requests + 1 else s.refresh_requests }

/-- The staged edits of the dialog that the cancel property is about. -/
inductive Edit where
  | hours (spin : ℚ)
  | minutes (spin : ℚ)
  | seconds (spin : ℚ)
  | zoom_increment (spin : ℚ)
  | thumb_size (n : Int)
  | stereo_mode (active : Int)
  | stereo_fsmode (active : Int)

/-- One staged edit, as the callback of its widget performs it. -/
def PrefState.edit (s : PrefState) (K : StereoConsts) (minS : ℚ) : Edit → PrefState
  | .hours spin => s.slideshow_delay_hours_cb minS spin
  | .minutes spin => s.slideshow_delay_minutes_cb minS spin
  | .seconds spin => s.slideshow_delay_seconds_cb minS spin
  | .zoom_increment spin => s.zoom_increment_cb spin
  | .thumb_size n => (s.thumb_size_menu_cb n).getD s
  | .stereo_mode active => s.stereo_mode_menu_cb K .stereo_mode active
  | .stereo_fsmode active => s.stereo_mode_menu_cb K .stereo_fsmode active

/-- A sequence of staged edits. -/
def PrefState.edits (s : PrefState) (K : StereoConsts) (minS : ℚ) (es : List Edit) :
    PrefState :=
  es.foldl (fun t e => t.edit K minS e) s

/-- The loop of `add_thumb_size_menu`: `i` runs over the table, and `current` is set to
`i` at every entry equal to the live pair; the result is the final `(i, current)`. -/
def thumb_size_scan (max_width max_height : Int) :
    List (Int × Int) → Int → Int → Int × Int
  | [], i, current => (i, current)
  | (w, h) :: rest, i, current =>
    thumb_size_scan max_width max_height rest (i + 1)
      (if w = max_width ∧ h = max_height then i else current)

/-- What `add_thumb_size_menu` builds: the entry made active and whether a Custom
entry was appended after the fourteen sizes. -/
structure ThumbSizeMenu where
  current : Int
  custom : Bool
  deriving DecidableEq

/-- `add_thumb_size_menu`: the live pair is staged, the table is scanned from
`current = -1`, and when no entry matched a Custom entry is appended and selected. -/
def PrefState.add_thumb_size_menu (s : PrefState) : PrefState × ThumbSizeMenu :=
  let s1 : PrefState :=
    { s with c_options := { s.c_options with thumbnails := { s.c_options.thumbnails with
        max_width := s.options.thumbnails.max_width
        max_height := s.options.thumbnails.max_height } } }
  let r := thumb_size_scan s.options.thumbnails.max_width s.options.thumbnails.max_height
    thumb_size_list 0 (-1)
  if r.2 = -1 then (s1, { current := r.1, custom := true })
  else (s1, { current := r.2, custom := false })

/-- The transition from `s` to `t` leaves the live options and the other globals as they
are: only the staged `c_options` may differ. -/
def OnlyStaged (s t : PrefState) : Prop :=
  t.options = s.options ∧ t.configwindow = s.configwindow ∧
  t.thumb_format_changed = s.thumb_format_changed ∧ t.refresh_requests = s.refresh_requests

/-- Live and staged values differ in one of the three thumbnail fields. -/
def PrefState.thumbnails_differ (s : PrefState) : Prop :=
  s.options.thumbnails.max_width ≠ s.c_options.thumbnails.max_width ∨
  s.options.thumbnails.max_height ≠ s.c_options.thumbnails.max_height ∨
  s.options.thumbnails.quality ≠ s.c_options.thumbnails.quality

instance (s : PrefState) : Decidable s.thumbnails_differ := by
  unfold PrefState.thumbnails_differ
  infer_instance

/-- Live and staged values differ in at least one of the ten fields that make a refresh
necessary: the five file filter fields, the two file sort fields and the three
thumbnail fields. -/
def PrefState.refresh_needed (s : PrefState) : Prop :=
  s.options.file_filter.show_hidden_files ≠ s.c_options.file_filter.show_hidden_files ∨
  s.options.file_filter.show_parent_directory
    ≠ s.c_options.file_filter.show_parent_directory ∨
  s.options.file_filter.show_dot_directory ≠ s.c_options.file_filter.show_dot_directory ∨
  s.options.file_filter.disable_file_extension_checks
    ≠ s.c_options.file_filter.disable_file_extension_checks ∨
  s.options.file_filter.disable ≠ s.c_options.file_filter.disable ∨
  s.options.file_sort.case_sensitive ≠ s.c_options.file_sort.case_sensitive ∨
  s.options.file_sort.natural ≠ s.c_options.file_sort.natural ∨
  s.thumbnails_differ

instance (s : PrefState) : Decidable s.refresh_needed := by
  unfold PrefState.refresh_needed
  infer_instance

/-! ## Thumbnail cache radio buttons (`preferences.c`, lines 1498-1536) -/

/-- The staged pair `c_options->thumbnails.spec_standard` and
`c_options->thumbnails.cache_into_dirs` (each a `gboolean`; `TRUE` is 1, `FALSE` is 0). -/
structure ThumbCacheOptions where
  spec_standard : Int
  cache_into_dirs : Int
  deriving DecidableEq

/-- `cache_standard_cb`, `active` being `gtk_toggle_button_get_active(widget)`. -/
def cache_standard_cb (active : Int) (t : ThumbCacheOptions) : ThumbCacheOptions :=
  if active ≠ 0 then { spec_standard := 1, cache_into_dirs := 0 }
  else { t with spec_standard := 0 }

/-- `cache_geeqie_cb`: the test is `!gtk_toggle_button_get_active(widget)`. -/
def cache_geeqie_cb (active : Int) (t : ThumbCacheOptions) : ThumbCacheOptions :=
  if ¬ active ≠ 0 then { spec_standard := 1, cache_into_dirs := 0 }
  else { t with spec_standard := 0 }

/-- `cache_local_cb`. -/
def cache_local_cb (active : Int) (t : ThumbCacheOptions) : ThumbCacheOptions :=
  if active ≠ 0 then { cache_into_dirs := 1, spec_standard := 0 }
  else { t with cache_into_dirs := 0 }

/-- A toggle of one of the three radio buttons, with the state the button is in. -/
inductive CacheToggle where
  | standard (active : Int)
  | geeqie (active : Int)
  | local_dirs (active : Int)

/-- The callback run for a toggle. -/
def CacheToggle.run : CacheToggle → ThumbCacheOptions → ThumbCacheOptions
  | .standard active, t => cache_standard_cb active t
  | .geeqie active, t => cache_geeqie_cb active t
  | .local_dirs active, t => cache_local_cb active t

/-- A sequence of toggles, run from left to right. -/
def run_cache_toggles (ts : List CacheToggle) (t : ThumbCacheOptions) : ThumbCacheOptions :=
  ts.foldl (fun u e => e.run u) t

/-- Both `spec_standard` and `cache_into_dirs` are TRUE. -/
def ThumbCacheOptions.both (t : ThumbCacheOptions) : Prop :=
  t.spec_standard ≠ 0 ∧ t.cache_into_dirs ≠ 0

/-! ## File filter toggles (`preferences.c`, lines 882-936) -/

/-- The fields of `FilterEntry` (declared in `filefilter.h`, outside the two source
files) that the filter list of the dialog shows or edits. -/
structure FilterEntry where
  key : String
  description : String
  extensions : String
  file_class : Int
  enabled : Int
  writable : Int
  allow_sidecar : Int
  deriving DecidableEq

/-- The C operator `!` on a `gboolean`. -/
def c_not (x : Int) : Int := if x = 0 then 1 else 0

/-- `filter_store_enable_cb` on the entry of the edited row. -/
def filter_store_enable_cb (fe : FilterEntry) : FilterEntry :=
  { fe with enabled := c_not fe.enabled }

/-- `filter_store_writable_cb` on the entry of the edited row. -/
def filter_store_writable_cb (fe : FilterEntry) : FilterEntry :=
  let fe1 := { fe with writable := c_not fe.writable }
  if fe1.writable ≠ 0 then { fe1 with allow_sidecar := 0 } else fe1

/-- `filter_store_sidecar_cb` on the entry of the edited row. -/
def filter_store_sidecar_cb (fe : FilterEntry) : FilterEntry :=
  let fe1 := { fe with allow_sidecar := c_not fe.allow_sidecar }
  if fe1.allow_sidecar ≠ 0 then { fe1 with writable := 0 } else fe1

/-! ## Accelerator store (`preferences.c`, lines 1360-1459) -/

/-- A row of `accel_store`, with its four columns `AE_ACTION`, `AE_KEY`, `AE_TOOLTIP`
and `AE_ACCEL` (the accelerator path). -/
structure AccelRow where
  action : String
  key : String
  tooltip : String
  accel : String
  deriving DecidableEq

/-- The two GTK functions the accelerator callbacks use (GTK is an external library):
`gtk_accelerator_parse`, from a string to `(accel_key, accel_mods)`, and
`gtk_accelerator_name`, back to a string. -/
structure GtkAccelerator where
  parse : String → Nat × Nat
  name : Nat × Nat → String

/-- `gtk_tree_store_set(accel_store, iter, AE_KEY, value, -1)` for the row at index
`i` of the store, the store being a list of rows. -/
def accel_store_set_key : List AccelRow → Nat → String → List AccelRow
  | [], _, _ => []
  | r :: rs, 0, value => { r with key := value } :: rs
  | r :: rs, i + 1, value => r :: accel_store_set_key rs i value

/-- `accel_remove_key_cb` on one row: when `accel1` and the key of the row parse to the
same `accel_key` and `accel_mods`, the key of the row is set to the empty string. -/
def accel_remove_key_cb (A : GtkAccelerator) (accel1 : String) (row : AccelRow) : AccelRow :=
  if (A.parse accel1).1 = (A.parse row.key).1 ∧ (A.parse accel1).2 = (A.parse row.key).2
  then { row with key := "" }
  else row

/-- `gtk_tree_model_foreach(accel_store, accel_remove_key_cb, acc)`. -/
def accel_store_remove_key (A : GtkAccelerator) (acc : String) (rows : List AccelRow) :
    List AccelRow :=
  rows.map (accel_remove_key_cb A acc)

/-- `accel_store_edited_cb` for the row at index `i`; `key` is the accelerator read back
from the GTK accelerator map after the trial change.  The new name `acc` is removed
from every row and then stored in the edited row. -/
def accel_store_edited_cb (A : GtkAccelerator) (rows : List AccelRow) (i : Nat)
    (key : Nat × Nat) : List AccelRow :=
  let acc := A.name key
  accel_store_set_key (accel_store_remove_key A acc rows) i acc

/-- `accel_reset_selection` for the row at index `i`; `lookup` is
`gtk_accel_map_lookup_entry` on the accelerator path of the row. -/
def accel_reset_selection (A : GtkAccelerator) (lookup : String → Nat × Nat)
    (rows : List AccelRow) (i : Nat) : List AccelRow :=
  match rows[i]? with
  | none => rows
  | some row =>
    let accel := A.name (lookup row.accel)
    accel_store_set_key (accel_store_remove_key A accel rows) i accel

/-- No two rows hold the same non-empty accelerator. -/
def AccelUnique (rows : List AccelRow) : Prop :=
  ∀ (a b : Nat) (ra rb : AccelRow), a ≠ b → rows[a]? = some ra → rows[b]? = some rb →
    ra.key ≠ "" → ra.key ≠ rb.key

/-- The relation between the store before and after an accelerator `acc` has been given
to row `i`: the edited row holds `acc`, every other row whose key parsed to the same
key and modifiers as `acc` holds the empty string, every remaining row is unchanged. -/
def AccelEdited (A : GtkAccelerator) (rows after : List AccelRow) (i : Nat) (acc : String) :
    Prop :=
  after.length = rows.length ∧
  (∀ r, rows[i]? = some r → after[i]? = some { r with key := acc }) ∧
  (∀ j r, j ≠ i → rows[j]? = some r → A.parse r.key = A.parse acc →
    after[j]? = some { r with key := "" }) ∧
  (∀ j r, j ≠ i → rows[j]? = some r → A.parse r.key ≠ A.parse acc →
    after[j]? = some r)

/-- A pair of functions with the round-trip property of the GTK pair, for concrete
examples: a key `(k, m)` is named by `k` letters `k` followed by `m` letters `m`, and a
string is parsed by counting these letters (the empty string parses to `(0, 0)`). -/
def exampleAccelerator : GtkAccelerator where
  parse := fun s => (s.toList.count 'k', s.toList.count 'm')
  name := fun k => String.mk (List.replicate k.1 'k' ++ List.replicate k.2 'm')

/-! ## The authors table of `show_about_window` (`preferences.c`, lines 2671-2710) -/

/-- `LINE_LENGTH`, the size of the buffer `line`. -/
def LINE_LENGTH : Nat := 1000

/-- The number of slots of `gchar *authors[1000]`. -/
def AUTHORS_SLOTS : Nat := 1000

/-- The characters one `fgets` call takes from a non-empty stream when at most `n` may
be read: up to and including the first newline (character 10), at most `n` of them; the result is the
piece read and the rest of the stream. -/
def fgets_line : Nat → List Char → List Char × List Char
  | 0, stream => ([], stream)
  | _ + 1, [] => ([], [])
  | n + 1, c :: rest =>
    if c = Char.ofNat 10 then ([c], rest)
    else ((c :: (fgets_line n rest).1), (fgets_line n rest).2)

/-- `fgets(line, size, fp)` on the rest of the file: `none` (NULL) at the end of the
file, otherwise the piece read (at most `size - 1` characters) and the rest. -/
def fgets (size : Nat) (stream : List Char) : Option (List Char × List Char) :=
  match stream with
  | [] => none
  | _ :: _ => some (fgets_line (size - 1) stream)

/-- The string `g_strdup(line)` returns after `line[strlen(line) - 1] = '\0'`: the
characters of the buffer before its first NUL, without the last of them.  (When
`strlen(line)` is 0 the assignment writes before the buffer; the string is then
empty.) -/
def strip_last (line : List Char) : List Char :=
  (line.takeWhile (fun c => c ≠ Char.ofNat 0)).dropLast

/-- The `while (fgets(...))` loop of `show_about_window` and the statement after it, as
the list of the writes `authors[i_authors] = value` in the order they happen
(`none` is the terminating `NULL`).  `fuel` bounds the number of iterations. -/
def authors_loop : Nat → List Char → Nat → List (Nat × Option (List Char))
  | 0, _, i_authors => [(i_authors, none)]
  | fuel + 1, stream, i_authors =>
    match fgets LINE_LENGTH stream with
    | none => [(i_authors, none)]
    | some (line, rest) =>
      (i_authors, some (strip_last line)) :: authors_loop fuel rest (i_authors + 1)

/-- The number of successful `fgets` reads on a stream (`fuel` bounds the count). -/
def fgets_reads : Nat → List Char → Nat
  | 0, _ => 0
  | fuel + 1, stream =>
    match fgets LINE_LENGTH stream with
    | none => 0
    | some (_, rest) => fgets_reads fuel rest + 1

/-- The writes to `authors[]` that `show_about_window` performs for an AUTHORS file with
the given content.  Every `fgets` read takes at least one character, so the length of
the content is enough fuel. -/
def show_about_window_authors (content : List Char) : List (Nat × Option (List Char)) :=
  authors_loop content.length content 0

/-- The lines of a text in the usual sense: each line without its terminating newline;
a text that does not end in a newline has a last, unterminated line. -/
def text_lines : List Char → List (List Char)
  | [] => []
  | c :: rest =>
    if c = Char.ofNat 10 then [] :: text_lines rest
    else
      match text_lines rest with
      | [] => [[c]]
      | l :: ls => (c :: l) :: ls

/-- A concrete state for examples: the staged thumbnail size (128 x 128) differs from
the live one (96 x 72), every other staged field equals the live one. -/
def examplePrefState : PrefState where
  options :=
    { slideshow := ⟨150, 0, 1⟩
      image := ⟨33, 2⟩
      thumbnails := ⟨96, 72, 2⟩
      file_filter := ⟨0, 1, 1, 0, 0⟩
      file_sort := ⟨0, 1⟩
      stereo := ⟨4, 32, ⟨0, 0, 0, 0, 0, 0, 0, 0, 0, 0, 0, 0⟩⟩
      stereo_fixed := ⟨0, 1920, 1080, 0, 0, 0, 1080⟩ }
  c_options :=
    { slideshow := ⟨150, 0, 1⟩
      image := ⟨33, 2⟩
      thumbnails := ⟨128, 128, 2⟩
      file_filter := ⟨0, 1, 1, 0, 0⟩
      file_sort := ⟨0, 1⟩
      stereo := ⟨4, 32, ⟨0, 0, 0, 0, 0, 0, 0, 0, 0, 0, 0, 0⟩⟩
      stereo_fixed := ⟨0, 1920, 1080, 0, 0, 0, 1080⟩ }
  configwindow := true
  thumb_format_changed := false
  refresh_requests := 0

/-! ## Helper lemmas -/

theorem gint_of_gdouble_intCast (n : Int) : gint_of_gdouble (n : ℚ) = n := by
  unfold gint_of_gdouble
  split <;> simp

theorem gint_of_gdouble_nonneg_eq_floor {x : ℚ} (hx : 0 ≤ x) : gint_of_gdouble x = ⌊x⌋ := by
  unfold gint_of_gdouble
  simp [hx]

theorem seconds_spin_tenths_eq_floor {s : ℚ} (hs : 0 ≤ s) :
    seconds_spin_tenths s = ⌊s * 10 + 1 / 100⌋ := by
  unfold seconds_spin_tenths SLIDESHOW_SUBSECOND_PRECISION
  have h : (0 : ℚ) ≤ s * ((10 : Int) : ℚ) + 1 / 100 := by
    push_cast
    positivity
  rw [gint_of_gdouble_nonneg_eq_floor h]
  push_cast
  rfl

theorem seconds_spin_tenths_of_tenth {k : Int} (hk : 0 ≤ k) :
    seconds_spin_tenths ((k : ℚ) / 10) = k := by
  have hs : (0 : ℚ) ≤ (k : ℚ) / 10 := by
    have : (0 : ℚ) ≤ (k : ℚ) := by exact_mod_cast hk
    positivity
  rw [seconds_spin_tenths_eq_floor hs]
  have e : (k : ℚ) / 10 * 10 + 1 / 100 = (k : ℚ) + 1 / 100 := by ring
  rw [e, Int.floor_eq_iff]
  constructor <;> norm_num

theorem hours_cb_of_int (m : ℚ) (h t : Int) (ht : 0 ≤ t) :
    slideshow_delay_hours_cb m (h : ℚ) t =
      if h * 36000 + t % 36000 > 0 then h * 36000 + t % 36000 else slideshow_floor m := by
  unfold slideshow_delay_hours_cb
  simp only [SLIDESHOW_SUBSECOND_PRECISION]
  rw [Int.tmod_eq_emod ht (by norm_num)]
  have e : (h : ℚ) * (((3600 * 10 : Int)) : ℚ) + ((t % (3600 * 10) : Int) : ℚ)
      = ((h * 36000 + t % 36000 : Int) : ℚ) := by
    push_cast
    ring
  rw [e, gint_of_gdouble_intCast]

theorem minutes_cb_of_int (m : ℚ) (n t : Int) (ht : 0 ≤ t) :
    slideshow_delay_minutes_cb m (n : ℚ) t =
      if t / 36000 * 36000 + n * 600 + t % 600 > 0
        then t / 36000 * 36000 + n * 600 + t % 600 else slideshow_floor m := by
  unfold slideshow_delay_minutes_cb
  simp only [SLIDESHOW_SUBSECOND_PRECISION]
  rw [Int.tmod_eq_emod ht (by norm_num), Int.tdiv_eq_ediv ht (by norm_num)]
  have e : ((t / (3600 * 10) * (3600 * 10) : Int) : ℚ)
      + ((n : ℚ) * (((60 * 10 : Int)) : ℚ) + ((t % (60 * 10) : Int) : ℚ))
      = ((t / 36000 * 36000 + n * 600 + t % 600 : Int) : ℚ) := by
    push_cast
    ring
  rw [e, gint_of_gdouble_intCast]

theorem seconds_cb_of_tenth (m : ℚ) (k t : Int) (hk : 0 ≤ k) (ht : 0 ≤ t) :
    slideshow_delay_seconds_cb m ((k : ℚ) / 10) t =
      if t / 600 * 600 + k > 0 then t / 600 * 600 + k else slideshow_floor m := by
  unfold slideshow_delay_seconds_cb
  simp only [SLIDESHOW_SUBSECOND_PRECISION]
  rw [Int.tdiv_eq_ediv ht (by norm_num), seconds_spin_tenths_of_tenth hk]
  norm_num

theorem config_tab_general_delay_of_nonneg (t : Int) (ht : 0 ≤ t) :
    config_tab_general_delay t =
      { hours := t / 36000, remainder := t % 36000, minutes := t % 36000 / 600,
        seconds := ((t % 36000 % 600 : Int) : ℚ) / 10 } := by
  unfold config_tab_general_delay
  simp only [SLIDESHOW_SUBSECOND_PRECISION]
  have hr : 0 ≤ t % 36000 := Int.emod_nonneg _ (by norm_num)
  rw [Int.tmod_eq_emod ht (by norm_num), Int.tdiv_eq_ediv ht (by norm_num)]
  have e1 : (3600 * 10 : Int) = 36000 := by norm_num
  have e2 : (60 * 10 : Int) = 600 := by norm_num
  rw [e1, e2, Int.tmod_eq_emod hr (by norm_num), Int.tdiv_eq_ediv hr (by norm_num)]
  norm_num

theorem slideshow_floor_of_int (m : ℚ) (F : Int)
    (hF : m * (SLIDESHOW_SUBSECOND_PRECISION : ℚ) = (F : ℚ)) : slideshow_floor m = F := by
  unfold slideshow_floor
  rw [hF, gint_of_gdouble_intCast]

theorem hours_spin_init_of_pos (t : Int) (ht : 1 ≤ t) :
    hours_spin_init t = ((t / 36000 : Int) : ℚ) := by
  unfold hours_spin_init
  rw [config_tab_general_delay_of_nonneg t (by omega), if_pos (by omega)]

theorem minutes_spin_init_of_pos (t : Int) (ht : 1 ≤ t) :
    minutes_spin_init t = ((t % 36000 / 600 : Int) : ℚ) := by
  unfold minutes_spin_init
  rw [config_tab_general_delay_of_nonneg t (by omega), if_pos (by omega)]

theorem seconds_spin_init_of_pos (t : Int) (ht : 1 ≤ t) :
    seconds_spin_init t = ((t % 36000 % 600 : Int) : ℚ) / 10 := by
  unfold seconds_spin_init
  rw [config_tab_general_delay_of_nonneg t (by omega), if_pos (by omega)]

theorem gint_checked_of_fits {n : Int} (h1 : G_MININT ≤ n) (h2 : n ≤ G_MAXINT) :
    gint_checked n = some n := by
  unfold gint_checked
  rw [if_pos ⟨h1, h2⟩]

theorem gint_checked_of_gt {n : Int} (h : G_MAXINT < n) : gint_checked n = none := by
  unfold gint_checked
  rw [if_neg (by omega)]

theorem gint_checked_eq_some {n v : Int} (h : gint_checked n = some v) : n = v := by
  unfold gint_checked at h
  split at h
  · exact Option.some.inj h
  · exact absurd h (by simp)

theorem gint_of_gdouble_checked_intCast (n : Int) :
    gint_of_gdouble_checked (n : ℚ) = gint_checked n := by
  unfold gint_of_gdouble_checked
  rw [gint_of_gdouble_intCast]

theorem slideshow_delay_store_eq_some {m : ℚ} {d v : Int}
    (h : slideshow_delay_store m d = some v) :
    (if d > 0 then d else slideshow_floor m) = v := by
  unfold slideshow_delay_store at h
  by_cases hd : d > 0
  · rw [if_pos hd] at h
    rw [if_pos hd]
    exact Option.some.inj h
  · rw [if_neg hd] at h
    rw [if_neg hd]
    exact gint_checked_eq_some h

theorem slideshow_delay_store_of_pos (m : ℚ) {d : Int} (hd : 0 < d) :
    slideshow_delay_store m d = some d := by
  unfold slideshow_delay_store
  rw [if_pos hd]

theorem slideshow_delay_store_of_nonpos (m : ℚ) {d : Int} (hd : d ≤ 0) :
    slideshow_delay_store m d
      = gint_of_gdouble_checked (m * (SLIDESHOW_SUBSECOND_PRECISION : ℚ)) := by
  unfold slideshow_delay_store
  rw [if_neg (by omega)]

theorem slideshow_floor_checked_of_int (m : ℚ) (F : Int) (h1 : G_MININT ≤ F) (h2 : F ≤ G_MAXINT)
    (hF : m * (SLIDESHOW_SUBSECOND_PRECISION : ℚ) = (F : ℚ)) :
    gint_of_gdouble_checked (m * (SLIDESHOW_SUBSECOND_PRECISION : ℚ)) = some F := by
  rw [hF, gint_of_gdouble_checked_intCast, gint_checked_of_fits h1 h2]

theorem hours_cb_gint_eq_some {m s : ℚ} {t v : Int}
    (h : slideshow_delay_hours_cb_gint m s t = some v) : slideshow_delay_hours_cb m s t = v := by
  unfold slideshow_delay_hours_cb_gint at h
  simp only [Option.bind_eq_some] at h
  obtain ⟨d, hd, hs⟩ := h
  unfold slideshow_delay_hours_cb
  simp only []
  rw [gint_checked_eq_some hd]
  exact slideshow_delay_store_eq_some hs

theorem minutes_cb_gint_eq_some {m s : ℚ} {t v : Int}
    (h : slideshow_delay_minutes_cb_gint m s t = some v) :
    slideshow_delay_minutes_cb m s t = v := by
  unfold slideshow_delay_minutes_cb_gint at h
  simp only [Option.bind_eq_some] at h
  obtain ⟨p, hp, d, hd, hs⟩ := h
  unfold slideshow_delay_minutes_cb
  simp only []
  rw [gint_checked_eq_some hp, gint_checked_eq_some hd]
  exact slideshow_delay_store_eq_some hs

theorem seconds_cb_gint_eq_some {m s : ℚ} {t v : Int}
    (h : slideshow_delay_seconds_cb_gint m s t = some v) :
    slideshow_delay_seconds_cb m s t = v := by
  unfold slideshow_delay_seconds_cb_gint at h
  simp only [Option.bind_eq_some] at h
  obtain ⟨p, hp, k, hk, d, hd, hs⟩ := h
  unfold slideshow_delay_seconds_cb seconds_spin_tenths
  simp only []
  rw [gint_checked_eq_some hp, gint_checked_eq_some hk, gint_checked_eq_some hd]
  exact slideshow_delay_store_eq_some hs

theorem hours_cb_gint_of_int (m : ℚ) (h t : Int) (ht : 0 ≤ t) :
    slideshow_delay_hours_cb_gint m (h : ℚ) t =
      (gint_checked (h * 36000 + t % 36000)).bind fun d => slideshow_delay_store m d := by
  unfold slideshow_delay_hours_cb_gint
  simp only [SLIDESHOW_SUBSECOND_PRECISION]
  rw [Int.tmod_eq_emod ht (by norm_num)]
  have e : (h : ℚ) * (((3600 * 10 : Int)) : ℚ) + ((t % (3600 * 10) : Int) : ℚ)
      = ((h * 36000 + t % 36000 : Int) : ℚ) := by
    push_cast
    ring
  rw [e, gint_of_gdouble_checked_intCast]

theorem minutes_cb_gint_of_int (m : ℚ) (n t : Int) (ht : 0 ≤ t)
    (hfit : t / 36000 * 36000 ≤ G_MAXINT) :
    slideshow_delay_minutes_cb_gint m (n : ℚ) t =
      (gint_checked (t / 36000 * 36000 + n * 600 + t % 600)).bind
        fun d => slideshow_delay_store m d := by
  unfold slideshow_delay_minutes_cb_gint
  simp only [SLIDESHOW_SUBSECOND_PRECISION]
  rw [Int.tmod_eq_emod ht (by norm_num), Int.tdiv_eq_ediv ht (by norm_num)]
  have e0 : t / (3600 * 10) * (3600 * 10) = t / 36000 * 36000 := by norm_num
  have hlo : G_MININT ≤ t / 36000 * 36000 := by
    unfold G_MININT
    omega
  rw [e0, gint_checked_of_fits hlo hfit]
  simp only [Option.some_bind]
  have e : ((t / 36000 * 36000 : Int) : ℚ)
      + ((n : ℚ) * (((60 * 10 : Int)) : ℚ) + ((t % (60 * 10) : Int) : ℚ))
      = ((t / 36000 * 36000 + n * 600 + t % 600 : Int) : ℚ) := by
    push_cast
    ring
  rw [e, gint_of_gdouble_checked_intCast]

theorem seconds_cb_gint_of_tenth (m : ℚ) (k t : Int) (hk : 0 ≤ k) (hk1 : k ≤ G_MAXINT)
    (ht : 0 ≤ t) (hfit : t / 600 * 600 ≤ G_MAXINT) :
    slideshow_delay_seconds_cb_gint m ((k : ℚ) / 10) t =
      (gint_checked (t / 600 * 600 + k)).bind fun d => slideshow_delay_store m d := by
  unfold slideshow_delay_seconds_cb_gint
  simp only [SLIDESHOW_SUBSECOND_PRECISION]
  rw [Int.tdiv_eq_ediv ht (by norm_num)]
  have e0 : t / (60 * 10) * (60 * 10) = t / 600 * 600 := by norm_num
  have hlo : G_MININT ≤ t / 600 * 600 := by
    unfold G_MININT
    omega
  have hklo : G_MININT ≤ k := by
    unfold G_MININT
    omega
  have ek : gint_of_gdouble_checked ((k : ℚ) / 10 * ((10 : Int) : ℚ) + 1 / 100) = some k := by
    have h := seconds_spin_tenths_of_tenth hk
    unfold seconds_spin_tenths SLIDESHOW_SUBSECOND_PRECISION at h
    unfold gint_of_gdouble_checked
    rw [h, gint_checked_of_fits hklo hk1]
  rw [e0, gint_checked_of_fits hlo hfit]
  simp only [Option.some_bind]
  rw [ek]
  simp only [Option.some_bind]

/-! ## Slideshow delay: properties -/

/-- C3: slideshow delay round trip.  For every `total` that is at least
`SLIDESHOW_MIN_SECONDS * P` and at least 1, feeding the three spin values that
`config_tab_general` derives from `total` to `slideshow_delay_hours_cb`,
`slideshow_delay_minutes_cb` and `slideshow_delay_seconds_cb`, in sequence and
starting from the staged delay `total`, leaves the staged delay equal to `total`
after each step. -/
theorem slideshow_delay_round_trip (minS : ℚ) (total : Int)
    (_hmin : minS * (SLIDESHOW_SUBSECOND_PRECISION : ℚ) ≤ (total : ℚ)) (h1 : 1 ≤ total) :
    slideshow_delay_hours_cb minS (hours_spin_init total) total = total ∧
    slideshow_delay_minutes_cb minS (minutes_spin_init total)
      (slideshow_delay_hours_cb minS (hours_spin_init total) total) = total ∧
    slideshow_delay_seconds_cb minS (seconds_spin_init total)
      (slideshow_delay_minutes_cb minS (minutes_spin_init total)
        (slideshow_delay_hours_cb minS (hours_spin_init total) total)) = total := by
  have h0 : 0 ≤ total := by omega
  have e1 : slideshow_delay_hours_cb minS (hours_spin_init total) total = total := by
    rw [hours_spin_init_of_pos total h1, hours_cb_of_int minS _ total h0]
    have hd : total / 36000 * 36000 + total % 36000 = total := by omega
    rw [hd, if_pos (by omega)]
  have e2 : slideshow_delay_minutes_cb minS (minutes_spin_init total) total = total := by
    rw [minutes_spin_init_of_pos total h1, minutes_cb_of_int minS _ total h0]
    have hd : total / 36000 * 36000 + total % 36000 / 600 * 600 + total % 600 = total := by
      omega
    rw [hd, if_pos (by omega)]
  have e3 : slideshow_delay_seconds_cb minS (seconds_spin_init total) total = total := by
    rw [seconds_spin_init_of_pos total h1,
      seconds_cb_of_tenth minS _ total (by omega) h0]
    have hd : total / 600 * 600 + total % 36000 % 600 = total := by omega
    rw [hd, if_pos (by omega)]
  rw [e1, e2]
  exact ⟨rfl, rfl, e3⟩

/-- Witness of C3 at `total = 37253` (with `SLIDESHOW_MIN_SECONDS = 0.1`): the
decomposition is hours 1, minutes 2, seconds 5.3, and recomposing the three
unchanged fields gives 37253 again. -/
theorem slideshow_delay_round_trip_witness :
    ((1 / 10 : ℚ) * (SLIDESHOW_SUBSECOND_PRECISION : ℚ) ≤ ((37253 : Int) : ℚ) ∧
      (1 : Int) ≤ 37253) ∧
    (hours_spin_init 37253 = 1 ∧ minutes_spin_init 37253 = 2 ∧
      seconds_spin_init 37253 = 53 / 10) ∧
    slideshow_delay_seconds_cb (1 / 10) (seconds_spin_init 37253)
      (slideshow_delay_minutes_cb (1 / 10) (minutes_spin_init 37253)
        (slideshow_delay_hours_cb (1 / 10) (hours_spin_init 37253) 37253)) = 37253 :=
  ⟨⟨by norm_num [SLIDESHOW_SUBSECOND_PRECISION], by norm_num⟩,
   ⟨by rw [hours_spin_init_of_pos _ (by norm_num)]; norm_num,
    by rw [minutes_spin_init_of_pos _ (by norm_num)]; norm_num,
    by rw [seconds_spin_init_of_pos _ (by norm_num)]; norm_num⟩,
   (slideshow_delay_round_trip (1 / 10) 37253
      (by norm_num [SLIDESHOW_SUBSECOND_PRECISION]) (by norm_num)).2.2⟩

/-- C4: decomposition formulas and reconstruction.  For `total ≥ 0` the values
computed by `config_tab_general` are `hours = total / (3600*P)`,
`remainder = total % (3600*P)`, `minutes = remainder / (60*P)`,
`seconds = (remainder % (60*P)) / P` (a rational with one fractional digit), and
`hours*3600*P + minutes*60*P + seconds*P = total`. -/
theorem config_tab_general_decomposition (total : Int) (h0 : 0 ≤ total) :
    (config_tab_general_delay total).hours = total / (3600 * 10) ∧
    (config_tab_general_delay total).remainder = total % (3600 * 10) ∧
    (config_tab_general_delay total).minutes =
      (config_tab_general_delay total).remainder / (60 * 10) ∧
    (config_tab_general_delay total).seconds =
      (((config_tab_general_delay total).remainder % (60 * 10) : Int) : ℚ) / 10 ∧
    (∃ k : Int, 0 ≤ k ∧ k ≤ 599 ∧ (config_tab_general_delay total).seconds = (k : ℚ) / 10) ∧
    ((config_tab_general_delay total).hours : ℚ) * 3600 * 10
      + ((config_tab_general_delay total).minutes : ℚ) * 60 * 10
      + (config_tab_general_delay total).seconds * 10 = (total : ℚ) := by
  rw [config_tab_general_delay_of_nonneg total h0]
  refine ⟨by norm_num, by norm_num, by norm_num, by norm_num, ?_, ?_⟩
  · exact ⟨total % 36000 % 600, by omega, by omega, rfl⟩
  · have hd : total / 36000 * 36000 + total % 36000 / 600 * 600 + total % 36000 % 600
        = total := by omega
    have hq : (((total / 36000 * 36000 + total % 36000 / 600 * 600 + total % 36000 % 600 : Int))
        : ℚ) = (total : ℚ) := by rw [hd]
    push_cast at hq
    simp only []
    linarith

/-- Witness of C4 at `total = 37253`: 1 h, 2 min, 5.3 s. -/
theorem config_tab_general_decomposition_witness :
    (0 : Int) ≤ 37253 ∧
    (config_tab_general_delay 37253).hours = 37253 / (3600 * 10) ∧
    ((config_tab_general_delay 37253).hours : ℚ) * 3600 * 10
      + ((config_tab_general_delay 37253).minutes : ℚ) * 60 * 10
      + (config_tab_general_delay 37253).seconds * 10 = ((37253 : Int) : ℚ) :=
  ⟨by norm_num,
   (config_tab_general_decomposition 37253 (by norm_num)).1,
   (config_tab_general_decomposition 37253 (by norm_num)).2.2.2.2.2⟩

/-- C6, as stated, fails for a staged delay near `G_MAXINT`: with `t = 2147483647`
and the spin value `m = 59`, the recomposed delay
`d = (t / (3600*P))*3600*P + m*60*P + t % (60*P)` is 2147507647, above `G_MAXINT`;
its conversion to the `gint` local `delay` overflows, and
`slideshow_delay_minutes_cb` does not store `d`. -/
theorem recompose_minutes_overflow :
    ((0 : Int) ≤ 2147483647 ∧ (2147483647 : Int) ≤ G_MAXINT ∧
      (0 : Int) ≤ 59 ∧ (59 : Int) ≤ 59) ∧
    (2147483647 : Int) / (3600 * 10) * (3600 * 10) + 59 * (60 * 10)
      + 2147483647 % (60 * 10) = 2147507647 ∧
    G_MAXINT < 2147507647 ∧
    slideshow_delay_minutes_cb_gint SLIDESHOW_MIN_SECONDS ((59 : Int) : ℚ) 2147483647 = none ∧
    slideshow_delay_minutes_cb_gint SLIDESHOW_MIN_SECONDS ((59 : Int) : ℚ) 2147483647
      ≠ some ((2147483647 : Int) / (3600 * 10) * (3600 * 10) + 59 * (60 * 10)
        + 2147483647 % (60 * 10)) := by
  have h : slideshow_delay_minutes_cb_gint SLIDESHOW_MIN_SECONDS ((59 : Int) : ℚ) 2147483647
      = none := by
    rw [minutes_cb_gint_of_int _ 59 2147483647 (by norm_num) (by norm_num [G_MAXINT]),
      gint_checked_of_gt (by norm_num [G_MAXINT])]
    rfl
  refine ⟨⟨by norm_num, by norm_num [G_MAXINT], by norm_num, by norm_num⟩, by norm_num,
    by norm_num [G_MAXINT], h, ?_⟩
  rw [h]
  simp

/-- C6, amended: for a staged delay `t ≥ 0` and an integer spin value `0 ≤ m ≤ 59`
whose recomposed delay `d = (t / (3600*P))*3600*P + m*60*P + t % (60*P)` does not
exceed `G_MAXINT`, `slideshow_delay_minutes_cb` stores `d` when `d > 0` (else
`SLIDESHOW_MIN_SECONDS * P`); when `d > 0` the stored value has the hours and the
seconds-tenths of `t`, and its minutes field is `m`. -/
theorem recompose_minutes (minS : ℚ) (t m : Int) (ht : 0 ≤ t) (hm0 : 0 ≤ m) (hm : m ≤ 59)
    (hfit : t / (3600 * 10) * (3600 * 10) + m * (60 * 10) + t % (60 * 10) ≤ G_MAXINT) :
    (0 < t / (3600 * 10) * (3600 * 10) + m * (60 * 10) + t % (60 * 10) →
      slideshow_delay_minutes_cb_gint minS (m : ℚ) t
        = some (t / (3600 * 10) * (3600 * 10) + m * (60 * 10) + t % (60 * 10)) ∧
      (t / (3600 * 10) * (3600 * 10) + m * (60 * 10) + t % (60 * 10)) / (3600 * 10)
        = t / (3600 * 10) ∧
      (t / (3600 * 10) * (3600 * 10) + m * (60 * 10) + t % (60 * 10)) % (60 * 10)
        = t % (60 * 10) ∧
      (t / (3600 * 10) * (3600 * 10) + m * (60 * 10) + t % (60 * 10)) % (3600 * 10)
        / (60 * 10) = m) ∧
    (t / (3600 * 10) * (3600 * 10) + m * (60 * 10) + t % (60 * 10) ≤ 0 →
      slideshow_delay_minutes_cb_gint minS (m : ℚ) t
        = gint_of_gdouble_checked (minS * (SLIDESHOW_SUBSECOND_PRECISION : ℚ)) ∧
      ∀ F : Int, G_MININT ≤ F → F ≤ G_MAXINT →
        minS * (SLIDESHOW_SUBSECOND_PRECISION : ℚ) = (F : ℚ) →
        slideshow_delay_minutes_cb_gint minS (m : ℚ) t = some F) := by
  have hp : t / 36000 * 36000 ≤ G_MAXINT := by
    unfold G_MAXINT at hfit ⊢
    omega
  have hlo : G_MININT ≤ t / 36000 * 36000 + m * 600 + t % 600 := by
    unfold G_MININT
    omega
  have hhi : t / 36000 * 36000 + m * 600 + t % 600 ≤ G_MAXINT := by
    unfold G_MAXINT at hfit ⊢
    omega
  rw [minutes_cb_gint_of_int minS m t ht hp, gint_checked_of_fits hlo hhi]
  simp only [Option.some_bind]
  constructor
  · intro hd
    rw [slideshow_delay_store_of_pos minS (by omega)]
    refine ⟨by norm_num, by omega, by omega, by omega⟩
  · intro hd
    rw [slideshow_delay_store_of_nonpos minS (by omega)]
    exact ⟨rfl, fun F h1 h2 hF => slideshow_floor_checked_of_int minS F h1 h2 hF⟩

/-- Witness of the amended C6 at `m = 59` and `t = 37253` (1 h, 2 min, 5.3 s): the
stored value is 71453 (1 h, 59 min, 5.3 s). -/
theorem recompose_minutes_witness :
    ((0 : Int) ≤ 37253 ∧ (0 : Int) ≤ 59 ∧ (59 : Int) ≤ 59 ∧
      (37253 : Int) / (3600 * 10) * (3600 * 10) + 59 * (60 * 10) + 37253 % (60 * 10)
        ≤ G_MAXINT) ∧
    (37253 : Int) / (3600 * 10) * (3600 * 10) + 59 * (60 * 10) + 37253 % (60 * 10) = 71453 ∧
    slideshow_delay_minutes_cb_gint SLIDESHOW_MIN_SECONDS ((59 : Int) : ℚ) 37253
      = some ((37253 : Int) / (3600 * 10) * (3600 * 10) + 59 * (60 * 10)
        + 37253 % (60 * 10)) :=
  ⟨⟨by norm_num, by norm_num, by norm_num, by norm_num [G_MAXINT]⟩, by norm_num,
   ((recompose_minutes SLIDESHOW_MIN_SECONDS 37253 59 (by norm_num) (by norm_num)
      (by norm_num) (by norm_num [G_MAXINT])).1 (by norm_num)).1⟩

/-- C7, as stated, fails for a staged delay near `G_MAXINT`: with `t = 2147483647`
and the spin value 25.0 (`k = 250`), the recomposed delay `d = (t / (60*P))*60*P + k`
is 2147483650, above `G_MAXINT`; the `gint` addition of
`slideshow_delay_seconds_cb` overflows, and `d` is not stored. -/
theorem recompose_seconds_overflow :
    ((0 : Int) ≤ 2147483647 ∧ (2147483647 : Int) ≤ G_MAXINT ∧
      (0 : Int) ≤ 250 ∧ (250 : Int) ≤ 599) ∧
    (2147483647 : Int) / (60 * 10) * (60 * 10) + 250 = 2147483650 ∧
    G_MAXINT < 2147483650 ∧
    slideshow_delay_seconds_cb_gint SLIDESHOW_MIN_SECONDS (((250 : Int) : ℚ) / 10) 2147483647
      = none ∧
    slideshow_delay_seconds_cb_gint SLIDESHOW_MIN_SECONDS (((250 : Int) : ℚ) / 10) 2147483647
      ≠ some ((2147483647 : Int) / (60 * 10) * (60 * 10) + 250) := by
  have h : slideshow_delay_seconds_cb_gint SLIDESHOW_MIN_SECONDS (((250 : Int) : ℚ) / 10)
      2147483647 = none := by
    rw [seconds_cb_gint_of_tenth _ 250 2147483647 (by norm_num) (by norm_num [G_MAXINT])
        (by norm_num) (by norm_num [G_MAXINT]),
      gint_checked_of_gt (by norm_num [G_MAXINT])]
    rfl
  refine ⟨⟨by norm_num, by norm_num [G_MAXINT], by norm_num, by norm_num⟩, by norm_num,
    by norm_num [G_MAXINT], h, ?_⟩
  rw [h]
  simp

/-- C7, amended: for a staged delay `t ≥ 0` and a spin value that is an exact number
of tenths `k/10` with `0 ≤ k ≤ 599` whose recomposed delay `d = (t / (60*P))*60*P + k`
does not exceed `G_MAXINT`, `slideshow_delay_seconds_cb` stores `d` when `d > 0`
(else `SLIDESHOW_MIN_SECONDS * P`); when `d > 0` the stored value `v` has
`v / (60*P) = t / (60*P)` and `v % (60*P) = k`. -/
theorem recompose_seconds (minS : ℚ) (t k : Int) (ht : 0 ≤ t) (hk0 : 0 ≤ k) (hk : k ≤ 599)
    (hfit : t / (60 * 10) * (60 * 10) + k ≤ G_MAXINT) :
    (0 < t / (60 * 10) * (60 * 10) + k →
      slideshow_delay_seconds_cb_gint minS ((k : ℚ) / 10) t
        = some (t / (60 * 10) * (60 * 10) + k) ∧
      (t / (60 * 10) * (60 * 10) + k) / (60 * 10) = t / (60 * 10) ∧
      (t / (60 * 10) * (60 * 10) + k) % (60 * 10) = k) ∧
    (t / (60 * 10) * (60 * 10) + k ≤ 0 →
      slideshow_delay_seconds_cb_gint minS ((k : ℚ) / 10) t
        = gint_of_gdouble_checked (minS * (SLIDESHOW_SUBSECOND_PRECISION : ℚ)) ∧
      ∀ F : Int, G_MININT ≤ F → F ≤ G_MAXINT →
        minS * (SLIDESHOW_SUBSECOND_PRECISION : ℚ) = (F : ℚ) →
        slideshow_delay_seconds_cb_gint minS ((k : ℚ) / 10) t = some F) := by
  have hp : t / 600 * 600 ≤ G_MAXINT := by
    unfold G_MAXINT at hfit ⊢
    omega
  have hk1 : k ≤ G_MAXINT := by
    unfold G_MAXINT
    omega
  have hlo : G_MININT ≤ t / 600 * 600 + k := by
    unfold G_MININT
    omega
  have hhi : t / 600 * 600 + k ≤ G_MAXINT := by
    unfold G_MAXINT at hfit ⊢
    omega
  rw [seconds_cb_gint_of_tenth minS k t hk0 hk1 ht hp, gint_checked_of_fits hlo hhi]
  simp only [Option.some_bind]
  constructor
  · intro hd
    rw [slideshow_delay_store_of_pos minS (by omega)]
    refine ⟨by norm_num, by omega, by omega⟩
  · intro hd
    rw [slideshow_delay_store_of_nonpos minS (by omega)]
    exact ⟨rfl, fun F h1 h2 hF => slideshow_floor_checked_of_int minS F h1 h2 hF⟩

/-- Witness of the amended C7 at `t = 37253` (1 h, 2 min, 5.3 s) and the spin value
59.9: the stored value is 37799 (1 h, 2 min, 59.9 s). -/
theorem recompose_seconds_witness :
    ((0 : Int) ≤ 37253 ∧ (0 : Int) ≤ 599 ∧ (599 : Int) ≤ 599 ∧
      (37253 : Int) / (60 * 10) * (60 * 10) + 599 ≤ G_MAXINT) ∧
    (37253 : Int) / (60 * 10) * (60 * 10) + 599 = 37799 ∧
    slideshow_delay_seconds_cb_gint SLIDESHOW_MIN_SECONDS (((599 : Int) : ℚ) / 10) 37253
      = some ((37253 : Int) / (60 * 10) * (60 * 10) + 599) :=
  ⟨⟨by norm_num, by norm_num, by norm_num, by norm_num [G_MAXINT]⟩, by norm_num,
   ((recompose_seconds SLIDESHOW_MIN_SECONDS 37253 599 (by norm_num) (by norm_num)
      (by norm_num) (by norm_num [G_MAXINT])).1 (by norm_num)).1⟩

theorem stored_pos_or_floor (F d : Int) (hF1 : F ≤ 1) :
    F ≤ (if d > 0 then d else F) ∧ (0 < F → 0 < (if d > 0 then d else F)) := by
  split <;> constructor <;> intros <;> omega

theorem slideshow_delay_floor (minS spin : ℚ) (t F : Int)
    (hF : minS * (SLIDESHOW_SUBSECOND_PRECISION : ℚ) = (F : ℚ)) (hF1 : F ≤ 1) :
    (F ≤ slideshow_delay_hours_cb minS spin t ∧
      minS * (SLIDESHOW_SUBSECOND_PRECISION : ℚ)
        ≤ ((slideshow_delay_hours_cb minS spin t : Int) : ℚ) ∧
      (0 < F → 0 < slideshow_delay_hours_cb minS spin t)) ∧
    (F ≤ slideshow_delay_minutes_cb minS spin t ∧
      minS * (SLIDESHOW_SUBSECOND_PRECISION : ℚ)
        ≤ ((slideshow_delay_minutes_cb minS spin t : Int) : ℚ) ∧
      (0 < F → 0 < slideshow_delay_minutes_cb minS spin t)) ∧
    (F ≤ slideshow_delay_seconds_cb minS spin t ∧
      minS * (SLIDESHOW_SUBSECOND_PRECISION : ℚ)
        ≤ ((slideshow_delay_seconds_cb minS spin t : Int) : ℚ) ∧
      (0 < F → 0 < slideshow_delay_seconds_cb minS spin t)) := by
  have hfl : slideshow_floor minS = F := slideshow_floor_of_int minS F hF
  have key : ∀ v : Int, (F ≤ v ∧ (0 < F → 0 < v)) →
      (F ≤ v ∧ minS * (SLIDESHOW_SUBSECOND_PRECISION : ℚ) ≤ (v : ℚ) ∧ (0 < F → 0 < v)) := by
    intro v hv
    refine ⟨hv.1, ?_, hv.2⟩
    rw [hF]
    exact_mod_cast hv.1
  refine ⟨key _ ?_, key _ ?_, key _ ?_⟩
  · unfold slideshow_delay_hours_cb
    simp only [hfl]
    exact stored_pos_or_floor F _ hF1
  · unfold slideshow_delay_minutes_cb
    simp only [hfl]
    exact stored_pos_or_floor F _ hF1
  · unfold slideshow_delay_seconds_cb
    simp only [hfl]
    exact stored_pos_or_floor F _ hF1

theorem slideshow_min_floor :
    SLIDESHOW_MIN_SECONDS * (SLIDESHOW_SUBSECOND_PRECISION : ℚ) = ((1 : Int) : ℚ) := by
  norm_num [SLIDESHOW_MIN_SECONDS, SLIDESHOW_SUBSECOND_PRECISION]

/-- C9: delay floor invariant.  With `SLIDESHOW_MIN_SECONDS = 0.1`, for every staged
delay `t` (any integer, negative values included, with truncating `/` and `%`) and
every spin value, the value each of `slideshow_delay_hours_cb`,
`slideshow_delay_minutes_cb` and `slideshow_delay_seconds_cb` stores is at least
`SLIDESHOW_MIN_SECONDS * SLIDESHOW_SUBSECOND_PRECISION` and strictly positive; the
same holds of every value the callbacks store within the range of `gint`, and of
the value their last statement stores whatever the local `delay` holds. -/
theorem slideshow_delay_floor_invariant (spin : ℚ) (t : Int) :
    (SLIDESHOW_MIN_SECONDS * (SLIDESHOW_SUBSECOND_PRECISION : ℚ)
        ≤ ((slideshow_delay_hours_cb SLIDESHOW_MIN_SECONDS spin t : Int) : ℚ) ∧
      0 < slideshow_delay_hours_cb SLIDESHOW_MIN_SECONDS spin t) ∧
    (SLIDESHOW_MIN_SECONDS * (SLIDESHOW_SUBSECOND_PRECISION : ℚ)
        ≤ ((slideshow_delay_minutes_cb SLIDESHOW_MIN_SECONDS spin t : Int) : ℚ) ∧
      0 < slideshow_delay_minutes_cb SLIDESHOW_MIN_SECONDS spin t) ∧
    (SLIDESHOW_MIN_SECONDS * (SLIDESHOW_SUBSECOND_PRECISION : ℚ)
        ≤ ((slideshow_delay_seconds_cb SLIDESHOW_MIN_SECONDS spin t : Int) : ℚ) ∧
      0 < slideshow_delay_seconds_cb SLIDESHOW_MIN_SECONDS spin t) ∧
    (∀ v : Int, slideshow_delay_hours_cb_gint SLIDESHOW_MIN_SECONDS spin t = some v →
      SLIDESHOW_MIN_SECONDS * (SLIDESHOW_SUBSECOND_PRECISION : ℚ) ≤ (v : ℚ) ∧ 0 < v) ∧
    (∀ v : Int, slideshow_delay_minutes_cb_gint SLIDESHOW_MIN_SECONDS spin t = some v →
      SLIDESHOW_MIN_SECONDS * (SLIDESHOW_SUBSECOND_PRECISION : ℚ) ≤ (v : ℚ) ∧ 0 < v) ∧
    (∀ v : Int, slideshow_delay_seconds_cb_gint SLIDESHOW_MIN_SECONDS spin t = some v →
      SLIDESHOW_MIN_SECONDS * (SLIDESHOW_SUBSECOND_PRECISION : ℚ) ≤ (v : ℚ) ∧ 0 < v) ∧
    (∀ delay : Int, ∃ v : Int, slideshow_delay_store SLIDESHOW_MIN_SECONDS delay = some v ∧
      SLIDESHOW_MIN_SECONDS * (SLIDESHOW_SUBSECOND_PRECISION : ℚ) ≤ (v : ℚ) ∧ 0 < v) := by
  have h := slideshow_delay_floor SLIDESHOW_MIN_SECONDS spin t 1 slideshow_min_floor le_rfl
  obtain ⟨⟨_, a1, a2⟩, ⟨_, b1, b2⟩, ⟨_, c1, c2⟩⟩ := h
  refine ⟨⟨a1, a2 one_pos⟩, ⟨b1, b2 one_pos⟩, ⟨c1, c2 one_pos⟩, ?_, ?_, ?_, ?_⟩
  · intro v hv
    rw [← hours_cb_gint_eq_some hv]
    exact ⟨a1, a2 one_pos⟩
  · intro v hv
    rw [← minutes_cb_gint_eq_some hv]
    exact ⟨b1, b2 one_pos⟩
  · intro v hv
    rw [← seconds_cb_gint_eq_some hv]
    exact ⟨c1, c2 one_pos⟩
  · intro delay
    rw [slideshow_min_floor]
    by_cases hd : 0 < delay
    · refine ⟨delay, slideshow_delay_store_of_pos _ hd, ?_, hd⟩
      exact_mod_cast hd
    · refine ⟨1, ?_, le_rfl, one_pos⟩
      rw [slideshow_delay_store_of_nonpos _ (by omega)]
      exact slideshow_floor_checked_of_int _ 1 (by norm_num [G_MININT])
        (by norm_num [G_MAXINT]) slideshow_min_floor

theorem seconds_field_eq {a b : Int} (h : a % 36000 % 600 = b % 36000 % 600) :
    ((a % 36000 % 600 : Int) : ℚ) / 10 = ((b % 36000 % 600 : Int) : ℚ) / 10 := by
  rw [h]

/-- C10, as stated, fails where a callback clamps: with
`SLIDESHOW_MIN_SECONDS = 0.1` and the staged delay 36000 (1 h, 0 min, 0.0 s), setting
the hours spin to 0 stores the floor 1, whose seconds field is 0.1 and not 0.0. -/
theorem slideshow_delay_drift_at_clamp :
    ((0 : Int) ≤ 36000 ∧ (0 : Int) ≤ 0 ∧ (0 : Int) ≤ 23) ∧
    slideshow_delay_hours_cb (1 / 10) ((0 : Int) : ℚ) 36000 = 1 ∧
    (config_tab_general_delay 36000).seconds = 0 ∧
    (config_tab_general_delay
      (slideshow_delay_hours_cb (1 / 10) ((0 : Int) : ℚ) 36000)).seconds = 1 / 10 ∧
    (config_tab_general_delay
      (slideshow_delay_hours_cb (1 / 10) ((0 : Int) : ℚ) 36000)).seconds
      ≠ (config_tab_general_delay 36000).seconds := by
  have h : slideshow_delay_hours_cb (1 / 10) ((0 : Int) : ℚ) 36000 = 1 := by
    rw [hours_cb_of_int (1 / 10) 0 36000 (by norm_num)]
    norm_num
    exact slideshow_floor_of_int (1 / 10) 1 (by norm_num [SLIDESHOW_SUBSECOND_PRECISION])
  rw [h, config_tab_general_delay_of_nonneg 36000 (by norm_num),
    config_tab_general_delay_of_nonneg 1 (by norm_num)]
  norm_num

/-- C10, amended: for a staged delay `t ≥ 0` and an in-range new value (hours 0..23,
minutes 0..59, seconds an exact tenth `k/10` with `0 ≤ k ≤ 599`), whenever the
recomposed delay is positive (so that the callback does not clamp) and does not
exceed `G_MAXINT` (so that it is a `gint`; with hours 0..23 the delay recomposed by
`slideshow_delay_hours_cb` always is), the callback stores a delay whose
decomposition gives the new value in the edited field and the same values as
decomposing `t` in the two other fields. -/
theorem slideshow_delay_no_drift (minS : ℚ) (t : Int) (ht : 0 ≤ t) :
    (∀ h : Int, 0 ≤ h → h ≤ 23 → 0 < h * (3600 * 10) + t % (3600 * 10) →
      ∃ v : Int, slideshow_delay_hours_cb_gint minS (h : ℚ) t = some v ∧
        (config_tab_general_delay v).hours = h ∧
        (config_tab_general_delay v).minutes = (config_tab_general_delay t).minutes ∧
        (config_tab_general_delay v).seconds = (config_tab_general_delay t).seconds) ∧
    (∀ m : Int, 0 ≤ m → m ≤ 59 →
      0 < t / (3600 * 10) * (3600 * 10) + m * (60 * 10) + t % (60 * 10) →
      t / (3600 * 10) * (3600 * 10) + m * (60 * 10) + t % (60 * 10) ≤ G_MAXINT →
      ∃ v : Int, slideshow_delay_minutes_cb_gint minS (m : ℚ) t = some v ∧
        (config_tab_general_delay v).hours = (config_tab_general_delay t).hours ∧
        (config_tab_general_delay v).minutes = m ∧
        (config_tab_general_delay v).seconds = (config_tab_general_delay t).seconds) ∧
    (∀ k : Int, 0 ≤ k → k ≤ 599 → 0 < t / (60 * 10) * (60 * 10) + k →
      t / (60 * 10) * (60 * 10) + k ≤ G_MAXINT →
      ∃ v : Int, slideshow_delay_seconds_cb_gint minS ((k : ℚ) / 10) t = some v ∧
        (config_tab_general_delay v).hours = (config_tab_general_delay t).hours ∧
        (config_tab_general_delay v).minutes = (config_tab_general_delay t).minutes ∧
        (config_tab_general_delay v).seconds = (k : ℚ) / 10) := by
  refine ⟨?_, ?_, ?_⟩
  · intro h h0 h23 hd
    refine ⟨h * 36000 + t % 36000, ?_, ?_⟩
    · rw [hours_cb_gint_of_int minS h t ht,
        gint_checked_of_fits (by unfold G_MININT; omega) (by unfold G_MAXINT; omega)]
      exact slideshow_delay_store_of_pos minS (by omega)
    · rw [config_tab_general_delay_of_nonneg _ (by omega),
        config_tab_general_delay_of_nonneg t ht]
      refine ⟨by simp only []; omega, by simp only []; omega, ?_⟩
      exact seconds_field_eq (by omega)
  · intro m m0 m59 hd hfit
    unfold G_MAXINT at hfit
    refine ⟨t / 36000 * 36000 + m * 600 + t % 600, ?_, ?_⟩
    · rw [minutes_cb_gint_of_int minS m t ht (by unfold G_MAXINT; omega),
        gint_checked_of_fits (by unfold G_MININT; omega) (by unfold G_MAXINT; omega)]
      exact slideshow_delay_store_of_pos minS (by omega)
    · rw [config_tab_general_delay_of_nonneg _ (by omega),
        config_tab_general_delay_of_nonneg t ht]
      refine ⟨by simp only []; omega, by simp only []; omega, ?_⟩
      exact seconds_field_eq (by omega)
  · intro k k0 k599 hd hfit
    unfold G_MAXINT at hfit
    refine ⟨t / 600 * 600 + k, ?_, ?_⟩
    · rw [seconds_cb_gint_of_tenth minS k t k0 (by unfold G_MAXINT; omega) ht
          (by unfold G_MAXINT; omega),
        gint_checked_of_fits (by unfold G_MININT; omega) (by unfold G_MAXINT; omega)]
      exact slideshow_delay_store_of_pos minS (by omega)
    · rw [config_tab_general_delay_of_nonneg _ (by omega),
        config_tab_general_delay_of_nonneg t ht]
      refine ⟨by simp only []; omega, by simp only []; omega, ?_⟩
      simp only []
      have e : (t / 600 * 600 + k) % 36000 % 600 = k := by omega
      rw [e]

/-- Witness of the amended C10 at `t = 37253` (1 h, 2 min, 5.3 s): setting the
minutes spin to 59 stores a delay with hours 1, minutes 59 and seconds 5.3. -/
theorem slideshow_delay_no_drift_witness :
    (0 : Int) ≤ 37253 ∧
    ∃ v : Int, slideshow_delay_minutes_cb_gint SLIDESHOW_MIN_SECONDS ((59 : Int) : ℚ) 37253
        = some v ∧
      (config_tab_general_delay v).hours = (config_tab_general_delay 37253).hours ∧
      (config_tab_general_delay v).minutes = 59 ∧
      (config_tab_general_delay v).seconds = (config_tab_general_delay 37253).seconds :=
  ⟨by norm_num,
   (slideshow_delay_no_drift SLIDESHOW_MIN_SECONDS 37253 (by norm_num)).2.1 59
     (by norm_num) (by norm_num) (by norm_num) (by norm_num [G_MAXINT])⟩

/-! ## Bit-level lemmas for the stereo masks -/

theorem int_testBit_two_pow (k i : Nat) : Int.testBit ((2 : Int) ^ k) i = decide (k = i) := by
  have h : ((2 : Int) ^ k) = (((2 ^ k : Nat)) : Int) := by push_cast; rfl
  rw [h]
  show Nat.testBit (2 ^ k) i = decide (k = i)
  exact Nat.testBit_two_pow

theorem int_testBit_zero (i : Nat) : Int.testBit 0 i = false := by
  show Nat.testBit 0 i = false
  simp

theorem nat_testBit_high (m i : Nat) (h : m ≤ i) : Nat.testBit m i = false := by
  apply Nat.testBit_lt_two_pow
  exact lt_of_lt_of_le (Nat.lt_two_pow m) (Nat.pow_le_pow_right (by norm_num) h)

theorem int_eq_of_testBit_eq : ∀ {a b : Int}, (∀ i, Int.testBit a i = Int.testBit b i) → a = b
  | (m : ℕ), (n : ℕ), h => by
    have : m = n := Nat.eq_of_testBit_eq h
    rw [this]
  | (m : ℕ), Int.negSucc n, h => by
    exfalso
    have hm : Nat.testBit m (m + n) = false := nat_testBit_high m (m + n) (by omega)
    have hn : Nat.testBit n (m + n) = false := nat_testBit_high n (m + n) (by omega)
    have := h (m + n)
    simp only [Int.testBit] at this
    rw [hm, hn] at this
    simp at this
  | Int.negSucc m, (n : ℕ), h => by
    exfalso
    have hm : Nat.testBit m (m + n) = false := nat_testBit_high m (m + n) (by omega)
    have hn : Nat.testBit n (m + n) = false := nat_testBit_high n (m + n) (by omega)
    have := h (m + n)
    simp only [Int.testBit] at this
    rw [hm, hn] at this
    simp at this
  | Int.negSucc m, Int.negSucc n, h => by
    have : m = n := by
      apply Nat.eq_of_testBit_eq
      intro i
      have := h i
      simp only [Int.testBit] at this
      simpa using this
    rw [this]

theorem land_two_pow (x : Int) (k : Nat) :
    Int.land x (2 ^ k) = if Int.testBit x k = true then 2 ^ k else 0 := by
  apply int_eq_of_testBit_eq
  intro i
  rw [Int.testBit_land, int_testBit_two_pow]
  by_cases hki : k = i
  · subst hki
    by_cases hx : Int.testBit x k = true
    · simp [hx, int_testBit_two_pow]
    · simp [hx, int_testBit_zero]
  · by_cases hx : Int.testBit x k = true
    · simp [hx, hki, int_testBit_two_pow]
    · simp [hx, hki, int_testBit_zero]

theorem two_pow_ne_zero_int (k : Nat) : ((2 : Int) ^ k) ≠ 0 := by positivity

theorem land_two_pow_ne_zero_iff (x : Int) (k : Nat) :
    Int.land x (2 ^ k) ≠ 0 ↔ Int.testBit x k = true := by
  rw [land_two_pow]
  by_cases hx : Int.testBit x k = true
  · simp [hx]
  · simp [hx]

theorem flag_bit_land_two_pow (x : Int) (k : Nat) :
    flag_bit (Int.land x (2 ^ k)) (2 ^ k) = Int.land x (2 ^ k) := by
  unfold flag_bit
  by_cases h : Int.land x (2 ^ k) ≠ 0
  · rw [if_pos h, land_two_pow, if_pos ((land_two_pow_ne_zero_iff x k).1 h)]
  · rw [if_neg h]
    exact (not_not.1 h).symm

theorem testBit_flag_bit (f : Int) (k i : Nat) :
    Int.testBit (flag_bit f (2 ^ k)) i = (decide (f ≠ 0) && decide (k = i)) := by
  unfold flag_bit
  by_cases h : f ≠ 0
  · simp [h, int_testBit_two_pow]
  · simp [h, int_testBit_zero]

theorem exists_bit_indices (l : List Int) (h1 : ∀ c ∈ l, IsSingleBit c) (h2 : l.Nodup) :
    ∃ idx : Fin l.length → Nat, Function.Injective idx ∧ ∀ j, l.get j = 2 ^ idx j := by
  refine ⟨fun j => Classical.choose (h1 (l.get j) (List.get_mem l j.1 j.2)), ?_, ?_⟩
  · intro a b hab
    have ha := Classical.choose_spec (h1 (l.get a) (List.get_mem l a.1 a.2))
    have hb := Classical.choose_spec (h1 (l.get b) (List.get_mem l b.1 b.2))
    simp only at hab
    rw [hab, ← hb] at ha
    exact (List.Nodup.get_inj_iff h2).1 ha
  · intro j
    exact Classical.choose_spec (h1 (l.get j) (List.get_mem l j.1 j.2))

/-- Under the assumption on the constants, the nineteen bit constants are `2 ^ idx j`
for an injective assignment `idx` of bit positions. -/
theorem wellFormed_indices (K : StereoConsts) (hK : K.WellFormed) :
    ∃ idx : Fin 19 → Nat, Function.Injective idx ∧
      K.PR_STEREO_ANAGLYPH_RC = 2 ^ idx 0 ∧
      K.PR_STEREO_ANAGLYPH_GM = 2 ^ idx 1 ∧
      K.PR_STEREO_ANAGLYPH_YB = 2 ^ idx 2 ∧
      K.PR_STEREO_ANAGLYPH_GRAY_RC = 2 ^ idx 3 ∧
      K.PR_STEREO_ANAGLYPH_GRAY_GM = 2 ^ idx 4 ∧
      K.PR_STEREO_ANAGLYPH_GRAY_YB = 2 ^ idx 5 ∧
      K.PR_STEREO_ANAGLYPH_DB_RC = 2 ^ idx 6 ∧
      K.PR_STEREO_ANAGLYPH_DB_GM = 2 ^ idx 7 ∧
      K.PR_STEREO_ANAGLYPH_DB_YB = 2 ^ idx 8 ∧
      K.PR_STEREO_HORIZ = 2 ^ idx 9 ∧
      K.PR_STEREO_VERT = 2 ^ idx 10 ∧
      K.PR_STEREO_FIXED = 2 ^ idx 11 ∧
      K.PR_STEREO_HALF = 2 ^ idx 12 ∧
      K.PR_STEREO_MIRROR_LEFT = 2 ^ idx 13 ∧
      K.PR_STEREO_FLIP_LEFT = 2 ^ idx 14 ∧
      K.PR_STEREO_MIRROR_RIGHT = 2 ^ idx 15 ∧
      K.PR_STEREO_FLIP_RIGHT = 2 ^ idx 16 ∧
      K.PR_STEREO_SWAP = 2 ^ idx 17 ∧
      K.PR_STEREO_TEMP_DISABLE = 2 ^ idx 18 := by
  obtain ⟨idx, hinj, hget⟩ := exists_bit_indices K.bits hK.1 hK.2.1
  exact ⟨idx, hinj,
    hget ⟨0, (by decide : 0 < 19)⟩,
    hget ⟨1, (by decide : 1 < 19)⟩,
    hget ⟨2, (by decide : 2 < 19)⟩,
    hget ⟨3, (by decide : 3 < 19)⟩,
    hget ⟨4, (by decide : 4 < 19)⟩,
    hget ⟨5, (by decide : 5 < 19)⟩,
    hget ⟨6, (by decide : 6 < 19)⟩,
    hget ⟨7, (by decide : 7 < 19)⟩,
    hget ⟨8, (by decide : 8 < 19)⟩,
    hget ⟨9, (by decide : 9 < 19)⟩,
    hget ⟨10, (by decide : 10 < 19)⟩,
    hget ⟨11, (by decide : 11 < 19)⟩,
    hget ⟨12, (by decide : 12 < 19)⟩,
    hget ⟨13, (by decide : 13 < 19)⟩,
    hget ⟨14, (by decide : 14 < 19)⟩,
    hget ⟨15, (by decide : 15 < 19)⟩,
    hget ⟨16, (by decide : 16 < 19)⟩,
    hget ⟨17, (by decide : 17 < 19)⟩,
    hget ⟨18, (by decide : 18 < 19)⟩⟩

theorem stereo_mode_mask_no_edit (K : StereoConsts) (hK : K.WellFormed) (x : Int) :
    stereo_mode_mask K x (Int.land x K.PR_STEREO_MIRROR_RIGHT)
      (Int.land x K.PR_STEREO_FLIP_RIGHT) (Int.land x K.PR_STEREO_MIRROR_LEFT)
      (Int.land x K.PR_STEREO_FLIP_LEFT) (Int.land x K.PR_STEREO_SWAP)
      (Int.land x K.PR_STEREO_TEMP_DISABLE) = Int.land x K.recognized := by
  obtain ⟨idx, _, h0, h1, h2, h3, h4, h5, h6, h7, h8, h9, h10, h11, h12, h13, h14, h15,
    h16, h17, h18⟩ := wellFormed_indices K hK
  have hA := hK.2.2.1
  unfold stereo_mode_mask StereoConsts.recognized StereoConsts.bits
  rw [hA]
  unfold StereoConsts.anaglyph_bits
  simp only [List.foldl]
  rw [h0, h1, h2, h3, h4, h5, h6, h7, h8, h9, h10, h11, h12, h13, h14, h15, h16, h17, h18]
  simp only [flag_bit_land_two_pow]
  apply int_eq_of_testBit_eq
  intro i
  simp only [Int.testBit_lor, Int.testBit_land, int_testBit_zero, Bool.false_or]
  cases Int.testBit x i
  · simp
  · simp only [Bool.true_and]
    ac_rfl

theorem testBit_foldl_lor (l : List Int) (a : Int) (i : Nat) :
    Int.testBit (l.foldl Int.lor a) i = (Int.testBit a i || l.any (fun c => Int.testBit c i)) := by
  induction l generalizing a with
  | nil => simp
  | cons c l ih =>
    simp only [List.foldl, List.any_cons]
    rw [ih, Int.testBit_lor, Bool.or_assoc]

theorem testBit_recognized (K : StereoConsts) (i : Nat) :
    Int.testBit K.recognized i = K.bits.any (fun c => Int.testBit c i) := by
  unfold StereoConsts.recognized
  rw [testBit_foldl_lor, int_testBit_zero, Bool.false_or]

theorem exampleConsts_wellFormed : exampleConsts.WellFormed := by
  refine ⟨?_, by decide, by decide, rfl⟩
  intro c hc
  simp only [StereoConsts.bits, exampleConsts, List.mem_cons, List.mem_singleton,
    List.mem_nil_iff, or_false] at hc
  rcases hc with h | h | h | h | h | h | h | h | h | h | h | h | h | h | h | h | h | h | h <;>
    exact ⟨_, h⟩

/-! ## Stereo mode: properties -/

/-- C1: stereo no-edit round trip.  When the `PR_STEREO_*` constants are pairwise
distinct single bits, `PR_STEREO_ANAGLYPH` is the OR of the nine anaglyph bits and
`PR_STEREO_NONE` is 0, staging the live masks as `config_tab_stereo` does and then
running `config_window_apply`, with no edit in between, writes `stereo.mode` and
`stereo.fsmode` back as the live mask with every bit cleared except the nineteen
recognised ones (twelve projection bits, `PR_STEREO_HALF`, six modifier bits). -/
theorem stereo_no_edit_round_trip (K : StereoConsts) (hK : K.WellFormed)
    (live c0 : StereoOptions) :
    (config_window_apply K (config_tab_stereo K live c0) live).mode
      = Int.land live.mode K.recognized ∧
    (config_window_apply K (config_tab_stereo K live c0) live).fsmode
      = Int.land live.fsmode K.recognized ∧
    (∀ i : Nat,
      Int.testBit (config_window_apply K (config_tab_stereo K live c0) live).mode i
        = (Int.testBit live.mode i && K.bits.any (fun c => Int.testBit c i)) ∧
      Int.testBit (config_window_apply K (config_tab_stereo K live c0) live).fsmode i
        = (Int.testBit live.fsmode i && K.bits.any (fun c => Int.testBit c i))) := by
  have hm : (config_window_apply K (config_tab_stereo K live c0) live).mode
      = Int.land live.mode K.recognized := by
    simp only [config_window_apply, config_tab_stereo, add_stereo_mode_menu,
      pref_checkbox_new_int]
    exact stereo_mode_mask_no_edit K hK live.mode
  have hf : (config_window_apply K (config_tab_stereo K live c0) live).fsmode
      = Int.land live.fsmode K.recognized := by
    simp only [config_window_apply, config_tab_stereo, add_stereo_mode_menu,
      pref_checkbox_new_int]
    exact stereo_mode_mask_no_edit K hK live.fsmode
  refine ⟨hm, hf, fun i => ⟨?_, ?_⟩⟩
  · rw [hm, Int.testBit_land, testBit_recognized]
  · rw [hf, Int.testBit_land, testBit_recognized]

/-- Witness of C1 with bits 1-3 and 5-20 as the constants: the live windowed mask
2147483647 (bits 0 to 30 set) comes back as 2097134, the mask of the nineteen recognised bits,
and the live fullscreen mask 278577 (bits 0, 4, 5, 14, 18) comes back as 278560
(bits 5, 14, 18). -/
theorem stereo_no_edit_round_trip_witness :
    exampleConsts.WellFormed ∧
    (config_window_apply exampleConsts
      (config_tab_stereo exampleConsts ⟨2147483647, 278577, ⟨0, 0, 0, 0, 0, 0, 0, 0, 0, 0, 0, 0⟩⟩
        ⟨0, 0, ⟨0, 0, 0, 0, 0, 0, 0, 0, 0, 0, 0, 0⟩⟩)
      ⟨2147483647, 278577, ⟨0, 0, 0, 0, 0, 0, 0, 0, 0, 0, 0, 0⟩⟩).mode = 2097134 ∧
    (config_window_apply exampleConsts
      (config_tab_stereo exampleConsts ⟨2147483647, 278577, ⟨0, 0, 0, 0, 0, 0, 0, 0, 0, 0, 0, 0⟩⟩
        ⟨0, 0, ⟨0, 0, 0, 0, 0, 0, 0, 0, 0, 0, 0, 0⟩⟩)
      ⟨2147483647, 278577, ⟨0, 0, 0, 0, 0, 0, 0, 0, 0, 0, 0, 0⟩⟩).fsmode = 278560 :=
  ⟨exampleConsts_wellFormed,
   (stereo_no_edit_round_trip exampleConsts exampleConsts_wellFormed
      ⟨2147483647, 278577, ⟨0, 0, 0, 0, 0, 0, 0, 0, 0, 0, 0, 0⟩⟩
      ⟨0, 0, ⟨0, 0, 0, 0, 0, 0, 0, 0, 0, 0, 0, 0⟩⟩).1.trans (by decide),
   (stereo_no_edit_round_trip exampleConsts exampleConsts_wellFormed
      ⟨2147483647, 278577, ⟨0, 0, 0, 0, 0, 0, 0, 0, 0, 0, 0, 0⟩⟩
      ⟨0, 0, ⟨0, 0, 0, 0, 0, 0, 0, 0, 0, 0, 0, 0⟩⟩).2.1.trans (by decide)⟩

/-- C2: stereo decode undoes encode.  Under the assumption on the constants, for
every menu index `0 ≤ i ≤ 14` and every combination of the six staged modifier
flags, let `M` be the mask `config_window_apply` writes when the staged mode is the
value `stereo_mode_menu_cb` stores for index `i`.  Then `add_stereo_mode_menu` with
`option = M` and `add_fixed = TRUE` selects index `i` again, and for each modifier
`M & bit` is non-zero exactly when that flag was set. -/
theorem stereo_decode_encode (K : StereoConsts) (hK : K.WellFormed) (i : Int)
    (hi0 : 0 ≤ i) (hi : i ≤ 14) (mr fr ml fl sw td : Int) :
    (add_stereo_mode_menu K
      (stereo_mode_mask K (stereo_mode_menu_cb K i) mr fr ml fl sw td) true).current = i ∧
    (Int.land (stereo_mode_mask K (stereo_mode_menu_cb K i) mr fr ml fl sw td)
      K.PR_STEREO_MIRROR_RIGHT ≠ 0 ↔ mr ≠ 0) ∧
    (Int.land (stereo_mode_mask K (stereo_mode_menu_cb K i) mr fr ml fl sw td)
      K.PR_STEREO_FLIP_RIGHT ≠ 0 ↔ fr ≠ 0) ∧
    (Int.land (stereo_mode_mask K (stereo_mode_menu_cb K i) mr fr ml fl sw td)
      K.PR_STEREO_MIRROR_LEFT ≠ 0 ↔ ml ≠ 0) ∧
    (Int.land (stereo_mode_mask K (stereo_mode_menu_cb K i) mr fr ml fl sw td)
      K.PR_STEREO_FLIP_LEFT ≠ 0 ↔ fl ≠ 0) ∧
    (Int.land (stereo_mode_mask K (stereo_mode_menu_cb K i) mr fr ml fl sw td)
      K.PR_STEREO_SWAP ≠ 0 ↔ sw ≠ 0) ∧
    (Int.land (stereo_mode_mask K (stereo_mode_menu_cb K i) mr fr ml fl sw td)
      K.PR_STEREO_TEMP_DISABLE ≠ 0 ↔ td ≠ 0) := by
  obtain ⟨idx, hinj, h0, h1, h2, h3, h4, h5, h6, h7, h8, h9, h10, h11, h12, h13, h14, h15,
    h16, h17, h18⟩ := wellFormed_indices K hK
  have hA := hK.2.2.1
  have hN := hK.2.2.2
  unfold add_stereo_mode_menu stereo_mode_mask
  rw [hA]
  unfold StereoConsts.anaglyph_bits
  interval_cases i <;>
    simp only [stereo_mode_menu_cb, hN] <;>
    simp only [h0, h1, h2, h3, h4, h5, h6, h7, h8, h9, h10, h11, h12, h13, h14, h15,
      h16, h17, h18] <;>
    simp [land_two_pow_ne_zero_iff, Int.testBit_lor, Int.testBit_land, testBit_flag_bit,
      int_testBit_two_pow, int_testBit_zero, hinj.eq_iff]

/-- Witness of C2 with bits 1-3 and 5-20 as the constants: index 11 (Side by Side
Half size) with the flags mirror-right and swap set gives the mask 1376260 (bits 2,
16, 18, 20), from which index 11 is selected again. -/
theorem stereo_decode_encode_witness :
    exampleConsts.WellFormed ∧ ((0 : Int) ≤ 11 ∧ (11 : Int) ≤ 14) ∧
    stereo_mode_mask exampleConsts (stereo_mode_menu_cb exampleConsts 11) 1 0 0 0 1 0
      = 1376260 ∧
    (add_stereo_mode_menu exampleConsts
      (stereo_mode_mask exampleConsts (stereo_mode_menu_cb exampleConsts 11) 1 0 0 0 1 0)
      true).current = 11 :=
  ⟨exampleConsts_wellFormed, ⟨by decide, by decide⟩, by decide,
   (stereo_decode_encode exampleConsts exampleConsts_wellFormed 11 (by decide) (by decide)
      1 0 0 0 1 0).1⟩

/-- C12: decode defaults to None.  For every mask in which none of the twelve
projection bits is set, whatever its other bits, `add_stereo_mode_menu` selects
entry 0 (Single image), for `add_fixed` TRUE and FALSE. -/
theorem stereo_decode_default (K : StereoConsts) (option : Int)
    (h : ∀ c ∈ K.projection_bits, Int.land option c = 0) (add_fixed : Bool) :
    (add_stereo_mode_menu K option add_fixed).current = 0 := by
  have h1 := h K.PR_STEREO_ANAGLYPH_RC (by simp [StereoConsts.projection_bits])
  have h2 := h K.PR_STEREO_ANAGLYPH_GM (by simp [StereoConsts.projection_bits])
  have h3 := h K.PR_STEREO_ANAGLYPH_YB (by simp [StereoConsts.projection_bits])
  have h4 := h K.PR_STEREO_ANAGLYPH_GRAY_RC (by simp [StereoConsts.projection_bits])
  have h5 := h K.PR_STEREO_ANAGLYPH_GRAY_GM (by simp [StereoConsts.projection_bits])
  have h6 := h K.PR_STEREO_ANAGLYPH_GRAY_YB (by simp [StereoConsts.projection_bits])
  have h7 := h K.PR_STEREO_ANAGLYPH_DB_RC (by simp [StereoConsts.projection_bits])
  have h8 := h K.PR_STEREO_ANAGLYPH_DB_GM (by simp [StereoConsts.projection_bits])
  have h9 := h K.PR_STEREO_ANAGLYPH_DB_YB (by simp [StereoConsts.projection_bits])
  have h10 := h K.PR_STEREO_HORIZ (by simp [StereoConsts.projection_bits])
  have h12 := h K.PR_STEREO_VERT (by simp [StereoConsts.projection_bits])
  have h14 := h K.PR_STEREO_FIXED (by simp [StereoConsts.projection_bits])
  simp [add_stereo_mode_menu, h1, h2, h3, h4, h5, h6, h7, h8, h9, h10, h12, h14]

/-- Witness of C12 with bits 1-3 and 5-20 as the constants: the mask 1064977 (bits 0
and 4, mirror-left bit 14 and half-size bit 20) has no projection bit and selects
entry 0 in the fullscreen menu. -/
theorem stereo_decode_default_witness :
    (∀ c ∈ exampleConsts.projection_bits, Int.land 1064977 c = 0) ∧
    (add_stereo_mode_menu exampleConsts 1064977 true).current = 0 :=
  ⟨by decide, stereo_decode_default exampleConsts 1064977 (by decide) true⟩

/-- C11, as stated, fails: with bits 1-3 and 5-20 as the constants, for the mask 96
(`PR_STEREO_ANAGLYPH_RC | PR_STEREO_ANAGLYPH_GM`) `add_stereo_mode_menu` selects
entry 2 (Green-Magenta), while the first projection whose bit is set is Red-Cyan,
entry 1. -/
theorem stereo_decode_not_first_match :
    exampleConsts.WellFormed ∧
    Int.lor exampleConsts.PR_STEREO_ANAGLYPH_RC exampleConsts.PR_STEREO_ANAGLYPH_GM = 96 ∧
    (add_stereo_mode_menu exampleConsts 96 true).current = 2 ∧
    first_match_entry exampleConsts 96 = 1 ∧
    (add_stereo_mode_menu exampleConsts 96 true).current ≠ first_match_entry exampleConsts 96 :=
  ⟨exampleConsts_wellFormed, by decide, by decide, by decide, by decide⟩

/-- C11, amended: the last match wins.  For every mask, the entry
`add_stereo_mode_menu` selects (with `add_fixed = TRUE`) is the one of the last
projection, in the order ANAGLYPH_RC, ..., ANAGLYPH_DB_YB, HORIZ, VERT, FIXED, whose
bit is set in the mask (entry 0 when none is), including for masks in which two or
more projection bits are set: each later test overwrites the earlier result. -/
theorem stereo_decode_last_match (K : StereoConsts) (option : Int) :
    (add_stereo_mode_menu K option true).current = last_match_entry K option := by
  by_cases h14 : Int.land option K.PR_STEREO_FIXED = 0
  swap
  · simp [add_stereo_mode_menu, last_match_entry, entry_of_first_match, projection_entries,
      h14]
  by_cases h12 : Int.land option K.PR_STEREO_VERT = 0
  swap
  · simp [add_stereo_mode_menu, last_match_entry, entry_of_first_match, projection_entries,
      h14, h12]
  by_cases h10 : Int.land option K.PR_STEREO_HORIZ = 0
  swap
  · simp [add_stereo_mode_menu, last_match_entry, entry_of_first_match, projection_entries,
      h14, h12, h10]
  by_cases h9 : Int.land option K.PR_STEREO_ANAGLYPH_DB_YB = 0
  swap
  · simp [add_stereo_mode_menu, last_match_entry, entry_of_first_match, projection_entries,
      h14, h12, h10, h9]
  by_cases h8 : Int.land option K.PR_STEREO_ANAGLYPH_DB_GM = 0
  swap
  · simp [add_stereo_mode_menu, last_match_entry, entry_of_first_match, projection_entries,
      h14, h12, h10, h9, h8]
  by_cases h7 : Int.land option K.PR_STEREO_ANAGLYPH_DB_RC = 0
  swap
  · simp [add_stereo_mode_menu, last_match_entry, entry_of_first_match, projection_entries,
      h14, h12, h10, h9, h8, h7]
  by_cases h6 : Int.land option K.PR_STEREO_ANAGLYPH_GRAY_YB = 0
  swap
  · simp [add_stereo_mode_menu, last_match_entry, entry_of_first_match, projection_entries,
      h14, h12, h10, h9, h8, h7, h6]
  by_cases h5 : Int.land option K.PR_STEREO_ANAGLYPH_GRAY_GM = 0
  swap
  · simp [add_stereo_mode_menu, last_match_entry, entry_of_first_match, projection_entries,
      h14, h12, h10, h9, h8, h7, h6, h5]
  by_cases h4 : Int.land option K.PR_STEREO_ANAGLYPH_GRAY_RC = 0
  swap
  · simp [add_stereo_mode_menu, last_match_entry, entry_of_first_match, projection_entries,
      h14, h12, h10, h9, h8, h7, h6, h5, h4]
  by_cases h3 : Int.land option K.PR_STEREO_ANAGLYPH_YB = 0
  swap
  · simp [add_stereo_mode_menu, last_match_entry, entry_of_first_match, projection_entries,
      h14, h12, h10, h9, h8, h7, h6, h5, h4, h3]
  by_cases h2 : Int.land option K.PR_STEREO_ANAGLYPH_GM = 0
  swap
  · simp [add_stereo_mode_menu, last_match_entry, entry_of_first_match, projection_entries,
      h14, h12, h10, h9, h8, h7, h6, h5, h4, h3, h2]
  by_cases h1 : Int.land option K.PR_STEREO_ANAGLYPH_RC = 0
  swap
  · simp [add_stereo_mode_menu, last_match_entry, entry_of_first_match, projection_entries,
      h14, h12, h10, h9, h8, h7, h6, h5, h4, h3, h2, h1]
  simp [add_stereo_mode_menu, last_match_entry, entry_of_first_match, projection_entries,
    h14, h12, h10, h9, h8, h7, h6, h5, h4, h3, h2, h1]

/-- C17, as stated, fails for the windowed menu: with bits 1-3 and 5-20 as the
constants, the mask 2 has `PR_STEREO_FIXED` as its only projection bit, and
`add_stereo_mode_menu` with `add_fixed = FALSE` selects entry 0 (Single image). -/
theorem stereo_fixed_not_decoded_windowed :
    Int.land 2 exampleConsts.PR_STEREO_FIXED ≠ 0 ∧
    (∀ c ∈ exampleConsts.projection_bits.dropLast, Int.land 2 c = 0) ∧
    (add_stereo_mode_menu exampleConsts 2 false).current = 0 :=
  ⟨by decide, by decide, by decide⟩

/-- C17, amended: for every mask whose only projection bit is `PR_STEREO_FIXED` (the
eleven projection constants before it have no bit in the mask),
`add_stereo_mode_menu` selects the Fixed position entry (14) when `add_fixed` is TRUE
(fullscreen menu); when `add_fixed` is FALSE (windowed menu) the bit is not tested and
entry 0 (Single image) is selected. -/
theorem stereo_fixed_decoded_iff_add_fixed (K : StereoConsts) (option : Int)
    (hf : Int.land option K.PR_STEREO_FIXED ≠ 0)
    (h : ∀ c ∈ K.projection_bits.dropLast, Int.land option c = 0) :
    (add_stereo_mode_menu K option true).current = 14 ∧
    (add_stereo_mode_menu K option false).current = 0 := by
  have h1 := h K.PR_STEREO_ANAGLYPH_RC (by simp [StereoConsts.projection_bits])
  have h2 := h K.PR_STEREO_ANAGLYPH_GM (by simp [StereoConsts.projection_bits])
  have h3 := h K.PR_STEREO_ANAGLYPH_YB (by simp [StereoConsts.projection_bits])
  have h4 := h K.PR_STEREO_ANAGLYPH_GRAY_RC (by simp [StereoConsts.projection_bits])
  have h5 := h K.PR_STEREO_ANAGLYPH_GRAY_GM (by simp [StereoConsts.projection_bits])
  have h6 := h K.PR_STEREO_ANAGLYPH_GRAY_YB (by simp [StereoConsts.projection_bits])
  have h7 := h K.PR_STEREO_ANAGLYPH_DB_RC (by simp [StereoConsts.projection_bits])
  have h8 := h K.PR_STEREO_ANAGLYPH_DB_GM (by simp [StereoConsts.projection_bits])
  have h9 := h K.PR_STEREO_ANAGLYPH_DB_YB (by simp [StereoConsts.projection_bits])
  have h10 := h K.PR_STEREO_HORIZ (by simp [StereoConsts.projection_bits])
  have h12 := h K.PR_STEREO_VERT (by simp [StereoConsts.projection_bits])
  constructor
  · simp [add_stereo_mode_menu, h1, h2, h3, h4, h5, h6, h7, h8, h9, h10, h12, hf]
  · simp [add_stereo_mode_menu, h1, h2, h3, h4, h5, h6, h7, h8, h9, h10, h12]

/-- Witness of the amended C17 with bits 1-3 and 5-20 as the constants, at the mask
262146 (`PR_STEREO_FIXED | PR_STEREO_SWAP`): entry 14 in the fullscreen menu, entry 0
in the windowed one. -/
theorem stereo_fixed_decoded_iff_add_fixed_witness :
    (Int.land 262146 exampleConsts.PR_STEREO_FIXED ≠ 0 ∧
      ∀ c ∈ exampleConsts.projection_bits.dropLast, Int.land 262146 c = 0) ∧
    (add_stereo_mode_menu exampleConsts 262146 true).current = 14 ∧
    (add_stereo_mode_menu exampleConsts 262146 false).current = 0 :=
  ⟨⟨by decide, by decide⟩,
   stereo_fixed_decoded_iff_add_fixed exampleConsts 262146 (by decide) (by decide)⟩

/-- C18: windowed and fullscreen stereo modes are encoded independently.  The
`stereo.mode` that `config_window_apply` writes is the same for any two staged states
(and any two live states) that agree on `c_options->stereo.mode` and the six windowed
tmp flags, whatever the fullscreen inputs are; symmetrically `stereo.fsmode` depends
only on `c_options->stereo.fsmode` and the six `fs_` tmp flags. -/
theorem stereo_apply_independent (K : StereoConsts) (c1 c2 o1 o2 : StereoOptions) :
    (c1.mode = c2.mode → c1.tmp.mirror_right = c2.tmp.mirror_right →
      c1.tmp.flip_right = c2.tmp.flip_right → c1.tmp.mirror_left = c2.tmp.mirror_left →
      c1.tmp.flip_left = c2.tmp.flip_left → c1.tmp.swap = c2.tmp.swap →
      c1.tmp.temp_disable = c2.tmp.temp_disable →
      (config_window_apply K c1 o1).mode = (config_window_apply K c2 o2).mode) ∧
    (c1.fsmode = c2.fsmode → c1.tmp.fs_mirror_right = c2.tmp.fs_mirror_right →
      c1.tmp.fs_flip_right = c2.tmp.fs_flip_right →
      c1.tmp.fs_mirror_left = c2.tmp.fs_mirror_left →
      c1.tmp.fs_flip_left = c2.tmp.fs_flip_left → c1.tmp.fs_swap = c2.tmp.fs_swap →
      c1.tmp.fs_temp_disable = c2.tmp.fs_temp_disable →
      (config_window_apply K c1 o1).fsmode = (config_window_apply K c2 o2).fsmode) := by
  constructor
  · intro a b c d e f g
    simp only [config_window_apply, a, b, c, d, e, f, g]
  · intro a b c d e f g
    simp only [config_window_apply, a, b, c, d, e, f, g]

/-- Witness of C18 with bits 1-3 and 5-20 as the constants: two staged states with
the same windowed inputs (mode `PR_STEREO_HORIZ`, swap set) and different fullscreen
inputs write the same `stereo.mode`, 262148. -/
theorem stereo_apply_independent_witness :
    (config_window_apply exampleConsts ⟨4, 0, ⟨0, 0, 0, 0, 1, 0, 0, 0, 0, 0, 0, 0⟩⟩
        ⟨0, 0, ⟨0, 0, 0, 0, 0, 0, 0, 0, 0, 0, 0, 0⟩⟩).mode = 262148 ∧
    (config_window_apply exampleConsts ⟨4, 0, ⟨0, 0, 0, 0, 1, 0, 0, 0, 0, 0, 0, 0⟩⟩
        ⟨0, 0, ⟨0, 0, 0, 0, 0, 0, 0, 0, 0, 0, 0, 0⟩⟩).mode
      = (config_window_apply exampleConsts ⟨4, 32, ⟨0, 0, 0, 0, 1, 0, 1, 1, 1, 1, 1, 1⟩⟩
        ⟨7, 7, ⟨0, 0, 0, 0, 0, 0, 0, 0, 0, 0, 0, 0⟩⟩).mode :=
  ⟨by decide,
   (stereo_apply_independent exampleConsts ⟨4, 0, ⟨0, 0, 0, 0, 1, 0, 0, 0, 0, 0, 0, 0⟩⟩
      ⟨4, 32, ⟨0, 0, 0, 0, 1, 0, 1, 1, 1, 1, 1, 1⟩⟩
      ⟨0, 0, ⟨0, 0, 0, 0, 0, 0, 0, 0, 0, 0, 0, 0⟩⟩
      ⟨7, 7, ⟨0, 0, 0, 0, 0, 0, 0, 0, 0, 0, 0, 0⟩⟩).1 rfl rfl rfl rfl rfl rfl rfl⟩

theorem land_two_pow_eq_zero_iff (x : Int) (k : Nat) :
    Int.land x (2 ^ k) = 0 ↔ Int.testBit x k = false := by
  have h := land_two_pow_ne_zero_iff x k
  constructor
  · intro hz
    by_contra hb
    exact (h.2 (by simpa using hb)) hz
  · intro hb
    by_contra hz
    have := h.1 hz
    rw [hb] at this
    exact Bool.noConfusion this

/-- The possible outcomes of the tests of `add_stereo_mode_menu`. -/
theorem stereo_current_cases (K : StereoConsts) (option : Int) (add_fixed : Bool) :
    (add_stereo_mode_menu K option add_fixed).current = 14 ∨
    ((add_stereo_mode_menu K option add_fixed).current = 13 ∧
      Int.land option K.PR_STEREO_VERT ≠ 0 ∧ Int.land option K.PR_STEREO_HALF ≠ 0) ∨
    (add_stereo_mode_menu K option add_fixed).current = 12 ∨
    ((add_stereo_mode_menu K option add_fixed).current = 11 ∧
      Int.land option K.PR_STEREO_HORIZ ≠ 0 ∧ Int.land option K.PR_STEREO_HALF ≠ 0) ∨
    (0 ≤ (add_stereo_mode_menu K option add_fixed).current ∧
      (add_stereo_mode_menu K option add_fixed).current ≤ 10) := by
  cases add_fixed
  · by_cases hH : Int.land option K.PR_STEREO_HALF = 0
    · by_cases h12 : Int.land option K.PR_STEREO_VERT = 0
      swap
      · simp [add_stereo_mode_menu, hH, h12]
      by_cases h10 : Int.land option K.PR_STEREO_HORIZ = 0
      swap
      · simp [add_stereo_mode_menu, hH, h12, h10]
      by_cases h9 : Int.land option K.PR_STEREO_ANAGLYPH_DB_YB = 0
      swap
      · simp [add_stereo_mode_menu, hH, h12, h10, h9]
      by_cases h8 : Int.land option K.PR_STEREO_ANAGLYPH_DB_GM = 0
      swap
      · simp [add_stereo_mode_menu, hH, h12, h10, h9, h8]
      by_cases h7 : Int.land option K.PR_STEREO_ANAGLYPH_DB_RC = 0
      swap
      · simp [add_stereo_mode_menu, hH, h12, h10, h9, h8, h7]
      by_cases h6 : Int.land option K.PR_STEREO_ANAGLYPH_GRAY_YB = 0
      swap
      · simp [add_stereo_mode_menu, hH, h12, h10, h9, h8, h7, h6]
      by_cases h5 : Int.land option K.PR_STEREO_ANAGLYPH_GRAY_GM = 0
      swap
      · simp [add_stereo_mode_menu, hH, h12, h10, h9, h8, h7, h6, h5]
      by_cases h4 : Int.land option K.PR_STEREO_ANAGLYPH_GRAY_RC = 0
      swap
      · simp [add_stereo_mode_menu, hH, h12, h10, h9, h8, h7, h6, h5, h4]
      by_cases h3 : Int.land option K.PR_STEREO_ANAGLYPH_YB = 0
      swap
      · simp [add_stereo_mode_menu, hH, h12, h10, h9, h8, h7, h6, h5, h4, h3]
      by_cases h2 : Int.land option K.PR_STEREO_ANAGLYPH_GM = 0
      swap
      · simp [add_stereo_mode_menu, hH, h12, h10, h9, h8, h7, h6, h5, h4, h3, h2]
      by_cases h1 : Int.land option K.PR_STEREO_ANAGLYPH_RC = 0
      swap
      · simp [add_stereo_mode_menu, hH, h12, h10, h9, h8, h7, h6, h5, h4, h3, h2, h1]
      simp [add_stereo_mode_menu, hH, h12, h10, h9, h8, h7, h6, h5, h4, h3, h2, h1]
    · by_cases h12 : Int.land option K.PR_STEREO_VERT = 0
      swap
      · simp [add_stereo_mode_menu, hH, h12]
      by_cases h10 : Int.land option K.PR_STEREO_HORIZ = 0
      swap
      · simp [add_stereo_mode_menu, hH, h12, h10]
      by_cases h9 : Int.land option K.PR_STEREO_ANAGLYPH_DB_YB = 0
      swap
      · simp [add_stereo_mode_menu, hH, h12, h10, h9]
      by_cases h8 : Int.land option K.PR_STEREO_ANAGLYPH_DB_GM = 0
      swap
      · simp [add_stereo_mode_menu, hH, h12, h10, h9, h8]
      by_cases h7 : Int.land option K.PR_STEREO_ANAGLYPH_DB_RC = 0
      swap
      · simp [add_stereo_mode_menu, hH, h12, h10, h9, h8, h7]
      by_cases h6 : Int.land option K.PR_STEREO_ANAGLYPH_GRAY_YB = 0
      swap
      · simp [add_stereo_mode_menu, hH, h12, h10, h9, h8, h7, h6]
      by_cases h5 : Int.land option K.PR_STEREO_ANAGLYPH_GRAY_GM = 0
      swap
      · simp [add_stereo_mode_menu, hH, h12, h10, h9, h8, h7, h6, h5]
      by_cases h4 : Int.land option K.PR_STEREO_ANAGLYPH_GRAY_RC = 0
      swap
      · simp [add_stereo_mode_menu, hH, h12, h10, h9, h8, h7, h6, h5, h4]
      by_cases h3 : Int.land option K.PR_STEREO_ANAGLYPH_YB = 0
      swap
      · simp [add_stereo_mode_menu, hH, h12, h10, h9, h8, h7, h6, h5, h4, h3]
      by_cases h2 : Int.land option K.PR_STEREO_ANAGLYPH_GM = 0
      swap
      · simp [add_stereo_mode_menu, hH, h12, h10, h9, h8, h7, h6, h5, h4, h3, h2]
      by_cases h1 : Int.land option K.PR_STEREO_ANAGLYPH_RC = 0
      swap
      · simp [add_stereo_mode_menu, hH, h12, h10, h9, h8, h7, h6, h5, h4, h3, h2, h1]
      simp [add_stereo_mode_menu, hH, h12, h10, h9, h8, h7, h6, h5, h4, h3, h2, h1]
  · by_cases hH : Int.land option K.PR_STEREO_HALF = 0
    · by_cases h14 : Int.land option K.PR_STEREO_FIXED = 0
      swap
      · simp [add_stereo_mode_menu, hH, h14]
      by_cases h12 : Int.land option K.PR_STEREO_VERT = 0
      swap
      · simp [add_stereo_mode_menu, hH, h14, h12]
      by_cases h10 : Int.land option K.PR_STEREO_HORIZ = 0
      swap
      · simp [add_stereo_mode_menu, hH, h14, h12, h10]
      by_cases h9 : Int.land option K.PR_STEREO_ANAGLYPH_DB_YB = 0
      swap
      · simp [add_stereo_mode_menu, hH, h14, h12, h10, h9]
      by_cases h8 : Int.land option K.PR_STEREO_ANAGLYPH_DB_GM = 0
      swap
      · simp [add_stereo_mode_menu, hH, h14, h12, h10, h9, h8]
      by_cases h7 : Int.land option K.PR_STEREO_ANAGLYPH_DB_RC = 0
      swap
      · simp [add_stereo_mode_menu, hH, h14, h12, h10, h9, h8, h7]
      by_cases h6 : Int.land option K.PR_STEREO_ANAGLYPH_GRAY_YB = 0
      swap
      · simp [add_stereo_mode_menu, hH, h14, h12, h10, h9, h8, h7, h6]
      by_cases h5 : Int.land option K.PR_STEREO_ANAGLYPH_GRAY_GM = 0
      swap
      · simp [add_stereo_mode_menu, hH, h14, h12, h10, h9, h8, h7, h6, h5]
      by_cases h4 : Int.land option K.PR_STEREO_ANAGLYPH_GRAY_RC = 0
      swap
      · simp [add_stereo_mode_menu, hH, h14, h12, h10, h9, h8, h7, h6, h5, h4]
      by_cases h3 : Int.land option K.PR_STEREO_ANAGLYPH_YB = 0
      swap
      · simp [add_stereo_mode_menu, hH, h14, h12, h10, h9, h8, h7, h6, h5, h4, h3]
      by_cases h2 : Int.land option K.PR_STEREO_ANAGLYPH_GM = 0
      swap
      · simp [add_stereo_mode_menu, hH, h14, h12, h10, h9, h8, h7, h6, h5, h4, h3, h2]
      by_cases h1 : Int.land option K.PR_STEREO_ANAGLYPH_RC = 0
      swap
      · simp [add_stereo_mode_menu, hH, h14, h12, h10, h9, h8, h7, h6, h5, h4, h3, h2, h1]
      simp [add_stereo_mode_menu, hH, h14, h12, h10, h9, h8, h7, h6, h5, h4, h3, h2, h1]
    · by_cases h14 : Int.land option K.PR_STEREO_FIXED = 0
      swap
      · simp [add_stereo_mode_menu, hH, h14]
      by_cases h12 : Int.land option K.PR_STEREO_VERT = 0
      swap
      · simp [add_stereo_mode_menu, hH, h14, h12]
      by_cases h10 : Int.land option K.PR_STEREO_HORIZ = 0
      swap
      · simp [add_stereo_mode_menu, hH, h14, h12, h10]
      by_cases h9 : Int.land option K.PR_STEREO_ANAGLYPH_DB_YB = 0
      swap
      · simp [add_stereo_mode_menu, hH, h14, h12, h10, h9]
      by_cases h8 : Int.land option K.PR_STEREO_ANAGLYPH_DB_GM = 0
      swap
      · simp [add_stereo_mode_menu, hH, h14, h12, h10, h9, h8]
      by_cases h7 : Int.land option K.PR_STEREO_ANAGLYPH_DB_RC = 0
      swap
      · simp [add_stereo_mode_menu, hH, h14, h12, h10, h9, h8, h7]
      by_cases h6 : Int.land option K.PR_STEREO_ANAGLYPH_GRAY_YB = 0
      swap
      · simp [add_stereo_mode_menu, hH, h14, h12, h10, h9, h8, h7, h6]
      by_cases h5 : Int.land option K.PR_STEREO_ANAGLYPH_GRAY_GM = 0
      swap
      · simp [add_stereo_mode_menu, hH, h14, h12, h10, h9, h8, h7, h6, h5]
      by_cases h4 : Int.land option K.PR_STEREO_ANAGLYPH_GRAY_RC = 0
      swap
      · simp [add_stereo_mode_menu, hH, h14, h12, h10, h9, h8, h7, h6, h5, h4]
      by_cases h3 : Int.land option K.PR_STEREO_ANAGLYPH_YB = 0
      swap
      · simp [add_stereo_mode_menu, hH, h14, h12, h10, h9, h8, h7, h6, h5, h4, h3]
      by_cases h2 : Int.land option K.PR_STEREO_ANAGLYPH_GM = 0
      swap
      · simp [add_stereo_mode_menu, hH, h14, h12, h10, h9, h8, h7, h6, h5, h4, h3, h2]
      by_cases h1 : Int.land option K.PR_STEREO_ANAGLYPH_RC = 0
      swap
      · simp [add_stereo_mode_menu, hH, h14, h12, h10, h9, h8, h7, h6, h5, h4, h3, h2, h1]
      simp [add_stereo_mode_menu, hH, h14, h12, h10, h9, h8, h7, h6, h5, h4, h3, h2, h1]

/-- C13: decode of half-size.  For every mask, `add_stereo_mode_menu` selects entry 11
only if `PR_STEREO_HALF` and `PR_STEREO_HORIZ` are set, and entry 13 only if
`PR_STEREO_HALF` and `PR_STEREO_VERT` are set; and (the constants being distinct
single bits) for a mask in which neither `PR_STEREO_HORIZ` nor `PR_STEREO_VERT` is
set, as when its only projection bit is an anaglyph bit or `PR_STEREO_FIXED`, setting
or clearing `PR_STEREO_HALF` does not change the selected entry. -/
theorem stereo_decode_half (K : StereoConsts) (hK : K.WellFormed) (option : Int)
    (add_fixed : Bool) :
    ((add_stereo_mode_menu K option add_fixed).current = 11 →
      Int.land option K.PR_STEREO_HALF ≠ 0 ∧ Int.land option K.PR_STEREO_HORIZ ≠ 0) ∧
    ((add_stereo_mode_menu K option add_fixed).current = 13 →
      Int.land option K.PR_STEREO_HALF ≠ 0 ∧ Int.land option K.PR_STEREO_VERT ≠ 0) ∧
    (Int.land option K.PR_STEREO_HORIZ = 0 → Int.land option K.PR_STEREO_VERT = 0 →
      (add_stereo_mode_menu K (Int.lor option K.PR_STEREO_HALF) add_fixed).current
        = (add_stereo_mode_menu K option add_fixed).current ∧
      (add_stereo_mode_menu K (Int.ldiff option K.PR_STEREO_HALF) add_fixed).current
        = (add_stereo_mode_menu K option add_fixed).current) := by
  refine ⟨?_, ?_, ?_⟩
  · intro hc
    rcases stereo_current_cases K option add_fixed with h | h | h | h | h
    · omega
    · omega
    · omega
    · exact ⟨h.2.2, h.2.1⟩
    · omega
  · intro hc
    rcases stereo_current_cases K option add_fixed with h | h | h | h | h
    · omega
    · exact ⟨h.2.2, h.2.1⟩
    · omega
    · omega
    · omega
  · obtain ⟨idx, hinj, h0, h1, h2, h3, h4, h5, h6, h7, h8, h9, h10, h11, h12, h13, h14, h15,
      h16, h17, h18⟩ := wellFormed_indices K hK
    rw [h9, h10, land_two_pow_eq_zero_iff, land_two_pow_eq_zero_iff]
    intro hH hV
    unfold add_stereo_mode_menu
    simp only [h0, h1, h2, h3, h4, h5, h6, h7, h8, h9, h10, h11, h12]
    simp only [land_two_pow_ne_zero_iff, Int.testBit_lor, Int.testBit_ldiff,
      int_testBit_two_pow, hinj.eq_iff]
    simp [hH, hV]

/-- Witness of C13 with bits 1-3 and 5-20 as the constants, at the mask 32
(`PR_STEREO_ANAGLYPH_RC`): setting `PR_STEREO_HALF` (mask 1048608) leaves the selected
entry 1 unchanged. -/
theorem stereo_decode_half_witness :
    exampleConsts.WellFormed ∧
    (Int.land 32 exampleConsts.PR_STEREO_HORIZ = 0 ∧
      Int.land 32 exampleConsts.PR_STEREO_VERT = 0) ∧
    Int.lor 32 exampleConsts.PR_STEREO_HALF = 1048608 ∧
    (add_stereo_mode_menu exampleConsts 32 true).current = 1 ∧
    (add_stereo_mode_menu exampleConsts (Int.lor 32 exampleConsts.PR_STEREO_HALF) true).current
      = (add_stereo_mode_menu exampleConsts 32 true).current :=
  ⟨exampleConsts_wellFormed, ⟨by decide, by decide⟩, by decide, by decide,
   ((stereo_decode_half exampleConsts exampleConsts_wellFormed 32 true).2.2
      (by decide) (by decide)).1⟩

theorem stereo_mode_menu_cb_default (K : StereoConsts) (i : Int) (h : i < 1 ∨ 14 < i) :
    stereo_mode_menu_cb K i = K.PR_STEREO_NONE := by
  unfold stereo_mode_menu_cb
  repeat rw [if_neg (by omega)]

/-- C14, as stated, fails: with bits 1-3 and 5-20 as the constants, the persisted mask
1048608 (`PR_STEREO_ANAGLYPH_RC | PR_STEREO_HALF`) has neither `PR_STEREO_HORIZ` nor
`PR_STEREO_VERT`, and after opening the dialog `config_window_apply` writes 1048608
again, with `PR_STEREO_HALF` still set. -/
theorem stereo_apply_keeps_half :
    (Int.land 1048608 exampleConsts.PR_STEREO_HORIZ = 0 ∧
      Int.land 1048608 exampleConsts.PR_STEREO_VERT = 0) ∧
    (config_window_apply exampleConsts
      (config_tab_stereo exampleConsts ⟨1048608, 0, ⟨0, 0, 0, 0, 0, 0, 0, 0, 0, 0, 0, 0⟩⟩
        ⟨0, 0, ⟨0, 0, 0, 0, 0, 0, 0, 0, 0, 0, 0, 0⟩⟩)
      ⟨1048608, 0, ⟨0, 0, 0, 0, 0, 0, 0, 0, 0, 0, 0, 0⟩⟩).mode = 1048608 ∧
    Int.land (config_window_apply exampleConsts
      (config_tab_stereo exampleConsts ⟨1048608, 0, ⟨0, 0, 0, 0, 0, 0, 0, 0, 0, 0, 0, 0⟩⟩
        ⟨0, 0, ⟨0, 0, 0, 0, 0, 0, 0, 0, 0, 0, 0, 0⟩⟩)
      ⟨1048608, 0, ⟨0, 0, 0, 0, 0, 0, 0, 0, 0, 0, 0, 0⟩⟩).mode
      exampleConsts.PR_STEREO_HALF ≠ 0 :=
  ⟨⟨by decide, by decide⟩, by decide, by decide⟩

/-- C14, amended: under the assumption on the constants, `config_window_apply` keeps
the `PR_STEREO_HALF` bit of the staged mode whatever the projection, so after opening
the dialog on a persisted mask `x` the written `stereo.mode` has `PR_STEREO_HALF`
exactly when `x` has it; every value `stereo_mode_menu_cb` stores has
`PR_STEREO_HALF` set only together with `PR_STEREO_HORIZ` or `PR_STEREO_VERT`, and so
has the mask written after the menu callback has stored a value. -/
theorem stereo_half_encoding (K : StereoConsts) (hK : K.WellFormed) :
    (∀ live c0 : StereoOptions,
      Int.land (config_window_apply K (config_tab_stereo K live c0) live).mode
        K.PR_STEREO_HALF = Int.land live.mode K.PR_STEREO_HALF) ∧
    (∀ i : Int, Int.land (stereo_mode_menu_cb K i) K.PR_STEREO_HALF ≠ 0 →
      Int.land (stereo_mode_menu_cb K i) K.PR_STEREO_HORIZ ≠ 0 ∨
      Int.land (stereo_mode_menu_cb K i) K.PR_STEREO_VERT ≠ 0) ∧
    (∀ i mr fr ml fl sw td : Int,
      Int.land (stereo_mode_mask K (stereo_mode_menu_cb K i) mr fr ml fl sw td)
        K.PR_STEREO_HALF ≠ 0 →
      Int.land (stereo_mode_mask K (stereo_mode_menu_cb K i) mr fr ml fl sw td)
        K.PR_STEREO_HORIZ ≠ 0 ∨
      Int.land (stereo_mode_mask K (stereo_mode_menu_cb K i) mr fr ml fl sw td)
        K.PR_STEREO_VERT ≠ 0) := by
  obtain ⟨idx, hinj, h0, h1, h2, h3, h4, h5, h6, h7, h8, h9, h10, h11, h12, h13, h14, h15,
    h16, h17, h18⟩ := wellFormed_indices K hK
  have hA := hK.2.2.1
  have hN := hK.2.2.2
  refine ⟨?_, ?_, ?_⟩
  · intro live c0
    have hm : (config_window_apply K (config_tab_stereo K live c0) live).mode
        = Int.land live.mode K.recognized := by
      simp only [config_window_apply, config_tab_stereo, add_stereo_mode_menu,
        pref_checkbox_new_int]
      exact stereo_mode_mask_no_edit K hK live.mode
    rw [hm]
    apply int_eq_of_testBit_eq
    intro i
    rw [Int.testBit_land, Int.testBit_land, Int.testBit_land, testBit_recognized, h12,
      int_testBit_two_pow]
    by_cases hi : idx 12 = i
    · subst hi
      simp [StereoConsts.bits, h12, int_testBit_two_pow]
    · simp [hi]
  · intro i
    by_cases hd : i < 1 ∨ 14 < i
    · rw [stereo_mode_menu_cb_default K i hd, hN, h12, land_two_pow_ne_zero_iff,
        int_testBit_zero]
      intro h
      exact Bool.noConfusion h
    · have hi1 : 1 ≤ i := by omega
      have hi2 : i ≤ 14 := by omega
      interval_cases i <;>
        simp only [stereo_mode_menu_cb] <;>
        simp only [h0, h1, h2, h3, h4, h5, h6, h7, h8, h9, h10, h11, h12] <;>
        simp [land_two_pow_ne_zero_iff, Int.testBit_lor, int_testBit_two_pow, hinj.eq_iff]
  · intro i mr fr ml fl sw td
    unfold stereo_mode_mask
    rw [hA]
    unfold StereoConsts.anaglyph_bits
    by_cases hd : i < 1 ∨ 14 < i
    · rw [stereo_mode_menu_cb_default K i hd, hN]
      simp only [h0, h1, h2, h3, h4, h5, h6, h7, h8, h9, h10, h11, h12, h13, h14, h15,
        h16, h17, h18]
      simp [land_two_pow_ne_zero_iff, Int.testBit_lor, Int.testBit_land, testBit_flag_bit,
        int_testBit_two_pow, int_testBit_zero, hinj.eq_iff]
    · have hi1 : 1 ≤ i := by omega
      have hi2 : i ≤ 14 := by omega
      interval_cases i <;>
        simp only [stereo_mode_menu_cb] <;>
        simp only [h0, h1, h2, h3, h4, h5, h6, h7, h8, h9, h10, h11, h12, h13, h14, h15,
          h16, h17, h18] <;>
        simp [land_two_pow_ne_zero_iff, Int.testBit_lor, Int.testBit_land, testBit_flag_bit,
          int_testBit_two_pow, int_testBit_zero, hinj.eq_iff]

/-- Witness of the amended C14 with bits 1-3 and 5-20 as the constants: index 11 (Side
by Side Half size) stores 1048580, `PR_STEREO_HALF` together with `PR_STEREO_HORIZ`. -/
theorem stereo_half_encoding_witness :
    exampleConsts.WellFormed ∧
    stereo_mode_menu_cb exampleConsts 11 = 1048580 ∧
    Int.land (stereo_mode_menu_cb exampleConsts 11) exampleConsts.PR_STEREO_HALF ≠ 0 ∧
    (Int.land (stereo_mode_menu_cb exampleConsts 11) exampleConsts.PR_STEREO_HORIZ ≠ 0 ∨
      Int.land (stereo_mode_menu_cb exampleConsts 11) exampleConsts.PR_STEREO_VERT ≠ 0) :=
  ⟨exampleConsts_wellFormed, by decide, by decide,
   (stereo_half_encoding exampleConsts exampleConsts_wellFormed).2.1 11 (by decide)⟩

/-- A projection constant has a bit in the written mask exactly when it has one in
the staged mode: the modifier flags do not touch the projection bits. -/
theorem projection_test_mask (K : StereoConsts) (hK : K.WellFormed)
    (c mr fr ml fl sw td : Int) :
    ∀ b ∈ K.projection_bits,
      (Int.land (stereo_mode_mask K c mr fr ml fl sw td) b ≠ 0 ↔ Int.land c b ≠ 0) := by
  obtain ⟨idx, hinj, h0, h1, h2, h3, h4, h5, h6, h7, h8, h9, h10, h11, h12, h13, h14, h15,
    h16, h17, h18⟩ := wellFormed_indices K hK
  have hA := hK.2.2.1
  intro b hb
  unfold stereo_mode_mask
  rw [hA]
  unfold StereoConsts.anaglyph_bits
  simp only [StereoConsts.projection_bits, List.mem_cons, List.mem_singleton,
    List.mem_nil_iff, or_false] at hb
  simp only [h0, h1, h2, h3, h4, h5, h6, h7, h8, h9, h10, h11, h12, h13, h14, h15,
    h16, h17, h18] at hb ⊢
  rcases hb with hb | hb | hb | hb | hb | hb | hb | hb | hb | hb | hb | hb <;>
    rw [hb] <;>
    simp [land_two_pow_ne_zero_iff, Int.testBit_lor, Int.testBit_land, testBit_flag_bit,
      int_testBit_two_pow, hinj.eq_iff]

theorem projection_count_mask (K : StereoConsts) (hK : K.WellFormed)
    (c mr fr ml fl sw td : Int) :
    projection_count K (stereo_mode_mask K c mr fr ml fl sw td) = projection_count K c := by
  unfold projection_count
  apply List.countP_congr
  intro b hb
  have h := projection_test_mask K hK c mr fr ml fl sw td b hb
  simp only [decide_eq_true_eq]
  exact h

/-- C15: encoding yields at most one projection.  Under the assumption on the
constants, for every combo index (any integer) passed to `stereo_mode_menu_cb` and
every combination of the six modifier flags, the mask `config_window_apply` then
writes has at most one of the twelve projection bits set: exactly one for the indices
1..14 and none for every other index. -/
theorem stereo_encode_one_projection (K : StereoConsts) (hK : K.WellFormed)
    (i mr fr ml fl sw td : Int) :
    projection_count K (stereo_mode_mask K (stereo_mode_menu_cb K i) mr fr ml fl sw td) ≤ 1 ∧
    (1 ≤ i → i ≤ 14 →
      projection_count K (stereo_mode_mask K (stereo_mode_menu_cb K i) mr fr ml fl sw td)
        = 1) ∧
    (i < 1 ∨ 14 < i →
      projection_count K (stereo_mode_mask K (stereo_mode_menu_cb K i) mr fr ml fl sw td)
        = 0) := by
  obtain ⟨idx, hinj, h0, h1, h2, h3, h4, h5, h6, h7, h8, h9, h10, h11, h12, h13, h14, h15,
    h16, h17, h18⟩ := wellFormed_indices K hK
  have hN := hK.2.2.2
  by_cases hd : i < 1 ∨ 14 < i
  · have hc : projection_count K
        (stereo_mode_mask K (stereo_mode_menu_cb K i) mr fr ml fl sw td) = 0 := by
      rw [projection_count_mask K hK, stereo_mode_menu_cb_default K i hd, hN]
      unfold projection_count StereoConsts.projection_bits
      simp only [h0, h1, h2, h3, h4, h5, h6, h7, h8, h9, h10, h11]
      simp [land_two_pow_ne_zero_iff, int_testBit_zero]
    rw [hc]
    exact ⟨by omega, fun a b => by omega, fun _ => rfl⟩
  · have hi1 : 1 ≤ i := by omega
    have hi2 : i ≤ 14 := by omega
    have hc : projection_count K
        (stereo_mode_mask K (stereo_mode_menu_cb K i) mr fr ml fl sw td) = 1 := by
      rw [projection_count_mask K hK]
      unfold projection_count StereoConsts.projection_bits
      interval_cases i <;>
        simp only [stereo_mode_menu_cb] <;>
        simp only [h0, h1, h2, h3, h4, h5, h6, h7, h8, h9, h10, h11, h12] <;>
        simp [land_two_pow_ne_zero_iff, Int.testBit_lor, int_testBit_two_pow, hinj.eq_iff,
          List.countP_cons]
    rw [hc]
    exact ⟨le_refl 1, fun _ _ => rfl, fun h => absurd h hd⟩

/-- Witness of C15 with bits 1-3 and 5-20 as the constants: index 13 (Top - Bottom
Half size) with all six flags set gives the mask 2080776, in which exactly one
projection bit (`PR_STEREO_VERT`) is set; index -1 with all six flags set gives
1032192, in which none is. -/
theorem stereo_encode_one_projection_witness :
    exampleConsts.WellFormed ∧
    stereo_mode_mask exampleConsts (stereo_mode_menu_cb exampleConsts 13) 1 1 1 1 1 1
      = 2080776 ∧
    projection_count exampleConsts
      (stereo_mode_mask exampleConsts (stereo_mode_menu_cb exampleConsts 13) 1 1 1 1 1 1)
      = 1 ∧
    stereo_mode_mask exampleConsts (stereo_mode_menu_cb exampleConsts (-1)) 1 1 1 1 1 1
      = 1032192 ∧
    projection_count exampleConsts
      (stereo_mode_mask exampleConsts (stereo_mode_menu_cb exampleConsts (-1)) 1 1 1 1 1 1)
      = 0 :=
  ⟨exampleConsts_wellFormed, by decide,
   (stereo_encode_one_projection exampleConsts exampleConsts_wellFormed 13 1 1 1 1 1 1).2.1
     (by decide) (by decide),
   by decide,
   (stereo_encode_one_projection exampleConsts exampleConsts_wellFormed (-1) 1 1 1 1 1 1).2.2
     (Or.inl (by decide))⟩

theorem land_xor_two_pow (x : Int) (j k : Nat) (h : j ≠ k) :
    Int.land (Int.xor x (2 ^ j)) (2 ^ k) = Int.land x (2 ^ k) := by
  apply int_eq_of_testBit_eq
  intro i
  rw [Int.testBit_land, Int.testBit_land, Int.testBit_lxor, int_testBit_two_pow,
    int_testBit_two_pow]
  by_cases hk : k = i
  · subst hk
    simp [h]
  · simp [hk]

theorem independentBitTest_land (bit : Int) (k : Nat) (hb : bit = 2 ^ k) :
    IndependentBitTest bit (fun x => pref_checkbox_new_int (Int.land x bit)) := by
  refine ⟨k, hb, fun x => ⟨?_, ?_⟩⟩
  · simp only [pref_checkbox_new_int]
    rw [hb]
    exact land_two_pow_ne_zero_iff x k
  · intro j hj
    simp only [pref_checkbox_new_int]
    rw [hb]
    exact land_xor_two_pow x j k hj

/-- C16: modifier flags are independent bit tests.  Under the assumption on the
constants, for every mask and each of the six modifiers, the initial checkbox value
that `config_tab_stereo` derives (`mask & bit`, from `stereo.mode` for the windowed
flags and from `stereo.fsmode` for the `fs_` flags) is non-zero exactly when that bit
is set in the mask, and it does not change when any other bit of the mask is
flipped. -/
theorem stereo_modifier_flags_independent (K : StereoConsts) (hK : K.WellFormed)
    (mode fsmode : Int) (tmp : StereoTmp) (c0 : StereoOptions) :
    IndependentBitTest K.PR_STEREO_MIRROR_LEFT
      (fun x => (config_tab_stereo K ⟨x, fsmode, tmp⟩ c0).tmp.mirror_left) ∧
    IndependentBitTest K.PR_STEREO_FLIP_LEFT
      (fun x => (config_tab_stereo K ⟨x, fsmode, tmp⟩ c0).tmp.flip_left) ∧
    IndependentBitTest K.PR_STEREO_MIRROR_RIGHT
      (fun x => (config_tab_stereo K ⟨x, fsmode, tmp⟩ c0).tmp.mirror_right) ∧
    IndependentBitTest K.PR_STEREO_FLIP_RIGHT
      (fun x => (config_tab_stereo K ⟨x, fsmode, tmp⟩ c0).tmp.flip_right) ∧
    IndependentBitTest K.PR_STEREO_SWAP
      (fun x => (config_tab_stereo K ⟨x, fsmode, tmp⟩ c0).tmp.swap) ∧
    IndependentBitTest K.PR_STEREO_TEMP_DISABLE
      (fun x => (config_tab_stereo K ⟨x, fsmode, tmp⟩ c0).tmp.temp_disable) ∧
    IndependentBitTest K.PR_STEREO_MIRROR_LEFT
      (fun x => (config_tab_stereo K ⟨mode, x, tmp⟩ c0).tmp.fs_mirror_left) ∧
    IndependentBitTest K.PR_STEREO_FLIP_LEFT
      (fun x => (config_tab_stereo K ⟨mode, x, tmp⟩ c0).tmp.fs_flip_left) ∧
    IndependentBitTest K.PR_STEREO_MIRROR_RIGHT
      (fun x => (config_tab_stereo K ⟨mode, x, tmp⟩ c0).tmp.fs_mirror_right) ∧
    IndependentBitTest K.PR_STEREO_FLIP_RIGHT
      (fun x => (config_tab_stereo K ⟨mode, x, tmp⟩ c0).tmp.fs_flip_right) ∧
    IndependentBitTest K.PR_STEREO_SWAP
      (fun x => (config_tab_stereo K ⟨mode, x, tmp⟩ c0).tmp.fs_swap) ∧
    IndependentBitTest K.PR_STEREO_TEMP_DISABLE
      (fun x => (config_tab_stereo K ⟨mode, x, tmp⟩ c0).tmp.fs_temp_disable) := by
  obtain ⟨idx, _, _, _, _, _, _, _, _, _, _, _, _, _, _, h13, h14, h15, h16, h17, h18⟩ :=
    wellFormed_indices K hK
  exact ⟨independentBitTest_land _ _ h13,
    independentBitTest_land _ _ h14,
    independentBitTest_land _ _ h15,
    independentBitTest_land _ _ h16,
    independentBitTest_land _ _ h17,
    independentBitTest_land _ _ h18,
    independentBitTest_land _ _ h13,
    independentBitTest_land _ _ h14,
    independentBitTest_land _ _ h15,
    independentBitTest_land _ _ h16,
    independentBitTest_land _ _ h17,
    independentBitTest_land _ _ h18⟩

/-- Witness of C16 with bits 1-3 and 5-20 as the constants: the mirror-left checkbox is
a test of one bit of `stereo.mode`, and for the mask 16416 (bits 5 and 14) the derived
value is 16384, non-zero. -/
theorem stereo_modifier_flags_independent_witness :
    exampleConsts.WellFormed ∧
    IndependentBitTest exampleConsts.PR_STEREO_MIRROR_LEFT
      (fun x => (config_tab_stereo exampleConsts
        ⟨x, 0, ⟨0, 0, 0, 0, 0, 0, 0, 0, 0, 0, 0, 0⟩⟩
        ⟨0, 0, ⟨0, 0, 0, 0, 0, 0, 0, 0, 0, 0, 0, 0⟩⟩).tmp.mirror_left) ∧
    (config_tab_stereo exampleConsts ⟨16416, 0, ⟨0, 0, 0, 0, 0, 0, 0, 0, 0, 0, 0, 0⟩⟩
      ⟨0, 0, ⟨0, 0, 0, 0, 0, 0, 0, 0, 0, 0, 0, 0⟩⟩).tmp.mirror_left = 16384 :=
  ⟨exampleConsts_wellFormed,
   (stereo_modifier_flags_independent exampleConsts exampleConsts_wellFormed 0 0
      ⟨0, 0, 0, 0, 0, 0, 0, 0, 0, 0, 0, 0⟩ ⟨0, 0, ⟨0, 0, 0, 0, 0, 0, 0, 0, 0, 0, 0, 0⟩⟩).1,
   by decide⟩

/-- C19: the example mask of the spec.  Under the assumption on the constants, for
`x = PR_STEREO_ANAGLYPH_RC | PR_STEREO_MIRROR_LEFT | PR_STEREO_SWAP`:
`add_stereo_mode_menu` selects entry 1 (Anaglyph Red-Cyan); the flags derived by
`config_tab_stereo` are true for mirror_left and swap and false for flip_left,
mirror_right, flip_right and temp_disable; and `config_window_apply` on that staged
state writes exactly `x`. -/
theorem stereo_spec_example (K : StereoConsts) (hK : K.WellFormed) (fsmode : Int)
    (tmp : StereoTmp) (c0 : StereoOptions) :
    (∀ add_fixed : Bool,
      (add_stereo_mode_menu K (spec_example_mask K) add_fixed).current = 1) ∧
    ((config_tab_stereo K ⟨spec_example_mask K, fsmode, tmp⟩ c0).tmp.mirror_left ≠ 0 ∧
      (config_tab_stereo K ⟨spec_example_mask K, fsmode, tmp⟩ c0).tmp.swap ≠ 0 ∧
      (config_tab_stereo K ⟨spec_example_mask K, fsmode, tmp⟩ c0).tmp.flip_left = 0 ∧
      (config_tab_stereo K ⟨spec_example_mask K, fsmode, tmp⟩ c0).tmp.mirror_right = 0 ∧
      (config_tab_stereo K ⟨spec_example_mask K, fsmode, tmp⟩ c0).tmp.flip_right = 0 ∧
      (config_tab_stereo K ⟨spec_example_mask K, fsmode, tmp⟩ c0).tmp.temp_disable = 0) ∧
    (config_window_apply K (config_tab_stereo K ⟨spec_example_mask K, fsmode, tmp⟩ c0)
      ⟨spec_example_mask K, fsmode, tmp⟩).mode = spec_example_mask K := by
  obtain ⟨idx, hinj, h0, h1, h2, h3, h4, h5, h6, h7, h8, h9, h10, h11, h12, h13, h14, h15,
    h16, h17, h18⟩ := wellFormed_indices K hK
  refine ⟨?_, ?_, ?_⟩
  · intro add_fixed
    unfold add_stereo_mode_menu spec_example_mask
    simp only [h0, h1, h2, h3, h4, h5, h6, h7, h8, h9, h10, h11, h12, h13, h17]
    cases add_fixed <;>
      simp [land_two_pow_ne_zero_iff, Int.testBit_lor, int_testBit_two_pow, hinj.eq_iff]
  · simp only [config_tab_stereo, pref_checkbox_new_int, spec_example_mask]
    simp only [h0, h13, h14, h15, h16, h17, h18]
    simp [land_two_pow_ne_zero_iff, land_two_pow_eq_zero_iff, Int.testBit_lor,
      int_testBit_two_pow, hinj.eq_iff]
  · have hm : (config_window_apply K
        (config_tab_stereo K ⟨spec_example_mask K, fsmode, tmp⟩ c0)
        ⟨spec_example_mask K, fsmode, tmp⟩).mode
        = Int.land (spec_example_mask K) K.recognized := by
      simp only [config_window_apply, config_tab_stereo, add_stereo_mode_menu,
        pref_checkbox_new_int]
      exact stereo_mode_mask_no_edit K hK (spec_example_mask K)
    rw [hm]
    apply int_eq_of_testBit_eq
    intro i
    rw [Int.testBit_land, testBit_recognized]
    unfold spec_example_mask StereoConsts.bits
    simp only [h0, h1, h2, h3, h4, h5, h6, h7, h8, h9, h10, h11, h12, h13, h14, h15,
      h16, h17, h18]
    simp only [Int.testBit_lor, int_testBit_two_pow, List.any_cons, List.any_nil,
      Bool.or_false]
    by_cases a : idx 0 = i
    · simp [a]
    · by_cases b : idx 13 = i
      · simp [b]
      · by_cases c : idx 17 = i
        · simp [c]
        · simp [a, b, c]

/-- Witness of C19 with bits 1-3 and 5-20 as the constants: the example mask is 278560
(bits 5, 14 and 18), it selects entry 1 and is written back unchanged. -/
theorem stereo_spec_example_witness :
    exampleConsts.WellFormed ∧
    spec_example_mask exampleConsts = 278560 ∧
    (add_stereo_mode_menu exampleConsts (spec_example_mask exampleConsts) false).current
      = 1 ∧
    (config_window_apply exampleConsts
      (config_tab_stereo exampleConsts
        ⟨spec_example_mask exampleConsts, 0, ⟨0, 0, 0, 0, 0, 0, 0, 0, 0, 0, 0, 0⟩⟩
        ⟨0, 0, ⟨0, 0, 0, 0, 0, 0, 0, 0, 0, 0, 0, 0⟩⟩)
      ⟨spec_example_mask exampleConsts, 0, ⟨0, 0, 0, 0, 0, 0, 0, 0, 0, 0, 0, 0⟩⟩).mode
      = spec_example_mask exampleConsts :=
  ⟨exampleConsts_wellFormed, by decide,
   (stereo_spec_example exampleConsts exampleConsts_wellFormed 0
      ⟨0, 0, 0, 0, 0, 0, 0, 0, 0, 0, 0, 0⟩
      ⟨0, 0, ⟨0, 0, 0, 0, 0, 0, 0, 0, 0, 0, 0, 0⟩⟩).1 false,
   (stereo_spec_example exampleConsts exampleConsts_wellFormed 0
      ⟨0, 0, 0, 0, 0, 0, 0, 0, 0, 0, 0, 0⟩
      ⟨0, 0, ⟨0, 0, 0, 0, 0, 0, 0, 0, 0, 0, 0, 0⟩⟩).2.2⟩

/-- C20, as stated, fails: for the persisted delay 864000 (24 hours)
`config_tab_general` computes hours = 24, above the range 0..23 of the hours spin
button; and for the persisted delay 595 it computes seconds = 59.5, above the upper
bound 59 of the seconds spin button. -/
theorem delay_fields_out_of_spin_range :
    ((0 : Int) ≤ 864000 ∧ (config_tab_general_delay 864000).hours = 24 ∧
      ¬ (config_tab_general_delay 864000).hours ≤ 23) ∧
    ((0 : Int) ≤ 595 ∧ (config_tab_general_delay 595).seconds = 119 / 2 ∧
      ¬ (config_tab_general_delay 595).seconds ≤ 59) := by
  rw [config_tab_general_delay_of_nonneg 864000 (by norm_num),
    config_tab_general_delay_of_nonneg 595 (by norm_num)]
  norm_num

/-- C20, amended: for every persisted delay `total ≥ 0` the decomposition of
`config_tab_general` gives hours ≥ 0, minutes in 0..59 and seconds in 0.0..59.9 (a
number of tenths in 0..599); hours is within 0..23 exactly when `total < 864000`
(24 hours), and seconds is at most 59 exactly when `total % 600 ≤ 590`. -/
theorem delay_fields_ranges (total : Int) (h0 : 0 ≤ total) :
    0 ≤ (config_tab_general_delay total).hours ∧
    ((config_tab_general_delay total).hours ≤ 23 ↔ total < 864000) ∧
    (0 ≤ (config_tab_general_delay total).minutes ∧
      (config_tab_general_delay total).minutes ≤ 59) ∧
    (0 ≤ (config_tab_general_delay total).seconds ∧
      (config_tab_general_delay total).seconds ≤ 599 / 10) ∧
    (∃ k : Int, 0 ≤ k ∧ k ≤ 599 ∧ (config_tab_general_delay total).seconds = (k : ℚ) / 10) ∧
    ((config_tab_general_delay total).seconds ≤ 59 ↔ total % 600 ≤ 590) := by
  rw [config_tab_general_delay_of_nonneg total h0]
  simp only []
  have hk0 : 0 ≤ total % 36000 % 600 := by omega
  have hk1 : total % 36000 % 600 ≤ 599 := by omega
  have hq0 : (0 : ℚ) ≤ ((total % 36000 % 600 : Int) : ℚ) := by exact_mod_cast hk0
  have hq1 : ((total % 36000 % 600 : Int) : ℚ) ≤ 599 := by exact_mod_cast hk1
  refine ⟨by omega, by omega, ⟨by omega, by omega⟩, ⟨by positivity, by linarith⟩,
    ⟨total % 36000 % 600, hk0, hk1, rfl⟩, ?_⟩
  have e : total % 36000 % 600 = total % 600 := by omega
  rw [e]
  constructor
  · intro h
    have h2 : ((total % 600 : Int) : ℚ) ≤ 590 := by linarith
    exact_mod_cast h2
  · intro h
    have h2 : ((total % 600 : Int) : ℚ) ≤ 590 := by exact_mod_cast h
    linarith

/-- Witness of the amended C20 at `total = 37253`: hours 1, minutes 2, seconds 5.3. -/
theorem delay_fields_ranges_witness :
    (0 : Int) ≤ 37253 ∧
    0 ≤ (config_tab_general_delay 37253).hours ∧
    ((config_tab_general_delay 37253).hours ≤ 23 ↔ (37253 : Int) < 864000) ∧
    (0 ≤ (config_tab_general_delay 37253).minutes ∧
      (config_tab_general_delay 37253).minutes ≤ 59) :=
  ⟨by norm_num,
   (delay_fields_ranges 37253 (by norm_num)).1,
   (delay_fields_ranges 37253 (by norm_num)).2.1,
   (delay_fields_ranges 37253 (by norm_num)).2.2.1⟩


/-! ## The dialog state: properties -/

theorem thumb_size_menu_cb_cases (s : PrefState) (n : Int) :
    (n < 0 ∧ s.thumb_size_menu_cb n = some s) ∨
    (0 ≤ n ∧ n < 14 ∧ ∃ w h : Int, thumb_size_list.get? n.toNat = some (w, h) ∧
      s.thumb_size_menu_cb n = some { s with c_options := { s.c_options with thumbnails :=
        { s.c_options.thumbnails with max_width := w, max_height := h } } }) ∨
    (14 ≤ n ∧ s.thumb_size_menu_cb n = some { s with c_options := { s.c_options with
      thumbnails := { s.c_options.thumbnails with
        max_width := s.options.thumbnails.max_width
        max_height := s.options.thumbnails.max_height } } }) := by
  have hlen : thumb_size_list.length = 14 := rfl
  unfold PrefState.thumb_size_menu_cb
  by_cases hn : n < 0
  · left
    exact ⟨hn, by rw [if_pos hn]⟩
  · rw [if_neg hn]
    by_cases h14 : n.toNat < thumb_size_list.length
    · right
      left
      rw [if_pos h14]
      refine ⟨by omega, by omega, ?_⟩
      rcases hg : thumb_size_list.get? n.toNat with _ | ⟨w, h⟩
      · rw [List.get?_eq_none] at hg
        omega
      · exact ⟨w, h, rfl, rfl⟩
    · right
      right
      rw [if_neg h14]
      exact ⟨by omega, rfl⟩

/-- C21: edits go to the staging copy only.  Each of `slideshow_delay_hours_cb`,
`slideshow_delay_minutes_cb`, `slideshow_delay_seconds_cb`, `zoom_increment_cb`,
`thumb_size_menu_cb`, and `stereo_mode_menu_cb` / `quality_menu_cb` invoked with a
pointer the dialog registers, leaves the live options (and the other globals)
unchanged and changes in `c_options` only the field it edits: putting the old value
of that field back gives the old `c_options`. -/
theorem edits_only_staged (s : PrefState) (K : StereoConsts) (G : GdkInterp) (minS spin : ℚ)
    (n active : Int) (p : OptionPtr) :
    (OnlyStaged s (s.slideshow_delay_hours_cb minS spin) ∧
      { (s.slideshow_delay_hours_cb minS spin).c_options with slideshow :=
        { (s.slideshow_delay_hours_cb minS spin).c_options.slideshow with
          delay := s.c_options.slideshow.delay } } = s.c_options) ∧
    (OnlyStaged s (s.slideshow_delay_minutes_cb minS spin) ∧
      { (s.slideshow_delay_minutes_cb minS spin).c_options with slideshow :=
        { (s.slideshow_delay_minutes_cb minS spin).c_options.slideshow with
          delay := s.c_options.slideshow.delay } } = s.c_options) ∧
    (OnlyStaged s (s.slideshow_delay_seconds_cb minS spin) ∧
      { (s.slideshow_delay_seconds_cb minS spin).c_options with slideshow :=
        { (s.slideshow_delay_seconds_cb minS spin).c_options.slideshow with
          delay := s.c_options.slideshow.delay } } = s.c_options) ∧
    (OnlyStaged s (s.zoom_increment_cb spin) ∧
      { (s.zoom_increment_cb spin).c_options with image :=
        { (s.zoom_increment_cb spin).c_options.image with
          zoom_increment := s.c_options.image.zoom_increment } } = s.c_options) ∧
    (∃ t : PrefState, s.thumb_size_menu_cb n = some t ∧ OnlyStaged s t ∧
      { t.c_options with thumbnails := { t.c_options.thumbnails with
          max_width := s.c_options.thumbnails.max_width
          max_height := s.c_options.thumbnails.max_height } } = s.c_options) ∧
    (OnlyStaged s (s.stereo_mode_menu_cb K p active) ∧
      p.store (p.load s.c_options) (s.stereo_mode_menu_cb K p active).c_options
        = s.c_options) ∧
    (OnlyStaged s (s.quality_menu_cb G p active) ∧
      p.store (p.load s.c_options) (s.quality_menu_cb G p active).c_options
        = s.c_options) := by
  refine ⟨⟨⟨rfl, rfl, rfl, rfl⟩, rfl⟩, ⟨⟨rfl, rfl, rfl, rfl⟩, rfl⟩, ⟨⟨rfl, rfl, rfl, rfl⟩, rfl⟩,
    ⟨⟨rfl, rfl, rfl, rfl⟩, rfl⟩, ?_, ⟨⟨rfl, rfl, rfl, rfl⟩, ?_⟩, ⟨⟨rfl, rfl, rfl, rfl⟩, ?_⟩⟩
  · rcases thumb_size_menu_cb_cases s n with h | h | h
    · exact ⟨s, h.2, ⟨rfl, rfl, rfl, rfl⟩, rfl⟩
    · obtain ⟨_, _, w, h', _, he⟩ := h
      exact ⟨_, he, ⟨rfl, rfl, rfl, rfl⟩, rfl⟩
    · exact ⟨_, h.2, ⟨rfl, rfl, rfl, rfl⟩, rfl⟩
  · cases p <;> rfl
  · cases p <;> rfl


theorem apply_thumbnails (s : PrefState) (K : StereoConsts) :
    (s.config_window_apply K).options.thumbnails = s.c_options.thumbnails := by
  simp only [PrefState.config_window_apply]
  by_cases hw : s.options.thumbnails.max_width = s.c_options.thumbnails.max_width
  · by_cases hh : s.options.thumbnails.max_height = s.c_options.thumbnails.max_height
    · by_cases hq : s.options.thumbnails.quality = s.c_options.thumbnails.quality
      · have e : s.options.thumbnails = s.c_options.thumbnails := by
          cases ho : s.options.thumbnails
          cases hc : s.c_options.thumbnails
          rw [ho, hc] at hw hh hq
          simp only at hw hh hq
          rw [hw, hh, hq]
        simp [hw, hh, hq, e]
      · simp [hw, hh, hq]
    · simp [hw, hh]
  · simp [hw]

theorem apply_refresh_requests (s : PrefState) (K : StereoConsts) :
    (s.config_window_apply K).refresh_requests
      = if s.refresh_needed then s.refresh_requests + 1 else s.refresh_requests := by
  unfold PrefState.refresh_needed PrefState.thumbnails_differ
  simp only [PrefState.config_window_apply]
  by_cases h : s.options.thumbnails.max_width ≠ s.c_options.thumbnails.max_width
      ∨ s.options.thumbnails.max_height ≠ s.c_options.thumbnails.max_height
      ∨ s.options.thumbnails.quality ≠ s.c_options.thumbnails.quality
  · simp [h]
  · by_cases h1 : s.options.file_filter.disable = s.c_options.file_filter.disable
    swap
    · simp [h, h1]
    by_cases h2 : s.options.file_filter.disable_file_extension_checks
        = s.c_options.file_filter.disable_file_extension_checks
    swap
    · simp [h, h1, h2]
    by_cases h3 : s.options.file_sort.natural = s.c_options.file_sort.natural
    swap
    · simp [h, h1, h2, h3]
    by_cases h4 : s.options.file_sort.case_sensitive = s.c_options.file_sort.case_sensitive
    swap
    · simp [h, h1, h2, h3, h4]
    by_cases h5 : s.options.file_filter.show_dot_directory
        = s.c_options.file_filter.show_dot_directory
    swap
    · simp [h, h1, h2, h3, h4, h5]
    by_cases h6 : s.options.file_filter.show_parent_directory
        = s.c_options.file_filter.show_parent_directory
    swap
    · simp [h, h1, h2, h3, h4, h5, h6]
    by_cases h7 : s.options.file_filter.show_hidden_files
        = s.c_options.file_filter.show_hidden_files
    swap
    · simp [h, h1, h2, h3, h4, h5, h6, h7]
    simp [h, h1, h2, h3, h4, h5, h6, h7]

theorem apply_thumb_format_changed (s : PrefState) (K : StereoConsts) :
    (s.config_window_apply K).thumb_format_changed
      = if s.thumbnails_differ then true else s.thumb_format_changed := by
  unfold PrefState.thumbnails_differ
  simp only [PrefState.config_window_apply]
  by_cases h : s.options.thumbnails.max_width ≠ s.c_options.thumbnails.max_width
      ∨ s.options.thumbnails.max_height ≠ s.c_options.thumbnails.max_height
      ∨ s.options.thumbnails.quality ≠ s.c_options.thumbnails.quality
  · simp [h]
  · simp [h]

theorem apply_not_refresh_needed (s : PrefState) (K : StereoConsts) :
    ¬ (s.config_window_apply K).refresh_needed := by
  have ht := apply_thumbnails s K
  unfold PrefState.refresh_needed PrefState.thumbnails_differ
  rw [ht]
  simp [PrefState.config_window_apply]


theorem apply_options_of_guard (s : PrefState) (K : StereoConsts) :
    (s.config_window_apply K).options =
      { slideshow :=
          { random := s.c_options.slideshow.random, repeat_ := s.c_options.slideshow.repeat_,
            delay := s.c_options.slideshow.delay }
        image :=
          { zoom_quality := s.c_options.image.zoom_quality
            zoom_increment := s.c_options.image.zoom_increment }
        thumbnails := s.c_options.thumbnails
        file_filter :=
          { show_hidden_files := s.c_options.file_filter.show_hidden_files
            show_parent_directory := s.c_options.file_filter.show_parent_directory
            show_dot_directory := s.c_options.file_filter.show_dot_directory
            disable_file_extension_checks :=
              s.c_options.file_filter.disable_file_extension_checks
            disable := s.c_options.file_filter.disable }
        file_sort :=
          { case_sensitive := s.c_options.file_sort.case_sensitive
            natural := s.c_options.file_sort.natural }
        stereo := Geeqie.config_window_apply K s.c_options.stereo s.options.stereo
        stereo_fixed := s.c_options.stereo_fixed } := by
  have ht := apply_thumbnails s K
  have e : (s.config_window_apply K).options
      = { (s.config_window_apply K).options with
          thumbnails := (s.config_window_apply K).options.thumbnails } := rfl
  rw [e, ht]
  simp only [PrefState.config_window_apply]
  split <;> rfl

theorem apply_idempotent (s : PrefState) (K : StereoConsts) :
    (s.config_window_apply K).config_window_apply K = s.config_window_apply K := by
  have h1 := apply_options_of_guard (s.config_window_apply K) K
  have h2 := apply_options_of_guard s K
  have hc : (s.config_window_apply K).c_options = s.c_options := rfl
  have ho : ((s.config_window_apply K).config_window_apply K).options
      = (s.config_window_apply K).options := by
    rw [h1, hc, h2]
    rfl
  have hr := apply_refresh_requests (s.config_window_apply K) K
  rw [if_neg (apply_not_refresh_needed s K)] at hr
  have hnt : ¬ (s.config_window_apply K).thumbnails_differ := by
    intro h
    exact apply_not_refresh_needed s K
      (Or.inr (Or.inr (Or.inr (Or.inr (Or.inr (Or.inr (Or.inr h)))))))
  have hf := apply_thumb_format_changed (s.config_window_apply K) K
  rw [if_neg hnt] at hf
  have hcc : ((s.config_window_apply K).config_window_apply K).c_options
      = (s.config_window_apply K).c_options := rfl
  have hw : ((s.config_window_apply K).config_window_apply K).configwindow
      = (s.config_window_apply K).configwindow := rfl
  cases hA : (s.config_window_apply K).config_window_apply K
  cases hB : s.config_window_apply K
  rw [hA, hB] at ho hr hf hcc hw
  simp only at ho hr hf hcc hw
  rw [ho, hr, hf, hcc, hw]

/-- C25: refresh and thumbnail-format change are requested exactly when needed.  For
every pre-state, `config_window_apply` requests `filter_rebuild` and `layout_refresh`
(once) if and only if, before the copy, live and staged values differ in at least one
of the five file filter fields, the two file sort fields and the three thumbnail
fields; it sets `thumb_format_changed` to TRUE when one of the three thumbnail fields
differs and leaves it as it is otherwise; and a second `config_window_apply` with no
edit in between finds no difference, requests no refresh and changes nothing. -/
theorem apply_refresh_exactly_when_needed (s : PrefState) (K : StereoConsts) :
    ((s.config_window_apply K).refresh_requests = s.refresh_requests + 1 ↔ s.refresh_needed) ∧
    ((s.config_window_apply K).refresh_requests = s.refresh_requests ↔ ¬ s.refresh_needed) ∧
    (s.thumbnails_differ → (s.config_window_apply K).thumb_format_changed = true) ∧
    (¬ s.thumbnails_differ →
      (s.config_window_apply K).thumb_format_changed = s.thumb_format_changed) ∧
    ¬ (s.config_window_apply K).refresh_needed ∧
    (s.config_window_apply K).config_window_apply K = s.config_window_apply K := by
  have hr := apply_refresh_requests s K
  have hf := apply_thumb_format_changed s K
  refine ⟨?_, ?_, ?_, ?_, apply_not_refresh_needed s K, apply_idempotent s K⟩
  · rw [hr]
    by_cases h : s.refresh_needed
    · simp [h]
    · simp [h]
  · rw [hr]
    by_cases h : s.refresh_needed
    · simp [h]
    · simp [h]
  · intro h
    rw [hf, if_pos h]
  · intro h
    rw [hf, if_neg h]


theorem thumb_size_scan_found (ow oh : Int) (i : Nat) (hi : i < 14)
    (hg : thumb_size_list.get? i = some (ow, oh)) :
    thumb_size_scan ow oh thumb_size_list 0 (-1) = (14, (i : Int)) := by
  interval_cases i <;>
    simp only [thumb_size_list, List.get?, Option.some.injEq, Prod.mk.injEq] at hg <;>
    obtain ⟨hw, hh⟩ := hg <;>
    subst hw <;> subst hh <;>
    decide

theorem thumb_size_scan_not_found (ow oh : Int) (h : (ow, oh) ∉ thumb_size_list) :
    thumb_size_scan ow oh thumb_size_list 0 (-1) = (14, -1) := by
  simp only [thumb_size_list, List.mem_cons, Prod.mk.injEq, List.mem_singleton,
    List.mem_nil_iff, or_false, not_or] at h
  obtain ⟨h0, h1, h2, h3, h4, h5, h6, h7, h8, h9, h10, h11, h12, h13⟩ := h
  have e : ∀ w h : Int, ¬ (ow = w ∧ oh = h) → ¬ (w = ow ∧ h = oh) :=
    fun w h hn hc => hn ⟨hc.1.symm, hc.2.symm⟩
  simp only [thumb_size_list, thumb_size_scan, e _ _ h0, e _ _ h1, e _ _ h2, e _ _ h3,
    e _ _ h4, e _ _ h5, e _ _ h6, e _ _ h7, e _ _ h8, e _ _ h9, e _ _ h10, e _ _ h11,
    e _ _ h12, e _ _ h13, if_false]
  norm_num

/-- C26: thumbnail-size menu round trip.  `add_thumb_size_menu` stages the live pair;
it selects the index of the `thumb_size_list` entry equal to the live pair when there
is one (the fourteen entries are pairwise distinct), and otherwise appends a Custom
entry and selects index 14; `thumb_size_menu_cb` called with the selected index then
stages exactly the live pair.  For every index `n` in 0..13 `thumb_size_menu_cb`
stages `thumb_size_list[n]`, for `n ≥ 14` it stages the live pair, for `n < 0` it
changes nothing, and no index reads outside the table. -/
theorem thumb_size_menu_round_trip (s : PrefState) :
    thumb_size_list.Nodup ∧ thumb_size_list.length = 14 ∧
    (s.add_thumb_size_menu.1 = { s with c_options := { s.c_options with thumbnails :=
      { s.c_options.thumbnails with
        max_width := s.options.thumbnails.max_width
        max_height := s.options.thumbnails.max_height } } }) ∧
    (∀ i : Nat, i < 14 →
      thumb_size_list.get? i
        = some (s.options.thumbnails.max_width, s.options.thumbnails.max_height) →
      s.add_thumb_size_menu.2 = { current := (i : Int), custom := false }) ∧
    ((s.options.thumbnails.max_width, s.options.thumbnails.max_height) ∉ thumb_size_list →
      s.add_thumb_size_menu.2 = { current := 14, custom := true }) ∧
    (∃ t : PrefState,
      s.add_thumb_size_menu.1.thumb_size_menu_cb s.add_thumb_size_menu.2.current = some t ∧
      t.c_options.thumbnails.max_width = s.options.thumbnails.max_width ∧
      t.c_options.thumbnails.max_height = s.options.thumbnails.max_height) ∧
    (∀ n : Int,
      (n < 0 ∧ s.thumb_size_menu_cb n = some s) ∨
      (0 ≤ n ∧ n < 14 ∧ ∃ w h : Int, thumb_size_list.get? n.toNat = some (w, h) ∧
        s.thumb_size_menu_cb n = some { s with c_options := { s.c_options with thumbnails :=
          { s.c_options.thumbnails with max_width := w, max_height := h } } }) ∨
      (14 ≤ n ∧ s.thumb_size_menu_cb n = some { s with c_options := { s.c_options with
        thumbnails := { s.c_options.thumbnails with
          max_width := s.options.thumbnails.max_width
          max_height := s.options.thumbnails.max_height } } })) := by
  have hfound : ∀ i : Nat, i < 14 →
      thumb_size_list.get? i
        = some (s.options.thumbnails.max_width, s.options.thumbnails.max_height) →
      s.add_thumb_size_menu.2 = { current := (i : Int), custom := false } := by
    intro i hi hg
    unfold PrefState.add_thumb_size_menu
    simp only [thumb_size_scan_found _ _ i hi hg]
    rw [if_neg (by omega)]
  have hnot : (s.options.thumbnails.max_width, s.options.thumbnails.max_height)
      ∉ thumb_size_list → s.add_thumb_size_menu.2 = { current := 14, custom := true } := by
    intro h
    unfold PrefState.add_thumb_size_menu
    simp only [thumb_size_scan_not_found _ _ h]
    rfl
  have h1 : s.add_thumb_size_menu.1 = { s with c_options := { s.c_options with thumbnails :=
      { s.c_options.thumbnails with
        max_width := s.options.thumbnails.max_width
        max_height := s.options.thumbnails.max_height } } } := by
    unfold PrefState.add_thumb_size_menu
    simp only []
    split <;> rfl
  refine ⟨by decide, rfl, h1, hfound, hnot, ?_, fun n => thumb_size_menu_cb_cases s n⟩
  by_cases hm : (s.options.thumbnails.max_width, s.options.thumbnails.max_height)
      ∈ thumb_size_list
  · obtain ⟨i, hi, hg⟩ := List.getElem_of_mem hm
    have hi14 : i < 14 := hi
    have hg2 : thumb_size_list.get? i
        = some (s.options.thumbnails.max_width, s.options.thumbnails.max_height) := by
      rw [List.get?_eq_getElem?, List.getElem?_eq_getElem hi, hg]
    rw [hfound i hi14 hg2]
    rcases thumb_size_menu_cb_cases s.add_thumb_size_menu.1 (i : Int) with h | h | h
    · omega
    · obtain ⟨_, _, w, h', hget, he⟩ := h
      rw [Int.toNat_ofNat, hg2] at hget
      simp only [Option.some.injEq, Prod.mk.injEq] at hget
      refine ⟨_, he, ?_, ?_⟩
      · exact hget.1.symm
      · exact hget.2.symm
    · omega
  · rw [hnot hm]
    rcases thumb_size_menu_cb_cases s.add_thumb_size_menu.1 14 with h | h | h
    · omega
    · omega
    · refine ⟨_, h.2, ?_, ?_⟩
      · rw [h1]
      · rw [h1]


/-- Witness of C25 at the example state, whose staged thumbnail size differs from the
live one: `thumb_format_changed` becomes TRUE and one refresh is requested. -/
theorem apply_refresh_exactly_when_needed_witness :
    examplePrefState.thumbnails_differ ∧ examplePrefState.refresh_needed ∧
    (examplePrefState.config_window_apply exampleConsts).thumb_format_changed = true ∧
    (examplePrefState.config_window_apply exampleConsts).refresh_requests
      = examplePrefState.refresh_requests + 1 :=
  ⟨by decide, by decide,
   (apply_refresh_exactly_when_needed examplePrefState exampleConsts).2.2.1 (by decide),
   (apply_refresh_exactly_when_needed examplePrefState exampleConsts).1.2 (by decide)⟩

/-- Witness of C26 at the example state, whose live thumbnail size is 96 x 72: entry 4
is selected and no Custom entry is appended. -/
theorem thumb_size_menu_round_trip_witness :
    thumb_size_list.get? 4
      = some (examplePrefState.options.thumbnails.max_width,
          examplePrefState.options.thumbnails.max_height) ∧
    examplePrefState.add_thumb_size_menu.2 = { current := 4, custom := false } :=
  ⟨by decide,
   (thumb_size_menu_round_trip examplePrefState).2.2.2.1 4 (by decide) (by decide)⟩


theorem edit_preserves (s : PrefState) (K : StereoConsts) (minS : ℚ) (e : Edit) :
    OnlyStaged s (s.edit K minS e) ∧
    (s.edit K minS e).c_options.file_filter.show_dot_directory
      = s.c_options.file_filter.show_dot_directory := by
  cases e with
  | thumb_size n =>
    simp only [PrefState.edit]
    rcases thumb_size_menu_cb_cases s n with h | h | h
    · rw [h.2]
      exact ⟨⟨rfl, rfl, rfl, rfl⟩, rfl⟩
    · obtain ⟨_, _, w, h', _, he⟩ := h
      rw [he]
      exact ⟨⟨rfl, rfl, rfl, rfl⟩, rfl⟩
    · rw [h.2]
      exact ⟨⟨rfl, rfl, rfl, rfl⟩, rfl⟩
  | _ => exact ⟨⟨rfl, rfl, rfl, rfl⟩, rfl⟩

theorem edits_preserve (K : StereoConsts) (minS : ℚ) (es : List Edit) :
    ∀ s : PrefState, OnlyStaged s (s.edits K minS es) ∧
      (s.edits K minS es).c_options.file_filter.show_dot_directory
        = s.c_options.file_filter.show_dot_directory := by
  induction es with
  | nil =>
    intro s
    exact ⟨⟨rfl, rfl, rfl, rfl⟩, rfl⟩
  | cons e es ih =>
    intro s
    have h1 := edit_preserves s K minS e
    have h2 := ih (s.edit K minS e)
    have e0 : s.edits K minS (e :: es) = (s.edit K minS e).edits K minS es := rfl
    rw [e0]
    obtain ⟨⟨a1, a2, a3, a4⟩, a5⟩ := h1
    obtain ⟨⟨b1, b2, b3, b4⟩, b5⟩ := h2
    exact ⟨⟨b1.trans a1, b2.trans a2, b3.trans a3, b4.trans a4⟩, b5.trans a5⟩

/-- C23: edits are discarded on cancel.  For every sequence of staged edits through
the slideshow delay callbacks, `zoom_increment_cb`, `thumb_size_menu_cb` and
`stereo_mode_menu_cb`, followed by `config_window_close_cb`: the live options are the
same as before the edits; opening the dialog again gives the same state as opening it
after a cancel without any edit, with the staged `slideshow.delay`,
`image.zoom_increment`, `thumbnails.max_width/max_height` and `stereo.mode/fsmode`
reset to the live values; so a later `config_window_apply` gives the same state as
without the cancelled edits and leaves the live delay, zoom increment and thumbnail
size as they were. -/
theorem cancel_discards_edits (s : PrefState) (K : StereoConsts) (minS : ℚ)
    (es : List Edit) :
    ((s.edits K minS es).config_window_close_cb).options = s.options ∧
    ((s.edits K minS es).config_window_close_cb).show_config_window K
      = (s.config_window_close_cb).show_config_window K ∧
    ((((s.edits K minS es).config_window_close_cb).show_config_window K).c_options.slideshow.delay
        = s.options.slideshow.delay ∧
      (((s.edits K minS es).config_window_close_cb).show_config_window K).c_options.image.zoom_increment
        = s.options.image.zoom_increment ∧
      (((s.edits K minS es).config_window_close_cb).show_config_window K).c_options.thumbnails.max_width
        = s.options.thumbnails.max_width ∧
      (((s.edits K minS es).config_window_close_cb).show_config_window K).c_options.thumbnails.max_height
        = s.options.thumbnails.max_height ∧
      (((s.edits K minS es).config_window_close_cb).show_config_window K).c_options.stereo.mode
        = s.options.stereo.mode ∧
      (((s.edits K minS es).config_window_close_cb).show_config_window K).c_options.stereo.fsmode
        = s.options.stereo.fsmode) ∧
    ((((s.edits K minS es).config_window_close_cb).show_config_window K).config_window_apply K
      = ((s.config_window_close_cb).show_config_window K).config_window_apply K) ∧
    (((((s.edits K minS es).config_window_close_cb).show_config_window K).config_window_apply
          K).options.slideshow.delay = s.options.slideshow.delay ∧
      ((((s.edits K minS es).config_window_close_cb).show_config_window K).config_window_apply
          K).options.image.zoom_increment = s.options.image.zoom_increment ∧
      ((((s.edits K minS es).config_window_close_cb).show_config_window K).config_window_apply
          K).options.thumbnails.max_width = s.options.thumbnails.max_width ∧
      ((((s.edits K minS es).config_window_close_cb).show_config_window K).config_window_apply
          K).options.thumbnails.max_height = s.options.thumbnails.max_height) := by
  obtain ⟨⟨a1, _, a3, a4⟩, a5⟩ := edits_preserve K minS es s
  have hopen : ((s.edits K minS es).config_window_close_cb).show_config_window K
      = (s.config_window_close_cb).show_config_window K := by
    simp only [PrefState.show_config_window, PrefState.config_window_close_cb,
      PrefState.config_window_create, a1, a3, a4, a5]
    rfl
  have hshow : (s.config_window_close_cb).show_config_window K
      = (s.config_window_close_cb).config_window_create K := rfl
  refine ⟨a1, hopen, ?_, ?_, ?_⟩
  · rw [hopen, hshow]
    exact ⟨rfl, rfl, rfl, rfl, rfl, rfl⟩
  · rw [hopen]
  · rw [hopen, hshow]
    have ht := apply_thumbnails ((s.config_window_close_cb).config_window_create K) K
    refine ⟨rfl, rfl, ?_, ?_⟩
    · rw [ht]
      rfl
    · rw [ht]
      rfl


/-! ## Thumbnail cache and file filter toggles: properties -/

theorem cache_toggle_not_both (e : CacheToggle) (t : ThumbCacheOptions) : ¬ (e.run t).both := by
  cases e with
  | standard active =>
    simp only [CacheToggle.run, cache_standard_cb, ThumbCacheOptions.both]
    split <;> simp
  | geeqie active =>
    simp only [CacheToggle.run, cache_geeqie_cb, ThumbCacheOptions.both]
    split <;> simp
  | local_dirs active =>
    simp only [CacheToggle.run, cache_local_cb, ThumbCacheOptions.both]
    split <;> simp

theorem run_cache_toggles_append (ts : List CacheToggle) (e : CacheToggle)
    (t : ThumbCacheOptions) :
    run_cache_toggles (ts ++ [e]) t = e.run (run_cache_toggles ts t) := by
  simp [run_cache_toggles, List.foldl_append]

/-- C27: thumbnail cache mode exclusion.  Every call of `cache_standard_cb`,
`cache_geeqie_cb` or `cache_local_cb`, with the toggle active or inactive and from any
pre-state, ends in a state where `spec_standard` and `cache_into_dirs` are not both
TRUE; hence no non-empty sequence of these callbacks ends in a state with both set,
and no sequence does from a state in which they are not both set. -/
theorem cache_mode_exclusion (t : ThumbCacheOptions) :
    (∀ active : Int, ¬ (cache_standard_cb active t).both ∧
      ¬ (cache_geeqie_cb active t).both ∧ ¬ (cache_local_cb active t).both) ∧
    (∀ ts : List CacheToggle, ts ≠ [] → ¬ (run_cache_toggles ts t).both) ∧
    (∀ ts : List CacheToggle, ¬ t.both → ¬ (run_cache_toggles ts t).both) := by
  have hne : ∀ ts : List CacheToggle, ts ≠ [] → ¬ (run_cache_toggles ts t).both := by
    intro ts hts
    rcases List.eq_nil_or_concat ts with h | ⟨L, e, h⟩
    · exact absurd h hts
    · rw [h, List.concat_eq_append, run_cache_toggles_append]
      exact cache_toggle_not_both e _
  refine ⟨fun active => ⟨cache_toggle_not_both (.standard active) t,
    cache_toggle_not_both (.geeqie active) t, cache_toggle_not_both (.local_dirs active) t⟩,
    hne, ?_⟩
  intro ts ht
  by_cases hts : ts = []
  · rw [hts]
    exact ht
  · exact hne ts hts

/-- Witness of C27 from the pre-state with both fields TRUE: activating the local
cache leaves `cache_into_dirs` set and `spec_standard` clear. -/
theorem cache_mode_exclusion_witness :
    (⟨1, 1⟩ : ThumbCacheOptions).both ∧
    cache_local_cb 1 ⟨1, 1⟩ = ⟨0, 1⟩ ∧
    ¬ (run_cache_toggles [.local_dirs 1] ⟨1, 1⟩).both :=
  ⟨⟨by decide, by decide⟩, by decide,
   (cache_mode_exclusion ⟨1, 1⟩).2.1 [.local_dirs 1] (by simp)⟩

/-- C28, as stated, fails in its last part: on an entry whose `enabled` holds the
non-zero value 2, `filter_store_enable_cb` applied twice leaves `enabled = 1`, which
is not the entry it started from. -/
theorem filter_enable_twice_not_restored :
    filter_store_enable_cb
        (filter_store_enable_cb ⟨"jpeg", "JPEG group", ".jpg;.jpeg", 1, 2, 0, 1⟩)
      = ⟨"jpeg", "JPEG group", ".jpg;.jpeg", 1, 1, 0, 1⟩ ∧
    filter_store_enable_cb
        (filter_store_enable_cb ⟨"jpeg", "JPEG group", ".jpg;.jpeg", 1, 2, 0, 1⟩)
      ≠ ⟨"jpeg", "JPEG group", ".jpg;.jpeg", 1, 2, 0, 1⟩ := by
  decide

/-- C28, amended: a file filter entry is never both writable and sidecar-allowed
after a toggle.  For every `FilterEntry`, `filter_store_writable_cb` flips `writable` and
leaves `writable` and `allow_sidecar` not both TRUE, `filter_store_sidecar_cb` flips
`allow_sidecar` and leaves them not both TRUE; neither changes `enabled`,
`extensions`, `description` or `file_class`; `filter_store_enable_cb` flips only
`enabled`, and applying it twice restores the truth value of `enabled`, and the entry
itself when `enabled` is `TRUE` (1) or `FALSE` (0). -/
theorem filter_toggles (fe : FilterEntry) :
    ((filter_store_writable_cb fe).writable = c_not fe.writable ∧
      ¬ ((filter_store_writable_cb fe).writable ≠ 0 ∧
        (filter_store_writable_cb fe).allow_sidecar ≠ 0) ∧
      { filter_store_writable_cb fe with
        writable := fe.writable, allow_sidecar := fe.allow_sidecar } = fe) ∧
    ((filter_store_sidecar_cb fe).allow_sidecar = c_not fe.allow_sidecar ∧
      ¬ ((filter_store_sidecar_cb fe).writable ≠ 0 ∧
        (filter_store_sidecar_cb fe).allow_sidecar ≠ 0) ∧
      { filter_store_sidecar_cb fe with
        writable := fe.writable, allow_sidecar := fe.allow_sidecar } = fe) ∧
    ((filter_store_enable_cb fe).enabled = c_not fe.enabled ∧
      { filter_store_enable_cb fe with enabled := fe.enabled } = fe ∧
      ((filter_store_enable_cb (filter_store_enable_cb fe)).enabled ≠ 0 ↔ fe.enabled ≠ 0) ∧
      (fe.enabled = 0 ∨ fe.enabled = 1 →
        filter_store_enable_cb (filter_store_enable_cb fe) = fe)) := by
  refine ⟨⟨?_, ?_, ?_⟩, ⟨?_, ?_, ?_⟩, ⟨rfl, rfl, ?_, ?_⟩⟩
  · simp only [filter_store_writable_cb]
    split <;> rfl
  · simp only [filter_store_writable_cb]
    split <;> simp_all
  · simp only [filter_store_writable_cb]
    split <;> rfl
  · simp only [filter_store_sidecar_cb]
    split <;> rfl
  · simp only [filter_store_sidecar_cb]
    split <;> simp_all
  · simp only [filter_store_sidecar_cb]
    split <;> rfl
  · simp only [filter_store_enable_cb, c_not]
    by_cases h : fe.enabled = 0 <;> simp [h]
  · intro h
    have e : c_not (c_not fe.enabled) = fe.enabled := by
      rcases h with h | h <;> simp [c_not, h]
    simp only [filter_store_enable_cb, e]

/-- Witness of the amended C28: an entry that is enabled and sidecar-allowed; making it writable
clears `allow_sidecar`, and toggling `enabled` twice restores it. -/
theorem filter_toggles_witness :
    filter_store_writable_cb ⟨"jpeg", "JPEG group", ".jpg;.jpeg", 1, 1, 0, 1⟩
      = ⟨"jpeg", "JPEG group", ".jpg;.jpeg", 1, 1, 1, 0⟩ ∧
    ((1 : Int) = 0 ∨ (1 : Int) = 1) ∧
    filter_store_enable_cb
        (filter_store_enable_cb ⟨"jpeg", "JPEG group", ".jpg;.jpeg", 1, 1, 0, 1⟩)
      = ⟨"jpeg", "JPEG group", ".jpg;.jpeg", 1, 1, 0, 1⟩ :=
  ⟨by decide, Or.inr rfl,
   (filter_toggles ⟨"jpeg", "JPEG group", ".jpg;.jpeg", 1, 1, 0, 1⟩).2.2.2.2.2 (Or.inr rfl)⟩


/-! ## Accelerator store: properties -/

theorem accel_store_set_key_length (rows : List AccelRow) (i : Nat) (v : String) :
    (accel_store_set_key rows i v).length = rows.length := by
  induction rows generalizing i with
  | nil => rfl
  | cons r rs ih =>
    cases i with
    | zero => rfl
    | succ i => simp [accel_store_set_key, ih]

theorem accel_store_set_key_get_self (rows : List AccelRow) (i : Nat) (v : String) :
    (accel_store_set_key rows i v)[i]?
      = (rows[i]?).map (fun r => { r with key := v }) := by
  induction rows generalizing i with
  | nil => rfl
  | cons r rs ih =>
    cases i with
    | zero => simp [accel_store_set_key]
    | succ i => simp [accel_store_set_key, ih]

theorem accel_store_set_key_get_other (rows : List AccelRow) (i j : Nat) (v : String)
    (h : j ≠ i) : (accel_store_set_key rows i v)[j]? = rows[j]? := by
  induction rows generalizing i j with
  | nil => rfl
  | cons r rs ih =>
    cases i with
    | zero =>
      cases j with
      | zero => exact absurd rfl h
      | succ j => simp [accel_store_set_key]
    | succ i =>
      cases j with
      | zero => simp [accel_store_set_key]
      | succ j =>
        simp only [accel_store_set_key, List.getElem?_cons_succ]
        exact ih i j (by omega)

theorem accel_remove_key_cb_eq (A : GtkAccelerator) (acc : String) (r : AccelRow) :
    accel_remove_key_cb A acc r
      = if A.parse r.key = A.parse acc then { r with key := "" } else r := by
  unfold accel_remove_key_cb
  by_cases h : A.parse r.key = A.parse acc
  · rw [if_pos h, if_pos ⟨by rw [h], by rw [h]⟩]
  · rw [if_neg h, if_neg]
    intro hc
    exact h (Prod.ext hc.1.symm hc.2.symm)

theorem accel_give_key_edited (A : GtkAccelerator) (rows : List AccelRow) (i : Nat)
    (acc : String) :
    AccelEdited A rows (accel_store_set_key (accel_store_remove_key A acc rows) i acc) i acc := by
  refine ⟨?_, ?_, ?_, ?_⟩
  · rw [accel_store_set_key_length]
    simp [accel_store_remove_key]
  · intro r hr
    rw [accel_store_set_key_get_self]
    simp only [accel_store_remove_key, List.getElem?_map, hr, Option.map_some']
    rw [accel_remove_key_cb_eq]
    split <;> rfl
  · intro j r hj hr hp
    rw [accel_store_set_key_get_other _ _ _ _ hj]
    simp only [accel_store_remove_key, List.getElem?_map, hr, Option.map_some']
    rw [accel_remove_key_cb_eq, if_pos hp]
  · intro j r hj hr hp
    rw [accel_store_set_key_get_other _ _ _ _ hj]
    simp only [accel_store_remove_key, List.getElem?_map, hr, Option.map_some']
    rw [accel_remove_key_cb_eq, if_neg hp]

theorem accelEdited_unique (A : GtkAccelerator) (rows after : List AccelRow) (i : Nat)
    (acc : String) (hi : i < rows.length) (he : AccelEdited A rows after i acc)
    (hu : AccelUnique rows) : AccelUnique after := by
  obtain ⟨hlen, hself, hrem, hkeep⟩ := he
  have hrow : ∀ j, j < rows.length → ∃ r, rows[j]? = some r := by
    intro j hj
    exact ⟨rows[j], List.getElem?_eq_getElem hj⟩
  have hlt : ∀ j r, after[j]? = some r → j < rows.length := by
    intro j r h
    have := (List.getElem?_eq_some.1 h).1
    omega
  -- the shape of every row of `after`
  have shape : ∀ j r', after[j]? = some r' →
      (j = i ∧ r'.key = acc) ∨
      (j ≠ i ∧ r'.key = "") ∨
      (j ≠ i ∧ rows[j]? = some r' ∧ A.parse r'.key ≠ A.parse acc) := by
    intro j r' h
    obtain ⟨r, hr⟩ := hrow j (hlt j r' h)
    by_cases hj : j = i
    · subst hj
      have := hself r hr
      rw [h] at this
      left
      refine ⟨rfl, ?_⟩
      rw [Option.some.inj this]
    · right
      by_cases hp : A.parse r.key = A.parse acc
      · have := hrem j r hj hr hp
        rw [h] at this
        left
        refine ⟨hj, ?_⟩
        rw [Option.some.inj this]
      · have := hkeep j r hj hr hp
        rw [h] at this
        right
        have e := Option.some.inj this
        rw [e]
        exact ⟨hj, hr, hp⟩
  intro a b ra rb hab ha hb hne heq
  rcases shape a ra ha with ⟨ha1, ha2⟩ | ⟨_, ha2⟩ | ⟨ha1, ha2, ha3⟩
  · rcases shape b rb hb with ⟨hb1, _⟩ | ⟨_, hb2⟩ | ⟨_, _, hb3⟩
    · exact hab (ha1.trans hb1.symm)
    · rw [hb2] at heq
      exact hne heq
    · rw [← heq, ha2] at hb3
      exact hb3 rfl
  · exact hne ha2
  · rcases shape b rb hb with ⟨_, hb2⟩ | ⟨_, hb2⟩ | ⟨_, hb2, _⟩
    · rw [heq, hb2] at ha3
      exact ha3 rfl
    · rw [hb2] at heq
      exact hne heq
    · exact hu a b ra rb hab ha2 hb2 hne heq


theorem exampleAccelerator_round_trip (k : Nat × Nat) :
    exampleAccelerator.parse (exampleAccelerator.name k) = k := by
  obtain ⟨a, b⟩ := k
  simp [exampleAccelerator, List.count_replicate]

/-- C29: an accelerator is held by at most one row after an edit.  With the store as a
list of rows, and `gtk_accelerator_parse` of `gtk_accelerator_name(k, m)` returning
`(k, m)`: if before `accel_store_edited_cb` no two rows hold the same non-empty
accelerator, then afterwards the edited row holds the new accelerator `acc`, every
other row whose key parsed to the same key and modifiers as `acc` holds the empty
string, every remaining row is unchanged, and again no two rows hold the same
non-empty accelerator.  The same holds for `accel_reset_selection`. -/
theorem accel_edit_unique (A : GtkAccelerator) (hA : ∀ k, A.parse (A.name k) = k)
    (rows : List AccelRow) (i : Nat) (hi : i < rows.length) (hu : AccelUnique rows)
    (key : Nat × Nat) (lookup : String → Nat × Nat) :
    (AccelEdited A rows (accel_store_edited_cb A rows i key) i (A.name key) ∧
      A.parse (A.name key) = key ∧
      AccelUnique (accel_store_edited_cb A rows i key)) ∧
    (∃ r, rows[i]? = some r ∧
      AccelEdited A rows (accel_reset_selection A lookup rows i) i
        (A.name (lookup r.accel)) ∧
      AccelUnique (accel_reset_selection A lookup rows i)) := by
  constructor
  · have he := accel_give_key_edited A rows i (A.name key)
    exact ⟨he, hA key, accelEdited_unique A rows _ i _ hi he hu⟩
  · refine ⟨rows[i], List.getElem?_eq_getElem hi, ?_⟩
    have hr : rows[i]? = some rows[i] := List.getElem?_eq_getElem hi
    have e : accel_reset_selection A lookup rows i
        = accel_store_set_key (accel_store_remove_key A (A.name (lookup rows[i].accel)) rows)
            i (A.name (lookup rows[i].accel)) := by
      unfold accel_reset_selection
      rw [hr]
    rw [e]
    have he := accel_give_key_edited A rows i (A.name (lookup rows[i].accel))
    exact ⟨he, accelEdited_unique A rows _ i _ hi he hu⟩


/-- Witness of C29 with the example pair of functions: in a store of three rows
holding the accelerators of the keys (1, 0), (2, 0) and none, giving the key (1, 0) to
the third row leaves the store with no accelerator held twice. -/
theorem accel_edit_unique_witness :
    (∀ k, exampleAccelerator.parse (exampleAccelerator.name k) = k) ∧
    AccelUnique (accel_store_edited_cb exampleAccelerator
      [⟨"Open", "k", "", "<Actions>/Open"⟩, ⟨"Close", "kk", "", "<Actions>/Close"⟩,
       ⟨"Quit", "", "", "<Actions>/Quit"⟩] 2 (1, 0)) :=
  ⟨exampleAccelerator_round_trip,
   (accel_edit_unique exampleAccelerator exampleAccelerator_round_trip
      [⟨"Open", "k", "", "<Actions>/Open"⟩, ⟨"Close", "kk", "", "<Actions>/Close"⟩,
       ⟨"Quit", "", "", "<Actions>/Quit"⟩] 2 (by decide)
      (by
        intro a b ra rb hab ha hb hne
        have ha3 : a < 3 := (List.getElem?_eq_some.1 ha).1
        have hb3 : b < 3 := (List.getElem?_eq_some.1 hb).1
        interval_cases a <;> interval_cases b <;> simp_all <;>
          (subst ha; subst hb; decide))
      (1, 0) (fun _ => (0, 0))).1.2.2⟩

/-! ## The authors table: properties -/

theorem fgets_line_rest_le (n : Nat) (stream : List Char) :
    (fgets_line n stream).2.length ≤ stream.length := by
  induction n generalizing stream with
  | zero => simp [fgets_line]
  | succ n ih =>
    cases stream with
    | nil => simp [fgets_line]
    | cons c rest =>
      simp only [fgets_line]
      split
      · simp
      · have := ih rest
        simp only [List.length_cons]
        omega

theorem fgets_rest_lt (stream line rest : List Char)
    (h : fgets LINE_LENGTH stream = some (line, rest)) : rest.length < stream.length := by
  cases stream with
  | nil => simp [fgets] at h
  | cons c cs =>
    simp only [fgets, LINE_LENGTH, Option.some.injEq] at h
    have e : (1000 - 1 : Nat) = 998 + 1 := by norm_num
    rw [e] at h
    simp only [fgets_line] at h
    split at h
    · have := congrArg Prod.snd h
      simp only at this
      rw [← this]
      simp
    · have := congrArg Prod.snd h
      simp only at this
      rw [← this]
      have := fgets_line_rest_le 998 cs
      simp only [List.length_cons]
      omega

theorem authors_loop_fuel (f1 : Nat) :
    ∀ (f2 : Nat) (stream : List Char) (i : Nat), stream.length ≤ f1 → stream.length ≤ f2 →
      authors_loop f1 stream i = authors_loop f2 stream i := by
  induction f1 with
  | zero =>
    intro f2 stream i h1 _
    have hs : stream = [] := List.length_eq_zero.1 (by omega)
    subst hs
    cases f2 <;> simp [authors_loop, fgets]
  | succ f1 ih =>
    intro f2 stream i h1 h2
    cases f2 with
    | zero =>
      have hs : stream = [] := List.length_eq_zero.1 (by omega)
      subst hs
      simp [authors_loop, fgets]
    | succ f2 =>
      simp only [authors_loop]
      rcases hf : fgets LINE_LENGTH stream with _ | ⟨line, rest⟩
      · rfl
      · have hlt := fgets_rest_lt stream line rest hf
        simp only
        rw [ih f2 rest (i + 1) (by omega) (by omega)]

theorem fgets_reads_fuel (f1 : Nat) :
    ∀ (f2 : Nat) (stream : List Char), stream.length ≤ f1 → stream.length ≤ f2 →
      fgets_reads f1 stream = fgets_reads f2 stream := by
  induction f1 with
  | zero =>
    intro f2 stream h1 _
    have hs : stream = [] := List.length_eq_zero.1 (by omega)
    subst hs
    cases f2 <;> simp [fgets_reads, fgets]
  | succ f1 ih =>
    intro f2 stream h1 h2
    cases f2 with
    | zero =>
      have hs : stream = [] := List.length_eq_zero.1 (by omega)
      subst hs
      simp [fgets_reads, fgets]
    | succ f2 =>
      simp only [fgets_reads]
      rcases hf : fgets LINE_LENGTH stream with _ | ⟨line, rest⟩
      · rfl
      · have hlt := fgets_rest_lt stream line rest hf
        simp only
        rw [ih f2 rest (by omega) (by omega)]

theorem authors_loop_indices (fuel : Nat) :
    ∀ (stream : List Char) (i : Nat),
      (authors_loop fuel stream i).map Prod.fst
        = List.range' i (fgets_reads fuel stream + 1) := by
  induction fuel with
  | zero =>
    intro stream i
    simp [authors_loop, fgets_reads]
  | succ fuel ih =>
    intro stream i
    simp only [authors_loop, fgets_reads]
    rcases hf : fgets LINE_LENGTH stream with _ | ⟨line, rest⟩
    · simp
    · simp only [List.map_cons]
      rw [ih rest (i + 1)]
      simp [List.range'_succ]


theorem fgets_reads_newlines (k : Nat) :
    fgets_reads k (List.replicate k (Char.ofNat 10)) = k := by
  induction k with
  | zero => rfl
  | succ k ih =>
    simp only [fgets_reads, List.replicate_succ, fgets, LINE_LENGTH]
    have e : (1000 - 1 : Nat) = 998 + 1 := by norm_num
    rw [e]
    simp only [fgets_line, if_true]
    rw [ih]

/-- C24, evaluated at a failing input: for the AUTHORS content `Alice`, newline, `Bob`
(the last line not ending in a newline) `show_about_window` stores `Alice` and `Bo`:
the last character of the last line is removed, although the lines of the file are
`Alice` and `Bob`. -/
theorem authors_last_line_truncated :
    show_about_window_authors ['A', 'l', 'i', 'c', 'e', Char.ofNat 10, 'B', 'o', 'b']
      = [(0, some ['A', 'l', 'i', 'c', 'e']), (1, some ['B', 'o']), (2, none)] ∧
    text_lines ['A', 'l', 'i', 'c', 'e', Char.ofNat 10, 'B', 'o', 'b']
      = [['A', 'l', 'i', 'c', 'e'], ['B', 'o', 'b']] := by
  constructor
  · decide
  · decide

/-- C30: bounds of the authors table.  The writes `authors[i_authors]` of
`show_about_window` (one per successful `fgets` read, then the terminating NULL) go to
the indices 0, 1, ..., n in this order, n being the number of successful reads (the
length of the content is enough fuel for the loop to reach the end of the file); with
`authors` an array of 1000 slots, every write is in bounds if and only if the file
yields at most 999 reads, and with 1000 or more reads an index ≥ 1000 is written. -/
theorem authors_bounds (content : List Char) :
    (∀ fuel : Nat, content.length ≤ fuel →
      authors_loop fuel content 0 = show_about_window_authors content ∧
      fgets_reads fuel content = fgets_reads content.length content) ∧
    (show_about_window_authors content).map Prod.fst
      = List.range (fgets_reads content.length content + 1) ∧
    ((∀ p ∈ show_about_window_authors content, p.1 < AUTHORS_SLOTS) ↔
      fgets_reads content.length content ≤ 999) ∧
    (1000 ≤ fgets_reads content.length content →
      ∃ p ∈ show_about_window_authors content, AUTHORS_SLOTS ≤ p.1) := by
  have hidx : (show_about_window_authors content).map Prod.fst
      = List.range (fgets_reads content.length content + 1) := by
    unfold show_about_window_authors
    rw [authors_loop_indices, List.range_eq_range']
  have hmem : ∀ j : Nat, (∃ p ∈ show_about_window_authors content, p.1 = j) ↔
      j < fgets_reads content.length content + 1 := by
    intro j
    rw [← List.mem_range, ← hidx, List.mem_map]
  refine ⟨?_, hidx, ?_, ?_⟩
  · intro fuel hf
    exact ⟨authors_loop_fuel fuel content.length content 0 hf (le_refl _),
      fgets_reads_fuel fuel content.length content hf (le_refl _)⟩
  · constructor
    · intro h
      obtain ⟨p, hp, hj⟩ := (hmem (fgets_reads content.length content)).2 (by omega)
      have := h p hp
      rw [hj] at this
      unfold AUTHORS_SLOTS at this
      omega
    · intro h p hp
      have := (hmem p.1).1 ⟨p, hp, rfl⟩
      unfold AUTHORS_SLOTS
      omega
  · intro h
    obtain ⟨p, hp, hj⟩ := (hmem (fgets_reads content.length content)).2 (by omega)
    refine ⟨p, hp, ?_⟩
    rw [hj]
    unfold AUTHORS_SLOTS
    omega

/-- Witness of C30: an AUTHORS file of 1000 newlines yields 1000 reads, and a write
goes to an index that is not below 1000. -/
theorem authors_bounds_witness :
    fgets_reads (List.replicate 1000 (Char.ofNat 10)).length
      (List.replicate 1000 (Char.ofNat 10)) = 1000 ∧
    ∃ p ∈ show_about_window_authors (List.replicate 1000 (Char.ofNat 10)),
      AUTHORS_SLOTS ≤ p.1 := by
  have e : (List.replicate 1000 (Char.ofNat 10)).length = 1000 := List.length_replicate _ _
  have hr : fgets_reads (List.replicate 1000 (Char.ofNat 10)).length
      (List.replicate 1000 (Char.ofNat 10)) = 1000 := by
    rw [e]
    exact fgets_reads_newlines 1000
  exact ⟨hr, (authors_bounds (List.replicate 1000 (Char.ofNat 10))).2.2.2 (by rw [hr])⟩


end Geeqie
